import Mathlib

/-!
# Verification of the evolver-nn simulation engine

Shallow embedding, in Lean 4, of the self-modifying reservoir-computing
simulator found in `src/src/engine/simulationEngine.ts` (class
`EvolutionaryChaosNetwork`) and its strategy controller
`src/src/engine/metaController.ts` (class `BicameralMetaController`).

Modelling conventions:

* JavaScript numbers are modelled as rationals (`ℚ`).  The transcendental
  functions the source calls (`Math.tanh`, `Math.sqrt`, `Math.exp`,
  `Math.log2`) are uninterpreted parameters bundled in an `Ops` record, so
  every definition stays executable and theorems quantify over them.
* `Math.random()` draws are external inputs: each call site receives its own
  explicit stream of rationals (an `Oracle` record per tick).  This matches
  the spec's remark that randomness is the only nondeterminism and should be
  isolable behind a seedable source.
* `Float32Array`s are `List ℚ`; the weight matrix keeps the source's flat
  row-major layout with stride `maxNeurons` (index `i * maxNeurons + j`).
* `NaN` is not representable in `ℚ`; the one place the source branches on
  `isNaN` (the explosion guard in `step()`) takes the flag as an oracle
  input `errIsNaN`, mirroring the source's branch structure exactly.
* Log strings are abstracted to a `LogEvent` inductive (one constructor per
  `logEvent` call site); the status string is abstracted to a `Status`
  inductive with one constructor per status literal of the source.
-/

namespace EvolverNN

/-! ## Small list toolkit -/

/-- Indexed map starting at offset `k` (used to model in-place array writes). -/
def mapIdxFrom (f : Nat → α → α) : Nat → List α → List α
  | _, [] => []
  | k, a :: as => f k a :: mapIdxFrom f (k + 1) as

/-- Indexed map over a list, modelling a `for` loop writing each cell once. -/
def mapI (f : Nat → α → α) (l : List α) : List α :=
  mapIdxFrom f 0 l

theorem length_mapIdxFrom (f : Nat → α → α) (k : Nat) (l : List α) :
    (mapIdxFrom f k l).length = l.length := by
  induction l generalizing k with
  | nil => rfl
  | cons a as ih => simp [mapIdxFrom, ih]

theorem length_mapI (f : Nat → α → α) (l : List α) :
    (mapI f l).length = l.length :=
  length_mapIdxFrom f 0 l

theorem getD_mapIdxFrom (f : Nat → α → α) (k i : Nat) (l : List α) (d : α) :
    (mapIdxFrom f k l).getD i d =
      if i < l.length then f (k + i) (l.getD i d) else d := by
  induction l generalizing k i with
  | nil => simp [mapIdxFrom]
  | cons a as ih =>
    cases i with
    | zero => simp [mapIdxFrom]
    | succ n =>
      simp only [mapIdxFrom, List.getD_cons_succ, ih, List.length_cons]
      have hsucc : k + 1 + n = k + (n + 1) := by omega
      have : (n < as.length) = (n + 1 < as.length + 1) := by
        simp [Nat.succ_lt_succ_iff]
      rw [hsucc]
      by_cases h : n < as.length
      · simp [h, Nat.succ_lt_succ h]
      · simp [h, fun hh => h (Nat.lt_of_succ_lt_succ hh)]

theorem getD_mapI (f : Nat → α → α) (i : Nat) (l : List α) (d : α) :
    (mapI f l).getD i d = if i < l.length then f i (l.getD i d) else d := by
  simpa using getD_mapIdxFrom f 0 i l d

/-- Sum of `f 0 + f 1 + ⋯ + f (n-1)`, modelling an accumulating `for` loop. -/
def sumR (n : Nat) (f : Nat → ℚ) : ℚ :=
  ((List.range n).map f).sum

theorem sumR_zero (f : Nat → ℚ) : sumR 0 f = 0 := rfl

theorem sumR_succ (n : Nat) (f : Nat → ℚ) :
    sumR (n + 1) f = sumR n f + f n := by
  simp [sumR, List.range_succ]

/-! ## JavaScript numeric helpers -/

/-- `Math.max(lo, Math.min(hi, x))`, the clamping idiom used by the source. -/
def jsClamp (lo hi x : ℚ) : ℚ :=
  max lo (min hi x)

/-- `Math.sign`. -/
def jsSign (x : ℚ) : ℚ :=
  if 0 < x then 1 else if x < 0 then -1 else 0

/-- `Math.floor` into `ℤ`. -/
def jsFloor (x : ℚ) : ℤ :=
  Int.floor x

/-- `Math.floor` of a nonnegative quantity, used as an array index / counter. -/
def jsFloorN (x : ℚ) : Nat :=
  (Int.floor x).toNat

/-- Abstract interface for the transcendental functions used by the source.
`Math.tanh`, `Math.exp`, `Math.sqrt` and `Math.log2` are irrational-valued,
so they are model parameters; all definitions below are exact in them. -/
structure Ops where
  tanh : ℚ → ℚ
  exp : ℚ → ℚ
  sqrt : ℚ → ℚ
  log2 : ℚ → ℚ

/-- `sigmoid(x) = 1 / (1 + exp(-x))` from metaController.ts. -/
def sigmoidQ (ops : Ops) (x : ℚ) : ℚ :=
  1 / (1 + ops.exp (-x))

/-! ## Hyperparameters, regimes and strategies (metaController.ts) -/

/-- The live hyperparameter record (`NetworkState.liveHyperparams`). -/
structure Hyperparams where
  leak : ℚ
  spectral : ℚ
  inputScale : ℚ
  learningRate : ℚ
  smoothingFactor : ℚ
  lvGrowth : ℚ
  lvDecay : ℚ
  outputGain : ℚ
deriving DecidableEq, Repr

/-- `REGIMES.CRUISE` — the "birth state" parameters used by `initializeNetwork`. -/
def REGIMES_CRUISE : Hyperparams :=
  { leak := 3/10, spectral := 7/10, inputScale := 7/10, learningRate := 5/1000
    lvGrowth := 3/100, lvDecay := 8/1000, smoothingFactor := 8/100, outputGain := 8/10 }

/-- The five discrete strategy names of `STRATEGIES` (in `Object.keys` order,
so that `STRATEGY_LIST = [EXPLORE, EXPLOIT, STABILIZE, RESET, CONSOLIDATE]`). -/
inductive StrategyName where
  | EXPLORE
  | EXPLOIT
  | STABILIZE
  | RESET
  | CONSOLIDATE
deriving DecidableEq, Repr

open StrategyName

/-- Parameter presets of `STRATEGIES` in metaController.ts. -/
def STRATEGIES : StrategyName → Hyperparams
  | EXPLORE =>
    { leak := 5/10, spectral := 85/100, inputScale := 1, learningRate := 2/100
      lvGrowth := 8/100, lvDecay := 5/1000, outputGain := 11/10, smoothingFactor := 2/100 }
  | EXPLOIT =>
    { leak := 4/10, spectral := 8/10, inputScale := 9/10, learningRate := 8/1000
      lvGrowth := 3/100, lvDecay := 1/100, outputGain := 1, smoothingFactor := 6/100 }
  | STABILIZE =>
    { leak := 4/10, spectral := 85/100, inputScale := 9/10, learningRate := 0
      lvGrowth := 0, lvDecay := 5/1000, outputGain := 1, smoothingFactor := 1/10 }
  | RESET =>
    { leak := 6/10, spectral := 9/10, inputScale := 11/10, learningRate := 2/100
      lvGrowth := 1/10, lvDecay := 2/100, outputGain := 12/10, smoothingFactor := 1/100 }
  | CONSOLIDATE =>
    { leak := 45/100, spectral := 8/10, inputScale := 9/10, learningRate := 2/1000
      lvGrowth := 0, lvDecay := 2/1000, outputGain := 1, smoothingFactor := 1/10 }

/-- `STRATEGY_LIST` (insertion order of the `STRATEGIES` object). -/
def STRATEGY_LIST : List StrategyName :=
  [EXPLORE, EXPLOIT, STABILIZE, RESET, CONSOLIDATE]

/-- `NUM_STRATEGIES`. -/
def NUM_STRATEGIES : Nat := 5

/-- Index of a strategy in `STRATEGY_LIST`. -/
def strategyId : StrategyName → Nat
  | EXPLORE => 0
  | EXPLOIT => 1
  | STABILIZE => 2
  | RESET => 3
  | CONSOLIDATE => 4

/-- `STRATEGY_LIST[i]` with the same out-of-range behaviour irrelevant
(indices are always `< 5` at call sites); defaults to `EXPLORE`. -/
def strategyOfId (i : Nat) : StrategyName :=
  STRATEGY_LIST.getD i EXPLORE

/-! ## Engine configuration, statuses and log events (simulationEngine.ts) -/

/-- `SimulationConfig`. -/
structure SimulationConfig where
  maxNeurons : Nat
  initialNeurons : Nat
  pruneThreshold : ℚ
  patienceLimit : Nat
  solvedThreshold : ℚ
  unlockThreshold : ℚ
  learningSlopeThreshold : ℚ
deriving DecidableEq, Repr

/-- `DEFAULT_CONFIG`. -/
def DEFAULT_CONFIG : SimulationConfig :=
  { maxNeurons := 4096, initialNeurons := 512, pruneThreshold := 1/100
    patienceLimit := 256, solvedThreshold := 1/100, unlockThreshold := 2/100
    learningSlopeThreshold := -5/10000 }

/-- The status labels `step()` can return, one constructor per string literal
(`"GROWING (EXHAUSTION)"` becomes `GROWING_EXHAUSTION`, and so on). -/
inductive Status where
  | STABLE
  | LEARNING
  | STAGNANT
  | SOLVED
  | CONVERGING
  | UNLOCKED
  | STABILIZING
  | GROWING_EXHAUSTION
  | GROWING_DDL
  | PRUNING_DDL
  | REWIRING_DDL
  | GROWING_SYNAPSES
deriving DecidableEq, Repr

/-- Models `status.includes("GROW") || status.includes("OPTIMIZE")` on the
status strings that can actually reach that check (no status mentions
OPTIMIZE). -/
def statusMentionsGrow : Status → Bool
  | Status.GROWING_EXHAUSTION => true
  | Status.GROWING_DDL => true
  | Status.GROWING_SYNAPSES => true
  | _ => false

/-- Abstraction of the strings pushed by `logEvent`, one constructor per call
site (the appended loss suffix and numeric formatting are dropped; counts and
indices that appear in the message are kept as arguments). -/
inductive LogEvent where
  | emergencyStabilization
  | strategyLog (name : StrategyName)
  | overrideStagnation
  | unlock
  | exhaustionGrow
  | ddlGrow
  | ddlPruneAction
  | rewired (n : Nat)
  | ddlPruneRemoved (n : Nat)
  | mitosis (idx : Nat)
  | pruneRemoved (n : Nat)
deriving DecidableEq, Repr

/-- The mutable aggregate owned by the engine: the `NetworkState` record plus
the private per-instance fields of `EvolutionaryChaosNetwork` that `step()`
reads or writes (`recentMSEWindow`, `recentMSE`, `prevRecentMSE`,
`stepCount`, `logQueue`, `solvedGracePeriod`, `structuralCooldown`,
`lastInput`, `dataSeries`).  The `optimizer` sub-record is omitted: the
current `step()` never reads or writes it. -/
structure EngineState where
  activations : List ℚ
  prevActivations : List ℚ
  weights : List ℚ
  readout : List ℚ
  inputWeights : List ℚ
  feedbackWeights : List ℚ
  neuronTypes : List ℤ
  currentSize : Nat
  totalRegrown : Nat
  currentTargetDensity : ℚ
  patienceCounter : Nat
  regressionSlope : ℚ
  isLocked : Bool
  lossWindow : List ℚ
  neuronEnergy : List ℚ
  engramTrace : List ℚ
  liveHyperparams : Hyperparams
  spectralU : List ℚ
  spectralV : List ℚ
  currentSpectralRadius : ℚ
  dataSeries : List ℚ
  recentMSEWindow : List ℚ
  recentMSE : ℚ
  prevRecentMSE : ℚ
  stepCount : Nat
  logQueue : List LogEvent
  solvedGracePeriod : Nat
  structuralCooldown : Nat
  lastInput : ℚ
deriving DecidableEq, Repr

/-- The controller introspection triple returned by
`BicameralMetaController.getState()`. -/
structure CtlView where
  shortTermActivity : ℚ
  longTermActivity : ℚ
  gate : ℚ
deriving DecidableEq, Repr

/-- `SimulationMetrics`. -/
structure SimulationMetrics where
  loss : ℚ
  avgLoss : ℚ
  activeConnections : Nat
  targetConnections : ℤ
  regrown : Nat
  prediction : ℚ
  target : ℚ
  neuronCount : Nat
  patience : Nat
  spectralRadius : ℚ
  adaptationStatus : Status
  dna : Hyperparams
  metaController : CtlView
  logs : List LogEvent
  step : Nat
deriving DecidableEq, Repr

/-! ## Spectral stability regulator (simulationEngine.ts) -/

/-- `normalizeSingleRow`: L1-normalize the first `currentSize` entries of row
`rowIdx` down to `targetSpectral` when the row has positive mass.  The source
loop writes `weights[rowIdx*maxN + j]` for `j < N`; those indices form the
interval `[rowIdx*maxN, rowIdx*maxN + N)`, which is the condition used here. -/
def normalizeSingleRow (cfg : SimulationConfig) (st : EngineState) (rowIdx : Nat)
    (targetSpectral : ℚ) : EngineState :=
  let N := st.currentSize
  let maxN := cfg.maxNeurons
  let s := sumR N (fun j => |st.weights.getD (rowIdx * maxN + j) 0|)
  if 0 < s then
    let w' := mapI (fun idx x =>
      if rowIdx * maxN ≤ idx ∧ idx < rowIdx * maxN + N then x * (targetSpectral / s) else x)
      st.weights
    { st with weights := w' }
  else st

/-- The row-renormalization fold used after structural mutations: renormalize
each touched row to the live spectral target, in insertion order. -/
def normFold (cfg : SimulationConfig) (rows : List Nat) (st : EngineState) : EngineState :=
  rows.foldl (fun s rowIdx => normalizeSingleRow cfg s rowIdx s.liveHyperparams.spectral) st

/-- One power-iteration sweep of `applySpectralNormalization`:
`v ← normalize(Wᵀu)` then `u ← normalize(Wv)`, with the degenerate-norm
(`≤ 1e-9`) case reseeding the vector from the random stream, exactly as the
source.  Entries at index `≥ N` are left untouched (the source loops stop at
`N`). -/
def powerIterOnce (ops : Ops) (maxN N : Nat) (w : List ℚ) (rndV rndU : Nat → ℚ)
    (uv : List ℚ × List ℚ) : List ℚ × List ℚ :=
  let u := uv.1
  let v := uv.2
  let vraw := fun j => sumR N (fun i => w.getD (i * maxN + j) 0 * u.getD i 0)
  let vnorm := ops.sqrt (sumR N (fun j => vraw j * vraw j))
  let v' :=
    if 1 / 1000000000 < vnorm then
      mapI (fun j x => if j < N then vraw j / vnorm else x) v
    else
      mapI (fun j x => if j < N then rndV j - 1/2 else x) v
  let uraw := fun i => sumR N (fun j => w.getD (i * maxN + j) 0 * v'.getD j 0)
  let unorm := ops.sqrt (sumR N (fun i => uraw i * uraw i))
  let u' :=
    if 1 / 1000000000 < unorm then
      mapI (fun i x => if i < N then uraw i / unorm else x) u
    else
      mapI (fun i x => if i < N then rndU i - 1/2 else x) u
  (u', v')

/-- The `iterations`-fold power iteration of `applySpectralNormalization`
(the weight matrix is read-only during this phase). -/
def powerIterate (ops : Ops) (maxN N : Nat) (w : List ℚ) (rndV rndU : Nat → Nat → ℚ)
    (iters : Nat) (uv : List ℚ × List ℚ) : List ℚ × List ℚ :=
  (List.range iters).foldl (fun p it => powerIterOnce ops maxN N w (rndV it) (rndU it) p) uv

/-- The Rayleigh-quotient estimate `σ = uᵀ(Wv)` recomputed at the end of
`applySpectralNormalization`. -/
def sigmaEstimate (maxN N : Nat) (w u v : List ℚ) : ℚ :=
  sumR N (fun i => u.getD i 0 * sumR N (fun j => w.getD (i * maxN + j) 0 * v.getD j 0))

/-- `applySpectralNormalization(net, iterations)`.  After the power iteration,
if `sigma > targetSpectral && sigma > 0` the source scales
`weights[i*maxN+j]` for `i < N, j < N` by `target/sigma` and stores
`currentSpectralRadius = target`; otherwise only the σ estimate is stored.
The scaling loop's write set is `{i*maxN+j : i < N, j < N}`, rendered here as
`idx / maxN < N ∧ idx % maxN < N` (coincides with the loop whenever
`N ≤ maxN`, which holds for every state the engine constructs). -/
def applySpectralNormalization (cfg : SimulationConfig) (ops : Ops)
    (rndV rndU : Nat → Nat → ℚ) (iters : Nat) (st : EngineState) : EngineState :=
  let maxN := cfg.maxNeurons
  let N := st.currentSize
  let target := st.liveHyperparams.spectral
  let uv := powerIterate ops maxN N st.weights rndV rndU iters (st.spectralU, st.spectralV)
  let sigma := sigmaEstimate maxN N st.weights uv.1 uv.2
  if target < sigma ∧ 0 < sigma then
    { st with
      spectralU := uv.1
      spectralV := uv.2
      weights := mapI (fun idx x =>
        if idx / maxN < N ∧ idx % maxN < N then x * (target / sigma) else x) st.weights
      currentSpectralRadius := target }
  else
    { st with spectralU := uv.1, spectralV := uv.2, currentSpectralRadius := sigma }

/-- `calculateNetworkEntropy`: Shannon entropy of the activation histogram
(10 bins over [-1,1]), normalized by `log2(10)`. -/
def calculateNetworkEntropy (ops : Ops) (st : EngineState) : ℚ :=
  let N := st.currentSize
  if N = 0 then 0
  else
    let binOf := fun i =>
      let val := jsClamp (-1) 1 (st.activations.getD i 0)
      min 9 (jsFloorN ((val + 1) * (499/100)))
    let bins : List ℚ := (List.range 10).map (fun b =>
      (((List.range N).filter (fun i => binOf i = b)).length : ℚ))
    let entropy := -((bins.map (fun c =>
      let p := c / (N : ℚ)
      if 0 < p then p * ops.log2 p else 0)).sum)
    entropy / ops.log2 10

/-! ## Bicameral meta-controller (metaController.ts) -/

/-- `LSTMState`. -/
structure LSTMStateQ where
  hidden : List ℚ
  cell : List ℚ
deriving DecidableEq, Repr

/-- `LSTMWeights`. -/
structure LSTMWeightsQ where
  Wi : List ℚ
  Wf : List ℚ
  Wc : List ℚ
  Wo : List ℚ
  Ui : List ℚ
  Uf : List ℚ
  Uc : List ℚ
  Uo : List ℚ
  bi : List ℚ
  bf : List ℚ
  bc : List ℚ
  bo : List ℚ
deriving DecidableEq, Repr

/-- `lstmStep`: gate pre-activations (bias + W·x + U·h, clamped to ±50),
sigmoid/tanh gates, cell state clamped to ±10, hidden `o ⊙ tanh(c)`.
The source's `isNaN` repairs are unrepresentable in `ℚ` and drop out. -/
def lstmStep (ops : Ops) (input : List ℚ) (prev : LSTMStateQ) (w : LSTMWeightsQ)
    (hiddenSize : Nat) : LSTMStateQ :=
  let inputSize := input.length
  let pre := fun (W U b : List ℚ) (j : Nat) =>
    jsClamp (-50) 50 (b.getD j 0
      + sumR inputSize (fun k => W.getD (k * hiddenSize + j) 0 * input.getD k 0)
      + sumR hiddenSize (fun k => U.getD (k * hiddenSize + j) 0 * prev.hidden.getD k 0))
  let newCell := (List.range hiddenSize).map (fun j =>
    jsClamp (-10) 10 (sigmoidQ ops (pre w.Wf w.Uf w.bf j) * prev.cell.getD j 0
      + sigmoidQ ops (pre w.Wi w.Ui w.bi j) * ops.tanh (pre w.Wc w.Uc w.bc j)))
  let newHidden := (List.range hiddenSize).map (fun j =>
    sigmoidQ ops (pre w.Wo w.Uo w.bo j) * ops.tanh (newCell.getD j 0))
  { hidden := newHidden, cell := newCell }

/-- `Math.max(...logits)` (call sites always pass a nonempty list). -/
def jsMaxList (l : List ℚ) : ℚ :=
  l.foldl max (l.headD 0)

/-- `softmax` from metaController.ts. -/
def softmaxQ (ops : Ops) (logits : List ℚ) : List ℚ :=
  let m := jsMaxList logits
  let e := logits.map (fun x => ops.exp (x - m))
  let s := e.sum
  e.map (fun x => x / s)

/-- The sampling loop of `selectStrategy`: walk the cumulative distribution,
return the first index whose cumulative mass exceeds the draw; if the draw
is never exceeded the JS `selected` variable keeps its initial value `0`. -/
def sampleSelectGo (rand : ℚ) : List ℚ → ℚ → Nat → Nat
  | [], _, _ => 0
  | p :: ps, cum, s => if rand < cum + p then s else sampleSelectGo rand ps (cum + p) (s + 1)

/-- Strategy sampling from a probability list and a `Math.random()` draw. -/
def sampleSelect (probs : List ℚ) (rand : ℚ) : Nat :=
  sampleSelectGo rand probs 0 0

/-- The subset of `MetaControllerConfig` read by the embedded methods. -/
structure MetaControllerConfig where
  hiddenSize : Nat
  warmupSteps : Nat
  strategyLockDuration : Nat
  shortTermLR : ℚ
  inputFeaturesSize : Nat
deriving DecidableEq, Repr

/-- `DEFAULT_META_CONFIG` (the fields modelled here). -/
def DEFAULT_META_CONFIG : MetaControllerConfig :=
  { hiddenSize := 32, warmupSteps := 50, strategyLockDuration := 100
    shortTermLR := 5/1000, inputFeaturesSize := 10 }

/-- The controller configuration the engine constructor builds
(`hiddenSize: 128`, `inputFeaturesSize: 10` over the defaults). -/
def engineCtlConfig : MetaControllerConfig :=
  { DEFAULT_META_CONFIG with hiddenSize := 128, inputFeaturesSize := 10 }

/-- Eligibility-trace decay `lambda` of `BicameralMetaController`. -/
def lambdaTrace : ℚ := 95/100

/-- `rewardBaselineAlpha`. -/
def rewardBaselineAlpha : ℚ := 1/100

/-- `MetaControllerState` plus the controller's own `stepCounter` and
`rewardBaseline` instance fields. -/
structure CtlState where
  shortTermState : LSTMStateQ
  longTermState : LSTMStateQ
  gateWeights : List ℚ
  shortTermWeights : LSTMWeightsQ
  longTermWeights : LSTMWeightsQ
  lastInput : Option (List ℚ)
  lastShortOut : Option (List ℚ)
  lastLongOut : Option (List ℚ)
  lastGate : ℚ
  strategyWeights : List ℚ
  lastSelectedStrategy : Nat
  lastStrategyChangeStep : Nat
  strategyEligibility : List ℚ
  stepCounter : Nat
  rewardBaseline : ℚ
deriving DecidableEq, Repr

/-- The record returned by `selectStrategy`. -/
structure StrategyResult where
  strategyId : Nat
  strategyName : StrategyName
  params : Hyperparams
  shortTermActivity : ℚ
  longTermActivity : ℚ
  gate : ℚ
deriving DecidableEq, Repr

/-- `selectStrategy(features, currentLoss)`: advance both LSTMs, blend via
the sigmoid gate, then — in source order — return the EXPLOIT preset during
warmup, the STABILIZE preset when `currentLoss > 0.5` (panic override,
resetting the lock timer), the locked-in strategy while the persistence lock
holds (decaying/boosting eligibility), and otherwise sample a fresh strategy
from a temperature-0.3 softmax over learned logits. -/
def selectStrategy (cc : MetaControllerConfig) (ops : Ops) (sampleRand : ℚ)
    (ctl : CtlState) (features : List ℚ) (currentLoss : ℚ) :
    StrategyResult × CtlState :=
  let hiddenSize := cc.hiddenSize
  let sc := ctl.stepCounter + 1
  let shortH := lstmStep ops features ctl.shortTermState ctl.shortTermWeights hiddenSize
  let longH := lstmStep ops features ctl.longTermState ctl.longTermWeights hiddenSize
  let gateSum := sumR hiddenSize (fun i =>
      ctl.gateWeights.getD i 0 * shortH.hidden.getD i 0
      + ctl.gateWeights.getD (hiddenSize + i) 0 * longH.hidden.getD i 0)
    + ctl.gateWeights.getD (2 * hiddenSize) 0
  let gate := sigmoidQ ops gateSum
  let blended := (List.range hiddenSize).map (fun i =>
    gate * shortH.hidden.getD i 0 + (1 - gate) * longH.hidden.getD i 0)
  let shortActVal := sumR hiddenSize (fun i => |shortH.hidden.getD i 0|) / (hiddenSize : ℚ)
  let longActVal := sumR hiddenSize (fun i => |longH.hidden.getD i 0|) / (hiddenSize : ℚ)
  let ctl1 := { ctl with
    stepCounter := sc
    shortTermState := shortH
    longTermState := longH
    lastGate := gate
    lastInput := some features
    lastShortOut := some shortH.hidden
    lastLongOut := some longH.hidden }
  if sc < cc.warmupSteps then
    ({ strategyId := 1, strategyName := EXPLOIT, params := STRATEGIES EXPLOIT
       shortTermActivity := shortActVal, longTermActivity := longActVal, gate := gate }, ctl1)
  else if 1/2 < currentLoss then
    ({ strategyId := 2, strategyName := STABILIZE, params := STRATEGIES STABILIZE
       shortTermActivity := shortActVal, longTermActivity := longActVal, gate := gate },
     { ctl1 with lastSelectedStrategy := 2, lastStrategyChangeStep := sc })
  else if (sc : ℤ) - (ctl.lastStrategyChangeStep : ℤ) < (cc.strategyLockDuration : ℤ) then
    let currentId := ctl.lastSelectedStrategy
    let currentName := strategyOfId currentId
    ({ strategyId := currentId, strategyName := currentName, params := STRATEGIES currentName
       shortTermActivity := shortActVal, longTermActivity := longActVal, gate := gate },
     { ctl1 with strategyEligibility := mapI (fun s e =>
         lambdaTrace * e + if s = currentId then 1 else 0) ctl1.strategyEligibility })
  else
    let logits := (List.range NUM_STRATEGIES).map (fun s =>
      sumR hiddenSize (fun i =>
        ctl.strategyWeights.getD (i * NUM_STRATEGIES + s) 0 * blended.getD i 0))
    let temperature : ℚ := 3/10
    let probs := softmaxQ ops (logits.map (fun l => l / temperature))
    let sel := sampleSelect probs sampleRand
    let selName := strategyOfId sel
    ({ strategyId := sel, strategyName := selName, params := STRATEGIES selName
       shortTermActivity := shortActVal, longTermActivity := longActVal, gate := gate },
     { ctl1 with
       lastSelectedStrategy := sel
       lastStrategyChangeStep := sc
       strategyEligibility := mapI (fun s e =>
         lambdaTrace * e + if s = sel then 1 else 0) ctl1.strategyEligibility })

/-- `rewardStrategy(reward)`: clamp the reward, move the exponential
baseline, and — when the advantage is large enough and the output caches are
set — update the strategy weights by the eligibility-weighted policy
gradient, clamped to ±3. -/
def rewardStrategy (cc : MetaControllerConfig) (ctl : CtlState) (reward : ℚ) : CtlState :=
  let clampedReward := jsClamp (-1) 1 reward
  let newBaseline := ctl.rewardBaseline * (1 - rewardBaselineAlpha)
    + clampedReward * rewardBaselineAlpha
  let advantage := clampedReward - newBaseline
  let ctl1 := { ctl with rewardBaseline := newBaseline }
  if |advantage| < 2/100 then ctl1
  else
    match ctl.lastShortOut, ctl.lastLongOut with
    | some shortH, some longH =>
      let hiddenSize := cc.hiddenSize
      let gate := ctl.lastGate
      let blended := (List.range hiddenSize).map (fun i =>
        gate * shortH.getD i 0 + (1 - gate) * longH.getD i 0)
      let lr := cc.shortTermLR * (1/10)
      let sw' := mapI (fun idx x =>
        if idx / NUM_STRATEGIES < hiddenSize then
          jsClamp (-3) 3 (x + lr * advantage
            * ctl.strategyEligibility.getD (idx % NUM_STRATEGIES) 0
            * blended.getD (idx / NUM_STRATEGIES) 0)
        else x) ctl1.strategyWeights
      { ctl1 with strategyWeights := sw' }
    | _, _ => ctl1

/-- `resetShortTermMemory()`. -/
def resetShortTermMemory (cc : MetaControllerConfig) (ctl : CtlState) : CtlState :=
  { ctl with
    shortTermState :=
      { hidden := List.replicate ctl.shortTermState.hidden.length 0
        cell := List.replicate ctl.shortTermState.cell.length 0 }
    lastShortOut := some (List.replicate cc.hiddenSize 0)
    strategyEligibility := List.replicate ctl.strategyEligibility.length 0 }

/-- `getState()`: note the source iterates both sums over `shortH.length`
but divides each by its own array's length. -/
def ctlGetState (ctl : CtlState) : CtlView :=
  let sh := ctl.shortTermState.hidden
  let lh := ctl.longTermState.hidden
  { shortTermActivity := sumR sh.length (fun i => |sh.getD i 0|) / (sh.length : ℚ)
    longTermActivity := sumR sh.length (fun i => |lh.getD i 0|) / (lh.length : ℚ)
    gate := ctl.lastGate }

/-! ## Structural plasticity helpers (simulationEngine.ts) -/

/-- `logEvent(msg)`: push one event onto the engine's log queue (the textual
loss suffix is dropped by the `LogEvent` abstraction). -/
def logEvent (st : EngineState) (e : LogEvent) : EngineState :=
  { st with logQueue := st.logQueue ++ [e] }

/-- `getMetrics(prediction, target, loss, status)`: assemble the metrics
record and splice out the log queue. -/
def getMetrics (st : EngineState) (ctl : CtlState) (prediction target loss : ℚ)
    (status : Status) : EngineState × SimulationMetrics :=
  let active := st.weights.countP (fun x => decide (x ≠ 0))
  let m : SimulationMetrics :=
    { loss := loss
      avgLoss := st.recentMSE
      activeConnections := active
      targetConnections := jsFloor ((st.currentSize : ℚ) * (st.currentSize : ℚ)
        * st.currentTargetDensity)
      regrown := st.totalRegrown
      prediction := prediction
      target := target
      neuronCount := st.currentSize
      patience := st.patienceCounter
      spectralRadius := st.currentSpectralRadius
      adaptationStatus := status
      step := st.stepCount
      dna := st.liveHyperparams
      metaController := ctlGetState ctl
      logs := st.logQueue }
  ({ st with logQueue := [] }, m)

/-- Random draws consumed by one `performMitosis` call, one stream per
`Math.random()` call site (type draw, input-sign draw, inbound/outbound
connection-probability draws and weight-value draws per candidate, and the
reseed streams of the trailing 1-iteration spectral normalization). -/
structure MitosisRand where
  typeR : ℚ
  signR : ℚ
  inR : Nat → ℚ
  outR : Nat → ℚ
  wInR : Nat → ℚ
  wOutR : Nat → ℚ
  specV : Nat → Nat → ℚ
  specU : Nat → Nat → ℚ

/-- `performMitosis(net)`.  Fails (returning the state unchanged) when
`currentSize >= maxNeurons`.  Otherwise appends neuron `newIdx = currentSize`:
zeroes its activation/readout, draws its type (80% excitatory), seeds its
input weight (Hebbian-aligned with `lastInput` when that is large), wires
inbound `weights[newIdx*maxN+i]` and outbound `weights[i*maxN+newIdx]`
connections by activity-based preferential attachment for `i < newSize`
(at the one shared cell `i = newIdx` the outbound write lands last),
L1-renormalizes every touched row, logs the mitosis event twice (the source
duplicates the call), and runs one spectral-normalization iteration. -/
def performMitosis (cfg : SimulationConfig) (ops : Ops) (r : MitosisRand)
    (st : EngineState) : Bool × EngineState :=
  if cfg.maxNeurons ≤ st.currentSize then (false, st)
  else
    let newIdx := st.currentSize
    let newSize := st.currentSize + 1
    let maxN := cfg.maxNeurons
    let density := st.currentTargetDensity
    let spectral := st.liveHyperparams.spectral
    let iw :=
      if 1/10 < |st.lastInput| then jsSign st.lastInput * st.liveHyperparams.inputScale * (1/2)
      else (if r.signR < 1/2 then 1 else -1) * st.liveHyperparams.inputScale
    let st1 := { st with
      currentSize := newSize
      activations := st.activations.set newIdx 0
      prevActivations := st.prevActivations.set newIdx 0
      neuronEnergy := st.neuronEnergy.set newIdx 1
      readout := st.readout.set newIdx 0
      neuronTypes := st.neuronTypes.set newIdx (if r.typeR < 8/10 then 1 else -1)
      inputWeights := st.inputWeights.set newIdx iw }
    let connectionProb := fun i => density * (1 + ops.tanh (|st1.activations.getD i 0| * 2))
    let inboundPass := fun i => r.inR i < connectionProb i
    let outboundPass := fun i => r.outR i < connectionProb i
    let w' := mapI (fun idx x =>
      if idx % maxN = newIdx ∧ idx / maxN < newSize ∧ outboundPass (idx / maxN) then
        (r.wOutR (idx / maxN) * 2 - 1) * spectral
      else if newIdx * maxN ≤ idx ∧ idx < newIdx * maxN + newSize
          ∧ inboundPass (idx - newIdx * maxN) then
        (r.wInR (idx - newIdx * maxN) * 2 - 1) * spectral
      else x) st1.weights
    let st2 := { st1 with weights := w' }
    let modifiedRows := newIdx ::
      ((List.range newSize).filter (fun i => outboundPass i ∧ i ≠ newIdx))
    let st3 := normFold cfg modifiedRows st2
    let st4 := logEvent (logEvent st3 (LogEvent.mitosis newIdx)) (LogEvent.mitosis newIdx)
    (true, applySpectralNormalization cfg ops r.specV r.specU 1 st4)

/-- Random draws consumed by one `regrowSynapses` call (row, column and
weight-value draws per attempt). -/
structure RegrowRand where
  iR : Nat → ℚ
  jR : Nat → ℚ
  wR : Nat → ℚ

/-- `regrowSynapses(net, count)`: up to `min(count, max(50, min(500,
⌊count·0.1⌋)))` attempts draw a random cell of the active `N×N` block and
fill it with a small random weight when it is currently zero, tracking
touched rows; touched rows are L1-renormalized at the end.  (The
`idx < w.length` conjunct models the fact that an out-of-range typed-array
read yields `undefined ≠ 0` in the source, so such attempts never fill.) -/
def regrowSynapses (cfg : SimulationConfig) (r : RegrowRand) (st : EngineState)
    (count : ℤ) : EngineState :=
  let maxN := cfg.maxNeurons
  let N := st.currentSize
  let dynamicLimit : ℤ := max 50 (min 500 (jsFloor ((count : ℚ) * (1/10))))
  let limit : ℤ := min count dynamicLimit
  let res := (List.range limit.toNat).foldl (fun acc k =>
    let w := acc.1
    let added := acc.2.1
    let rows := acc.2.2
    let i := jsFloorN (r.iR k * (N : ℚ))
    let j := jsFloorN (r.jR k * (N : ℚ))
    let idx := i * maxN + j
    if w.getD idx 0 = 0 ∧ idx < w.length then
      (w.set idx ((r.wR k * 2 - 1) * (st.liveHyperparams.spectral * (1/10))),
       added + 1,
       if rows.contains i then rows else rows ++ [i])
    else (w, added, rows)) (st.weights, (0 : Nat), ([] : List Nat))
  let st1 := { st with weights := res.1, totalRegrown := st.totalRegrown + res.2.1 }
  if 0 < res.2.1 then normFold cfg res.2.2 st1
  else st1

/-- Random draws consumed by one `performSmartRewiring` call. -/
structure RewireRand where
  srcR : Nat → ℚ
  tgtR : Nat → ℚ
  wR : Nat → ℚ
  regrow : RegrowRand

/-- `performSmartRewiring(net, count)`: pair active source neurons with
inactive targets (`weights[target*maxN+source]`), gently nudging absent
connections into existence, falling back to `regrowSynapses` for the
remaining budget, then renormalizing touched rows when anything was added. -/
def performSmartRewiring (cfg : SimulationConfig) (r : RewireRand) (st : EngineState)
    (count : ℤ) : EngineState :=
  let maxN := cfg.maxNeurons
  let N := st.currentSize
  let limit : ℤ := min count 50
  let activeIndices := (List.range N).filter (fun i => 1/10 < |st.activations.getD i 0|)
  let inactiveIndices := (List.range N).filter (fun i => ¬ 1/10 < |st.activations.getD i 0|)
  let res :=
    if activeIndices ≠ [] ∧ inactiveIndices ≠ [] then
      (List.range limit.toNat).foldl (fun (acc : List ℚ × Nat × List Nat) k =>
        let w := acc.1
        let added := acc.2.1
        let rows := acc.2.2
        if (added : ℤ) < limit then
          let source := activeIndices.getD (jsFloorN (r.srcR k * (activeIndices.length : ℚ))) 0
          let target := inactiveIndices.getD (jsFloorN (r.tgtR k * (inactiveIndices.length : ℚ))) 0
          let idx := target * maxN + source
          if w.getD idx 0 = 0 ∧ idx < w.length then
            (w.set idx ((r.wR k * 2 - 1) * (st.liveHyperparams.spectral * (1/100))),
             added + 1,
             if rows.contains target then rows else rows ++ [target])
          else (w, added, rows)
        else acc) (st.weights, (0 : Nat), ([] : List Nat))
    else (st.weights, (0 : Nat), ([] : List Nat))
  let added := res.2.1
  let rows := res.2.2
  let st1 := { st with weights := res.1 }
  let st2 := if (added : ℤ) < limit then regrowSynapses cfg r.regrow st1 (limit - added) else st1
  if 0 < added then normFold cfg rows (logEvent st2 (LogEvent.rewired added))
  else st2

/-- `deltaBasedPrune(net, attention, beta)`: attention-targeted removal of
sub-threshold weights, stopping once `⌊N·beta·0.05⌋` synapses were zeroed;
rows with attention below `1/N` are skipped. -/
def deltaBasedPrune (cfg : SimulationConfig) (attn : List ℚ) (dr : Nat → Nat → ℚ)
    (st : EngineState) (beta : ℚ) : EngineState :=
  let N := st.currentSize
  let maxN := cfg.maxNeurons
  let target : ℤ := jsFloor ((N : ℚ) * beta * (5/100))
  let res := (List.range N).foldl (fun (acc : List ℚ × Nat) i =>
    if ((acc.2 : ℤ)) < target then
      let neuronAttention := attn.getD i 0
      if neuronAttention < 1 / (N : ℚ) then acc
      else
        (List.range N).foldl (fun (acc2 : List ℚ × Nat) j =>
          if ((acc2.2 : ℤ)) < target then
            let idx := i * maxN + j
            let wv := acc2.1.getD idx 0
            if wv ≠ 0 ∧ |wv| < cfg.pruneThreshold then
              if dr i j < neuronAttention * beta * (1/2) then (acc2.1.set idx 0, acc2.2 + 1)
              else acc2
            else acc2
          else acc2) acc
    else acc) (st.weights, (0 : Nat))
  let st1 := { st with weights := res.1 }
  if 0 < res.2 then logEvent st1 (LogEvent.ddlPruneRemoved res.2) else st1

/-- The predicate deciding whether `pruneSynapses` removes the cell at flat
index `idx` holding value `x`: inside the active block, nonzero, and with
`|w| + intrinsicMerit < pruneThreshold` where the merit combines the readout
(quality) bonus, the E/I diversity bonus and the engram-trace bonus. -/
def lvPrunedAt (cfg : SimulationConfig) (st : EngineState) (idx : Nat) (x : ℚ) : Prop :=
  let maxN := cfg.maxNeurons
  let i := idx / maxN
  let j := idx % maxN
  i < st.currentSize ∧ j < st.currentSize ∧ x ≠ 0 ∧
    |x| + (|st.readout.getD i 0| * (1/2)
      + (if st.neuronTypes.getD i 0 ≠ st.neuronTypes.getD j 0 then (5/1000 : ℚ) else 0)
      + st.engramTrace.getD idx 0 * (5/100)) < cfg.pruneThreshold

instance (cfg : SimulationConfig) (st : EngineState) (idx : Nat) (x : ℚ) :
    Decidable (lvPrunedAt cfg st idx x) := by
  unfold lvPrunedAt
  exact inferInstance

/-- `pruneSynapses(net)`: the "DO NO HARM" guard returns immediately when
`recentMSE > unlockThreshold`; otherwise every active-block cell failing the
Lotka-Volterra merit check is zeroed (together with its engram trace), and on
any removal a prune event is logged and the controller's short-term memory is
reset (`metaController.resetShortTermMemory()`). -/
def pruneSynapses (cfg : SimulationConfig) (cc : MetaControllerConfig)
    (st : EngineState) (ctl : CtlState) : EngineState × CtlState :=
  if cfg.unlockThreshold < st.recentMSE then (st, ctl)
  else
    let w' := mapI (fun idx x => if lvPrunedAt cfg st idx x then 0 else x) st.weights
    let e' := mapI (fun idx x =>
      if lvPrunedAt cfg st idx (st.weights.getD idx 0) then 0 else x) st.engramTrace
    let pruned := ((List.range st.weights.length).filter
      (fun idx => decide (lvPrunedAt cfg st idx (st.weights.getD idx 0)))).length
    let st1 := { st with weights := w', engramTrace := e' }
    if 0 < pruned then
      (logEvent st1 (LogEvent.pruneRemoved pruned), resetShortTermMemory cc ctl)
    else (st1, ctl)

/-- `applySupervisedHebbian(net, error, learningRate)` (feedback alignment):
for each active-block cell with nonzero weight whose row's local error
`clamp(error)·feedbackWeights[i]` is at least `0.001` in magnitude, add the
clamped delta `η·localError·prev[j] − η·0.001·w` and refresh the engram
trace `min(1, trace·0.99 + |delta|·10)`. -/
def applySupervisedHebbian (cfg : SimulationConfig) (st : EngineState)
    (error lr : ℚ) : EngineState :=
  let maxN := cfg.maxNeurons
  let N := st.currentSize
  let clampedError := jsClamp (-1) 1 error
  let localError := fun i => clampedError * st.feedbackWeights.getD i 0
  let deltaAt := fun idx (x : ℚ) =>
    jsClamp (-1/100) (1/100)
      (lr * localError (idx / maxN) * st.prevActivations.getD (idx % maxN) 0
        - lr * (1/1000) * x)
  let activeAt := fun idx (x : ℚ) =>
    idx / maxN < N ∧ idx % maxN < N ∧ ¬ |localError (idx / maxN)| < 1/1000 ∧ x ≠ 0
  let w' := mapI (fun idx x =>
    if activeAt idx x then x + deltaAt idx x else x) st.weights
  let e' := mapI (fun idx x =>
    if activeAt idx (st.weights.getD idx 0) then
      min 1 (x * (99/100) + |deltaAt idx (st.weights.getD idx 0)| * 10)
    else x) st.engramTrace
  { st with weights := w', engramTrace := e' }

/-! ## The per-tick update `step()` (simulationEngine.ts) -/

/-- All external inputs consumed by one `step()` call: the task generator's
`(input, target)` pair, the `isNaN(absError)` flag (unrepresentable in the
rational model, so threaded as an input; it is `false` whenever the float
arithmetic stays finite), and one stream per `Math.random()` call site. -/
structure StepOracle where
  input : ℚ
  target : ℚ
  errIsNaN : Bool
  sampleRand : ℚ
  attn : Nat → ℚ
  dprune : Nat → Nat → ℚ
  mit : MitosisRand
  mitD : MitosisRand
  rewire : RewireRand
  regrow : RegrowRand
  specV : Nat → Nat → ℚ
  specU : Nat → Nat → ℚ

/-- Phase 1-2 of `step()`: push the target onto `dataSeries` (trim at 500),
record `lastInput`, copy `activations` into `prevActivations`, then update
each active neuron by the leaky tanh integrator
`((1-leak)·prev[i] + leak·tanh(sum·spectral)) · energy[i]` where `sum` is the
recurrent drive plus `inputWeights[i]·input·inputScale`, and apply the
fatigue dynamics `energy ← clamp01(energy − |state|·0.002 + 0.002)`. -/
def reservoirUpdate (cfg : SimulationConfig) (ops : Ops) (inputVal targetVal : ℚ)
    (st : EngineState) : EngineState :=
  let N := st.currentSize
  let maxN := cfg.maxNeurons
  let dna := st.liveHyperparams
  let ds1 := st.dataSeries ++ [targetVal]
  let ds2 := if 500 < ds1.length then ds1.drop 1 else ds1
  let prev := st.activations
  let sumAt := fun i => sumR N (fun j => st.weights.getD (i * maxN + j) 0 * prev.getD j 0)
    + st.inputWeights.getD i 0 * inputVal * dna.inputScale
  let stateAt := fun i =>
    ((1 - dna.leak) * prev.getD i 0 + dna.leak * ops.tanh (sumAt i * dna.spectral))
      * st.neuronEnergy.getD i 0
  let act' := mapI (fun i a => if i < N then stateAt i else a) st.activations
  let energy' := mapI (fun i e =>
    if i < N then jsClamp 0 1 (e - |stateAt i| * (2/1000) + 2/1000) else e) st.neuronEnergy
  { st with dataSeries := ds2, lastInput := inputVal, prevActivations := prev
            activations := act', neuronEnergy := energy' }

/-- The guard path's feed of the capped penalty error into the honest
20-sample window (unlike `updateErrorWindow`, `prevRecentMSE` is not
touched here, mirroring the source). -/
def pushPenaltyError (st : EngineState) (penaltyError : ℚ) : EngineState :=
  let win1 := st.recentMSEWindow ++ [penaltyError]
  let win2 := if 20 < win1.length then win1.drop 1 else win1
  { st with recentMSEWindow := win2, recentMSE := win2.sum / (win2.length : ℚ) }

/-- The explosion-guard branch of `step()` (taken when `isNaN(absError)` or
`absError > 50`): log the emergency event, feed the capped penalty error
(`10` on NaN, else `min(absError, 10)`) into the honest 20-sample window,
run 20 forced spectral-normalization iterations, zero all activations and
previous activations, and return the degenerate STABILIZING metrics record
`getMetrics(0, 0, 1.0, "STABILIZING")`. -/
def emergencyStabilize (cfg : SimulationConfig) (ops : Ops) (o : StepOracle)
    (st : EngineState) (ctl : CtlState) (absError : ℚ) :
    EngineState × CtlState × SimulationMetrics :=
  let st1 := logEvent st LogEvent.emergencyStabilization
  let penaltyError := if o.errIsNaN then 10 else min absError 10
  let st2 := pushPenaltyError st1 penaltyError
  let st3 := applySpectralNormalization cfg ops o.specV o.specU 20 st2
  let st4 := { st3 with
    activations := List.replicate st3.activations.length 0
    prevActivations := List.replicate st3.prevActivations.length 0 }
  let r := getMetrics st4 ctl 0 0 1 Status.STABILIZING
  (r.1, ctl, r.2)

/-- The "radical honesty" window update: push `absError` into the 20-sample
window, remember the previous smoothed error, and recompute `recentMSE` as
the window mean. -/
def updateErrorWindow (st : EngineState) (absError : ℚ) : EngineState :=
  let win1 := st.recentMSEWindow ++ [absError]
  let win2 := if 20 < win1.length then win1.drop 1 else win1
  { st with recentMSEWindow := win2, prevRecentMSE := st.recentMSE
            recentMSE := win2.sum / (win2.length : ℚ) }

/-- The online-LMS readout update of `step()`: each active readout weight
moves by `currentLR · error · activations[i]`, clamped to ±0.1. -/
def updateReadout (st : EngineState) (currentLR error : ℚ) : EngineState :=
  let N := st.currentSize
  let r' := mapI (fun i x =>
    if i < N then x + jsClamp (-1/10) (1/10) (currentLR * error * st.activations.getD i 0)
    else x) st.readout
  { st with readout := r' }

/-- The spectral-feature extraction of `step()` (10 features, each clamped to
[-1,1]; the source's NaN-paranoia repair is unrepresentable in `ℚ`). -/
def computeFeatures (ops : Ops) (st : EngineState) (absError : ℚ) : List ℚ :=
  let win := st.recentMSEWindow
  let errorWindowSize := min 128 win.length
  let lmh :=
    if 32 ≤ errorWindowSize then
      let snip := win.drop (win.length - errorWindowSize)
      let half := errorWindowSize / 2
      let firstHalfErr := (snip.take half).sum / (half : ℚ)
      let secondHalfErr := (snip.drop half).sum / (half : ℚ)
      let errorLowFreq := ops.tanh ((secondHalfErr - firstHalfErr) * 20)
      let errMean := snip.sum / (errorWindowSize : ℚ)
      let errZeroCrossings := ((List.range (errorWindowSize - 1)).filter (fun k =>
        decide ((snip.getD (k + 1) 0 - errMean) * (snip.getD k 0 - errMean) < 0))).length
      let errorMidFreq := ops.tanh (((errZeroCrossings : ℚ) / ((errorWindowSize : ℚ) / 8) - 1) * 2)
      let errDiffs := (List.range (errorWindowSize - 1)).map (fun k =>
        snip.getD (k + 1) 0 - snip.getD k 0)
      let errDiffMean := errDiffs.sum / (errDiffs.length : ℚ)
      let errDiffVar := ((errDiffs.map (fun d => (d - errDiffMean) ^ 2)).sum)
        / (errDiffs.length : ℚ)
      (errorLowFreq, errorMidFreq, ops.tanh (errDiffVar * 100))
    else ((0 : ℚ), (0 : ℚ), (0 : ℚ))
  let errorSpike :=
    if 1/1000000 < st.recentMSE then ops.tanh ((absError / st.recentMSE - 1) * 4) else 0
  let errorPhase :=
    if 16 ≤ win.length then
      let recent8 := win.drop (win.length - 8)
      let prev8 := (win.drop (win.length - 16)).take 8
      ops.tanh ((recent8.sum / 8 - prev8.sum / 8) * 50)
    else 0
  let errorTrend :=
    if 16 ≤ win.length then
      let recent8 := win.drop (win.length - 8)
      let older8 := (win.drop (win.length - 16)).take 8
      ops.tanh ((recent8.sum / 8 - older8.sum / 8) * 50)
    else 0
  let entropyLevel := calculateNetworkEntropy ops st
  let instantLoss := ops.tanh (absError * 10)
  let currentLRFeature := ops.tanh ((st.liveHyperparams.learningRate - 2/100) * 50)
  let currentDensityFeature := ops.tanh ((st.currentTargetDensity - 2/10) * 5)
  [lmh.1, lmh.2.1, lmh.2.2, errorSpike, errorPhase, errorTrend,
   entropyLevel, instantLoss, currentLRFeature, currentDensityFeature].map
    (fun f => jsClamp (-1) 1 f)

/-- Application of the selected strategy's parameters to the live
hyperparameters: geometrically smoothed learning rate (ratio clamped to
±2%), direct snap of the quantized major parameters, and `lvAlpha`-smoothed
Lotka-Volterra rates scaled by the stagnation `growthMultiplier`. -/
def applyStrategyParams (st : EngineState) (adaptive : Hyperparams)
    (isExploring : Bool) (growthMultiplier : ℚ) : EngineState :=
  let cur := st.liveHyperparams
  let maxChange : ℚ := 2/100
  let ratio := adaptive.learningRate / max (1/1000000000) cur.learningRate
  let clampedRatio := jsClamp (1 - maxChange) (1 + maxChange) ratio
  let lvAlpha : ℚ := if isExploring then 3/10 else 1/10
  { st with liveHyperparams :=
    { learningRate := cur.learningRate * clampedRatio
      leak := adaptive.leak
      spectral := adaptive.spectral
      inputScale := adaptive.inputScale
      smoothingFactor := adaptive.smoothingFactor
      outputGain := adaptive.outputGain
      lvGrowth := cur.lvGrowth * (1 - lvAlpha) + adaptive.lvGrowth * growthMultiplier * lvAlpha
      lvDecay := cur.lvDecay * (1 - lvAlpha) + adaptive.lvDecay * growthMultiplier * lvAlpha } }

/-- The trend/patience block of the structural branch: push the error onto
the 200-sample loss window, compute the half-window slope, clear the lock
flag, and update the patience counter (LEARNING decrements with floor 0,
STAGNANT increments). -/
def structTrend (cfg : SimulationConfig) (absError : ℚ) (st : EngineState) :
    EngineState × Status :=
  let lw1 := st.lossWindow ++ [absError]
  let lw2 := if 200 < lw1.length then lw1.drop 1 else lw1
  let slope := if 200 ≤ lw2.length then (lw2.drop 100).sum - (lw2.take 100).sum else 0
  let st1 := { st with lossWindow := lw2, regressionSlope := slope, isLocked := false }
  if slope < cfg.learningSlopeThreshold then
    ({ st1 with patienceCounter := st1.patienceCounter - 1 }, Status.LEARNING)
  else
    ({ st1 with patienceCounter := st1.patienceCounter + 1 }, Status.STAGNANT)

/-- The Lotka-Volterra density update and the cooldown decrement. -/
def structDensityCooldown (absError : ℚ) (st : EngineState) : EngineState :=
  let dna := st.liveHyperparams
  let D := st.currentTargetDensity
  let D' := jsClamp (1/10) (5/10) (D + (dna.lvGrowth * absError - dna.lvDecay * D))
  { st with currentTargetDensity := D', structuralCooldown := st.structuralCooldown - 1 }

/-- The combinatorial-exhaustion growth override (tiny failing networks only). -/
def structExhaustion (cfg : SimulationConfig) (ops : Ops) (r : MitosisRand)
    (N : ℕ) (st : EngineState) (status : Status) : EngineState × Status :=
  let exhaustionThreshold := max 20 ((N : ℚ) * (N : ℚ) * st.currentTargetDensity * 30)
  if N < 16 ∧ (exhaustionThreshold < (st.patienceCounter : ℚ) ∨ 500 < st.stepCount)
      ∧ 5/100 < st.recentMSE ∧ st.structuralCooldown = 0 then
    let mres := performMitosis cfg ops r st
    if mres.1 then
      (logEvent { mres.2 with patienceCounter := 0, structuralCooldown := 20 }
        LogEvent.exhaustionGrow, Status.GROWING_EXHAUSTION)
    else (mres.2, status)
  else (st, status)

/-- The DDL-inspired strategy-driven structural control: grow on EXPLORE/RESET
bias, prune on STABILIZE bias, rewire on neutral bias, gated by
`beta > 0.3` and an elapsed cooldown. -/
def structDdl (cfg : SimulationConfig) (ops : Ops) (o : StepOracle) (sn : StrategyName)
    (a : Hyperparams) (st : EngineState) (status : Status) : EngineState × Status :=
  let beta := (a.lvGrowth + a.lvDecay) * 10
  let actionBias : ℚ :=
    if sn = EXPLORE ∨ sn = RESET then 8/10
    else if sn = STABILIZE then -8/10
    else 0
  let attention := (List.range cfg.maxNeurons).map o.attn
  if 3/10 < beta ∧ st.structuralCooldown = 0 then
    if 3/10 < actionBias then
      let mres := performMitosis cfg ops o.mitD st
      if mres.1 then
        (logEvent { mres.2 with structuralCooldown := jsFloorN (200 / beta) }
          LogEvent.ddlGrow, Status.GROWING_DDL)
      else (mres.2, status)
    else if actionBias < -3/10 then
      let stp := deltaBasedPrune cfg attention o.dprune st beta
      (logEvent { stp with structuralCooldown := jsFloorN (100 / beta) }
        LogEvent.ddlPruneAction, Status.PRUNING_DDL)
    else
      let str := performSmartRewiring cfg o.rewire st
        (jsFloor ((st.currentSize : ℚ) * beta * (1/100)))
      ({ str with structuralCooldown := jsFloorN (50 / beta) }, Status.REWIRING_DDL)
  else (st, status)

/-- Deficit-driven synapse regrowth (blocked during deep cooldown). -/
def structRegrow (cfg : SimulationConfig) (r : RegrowRand) (N : ℕ)
    (st : EngineState) (status : Status) : EngineState × Status :=
  let targetConns := jsFloor ((N : ℚ) * (N : ℚ) * st.currentTargetDensity)
  let active := (st.weights.take (N * cfg.maxNeurons)).countP (fun x => decide (x ≠ 0))
  if (active : ℤ) < targetConns ∧ st.structuralCooldown < 100 then
    (regrowSynapses cfg r st (targetConns - active),
     if statusMentionsGrow status then status else Status.GROWING_SYNAPSES)
  else (st, status)

/-- The 500-step heartbeat prune (gated on an elapsed cooldown). -/
def structHeartbeat (cfg : SimulationConfig) (cc : MetaControllerConfig)
    (st : EngineState) (ctl : CtlState) : EngineState × CtlState :=
  if st.stepCount % 500 = 0 ∧ st.structuralCooldown = 0 then
    pruneSynapses cfg cc st ctl
  else (st, ctl)

/-- The deep structural-adaptation branch of `step()` (reached when the
network is unlocked and not converging), as the composition of its blocks in
source order: trend window and slope, LEARNING/STAGNANT patience update,
Lotka-Volterra density dynamics and cooldown decrement,
combinatorial-exhaustion growth, DDL strategy-driven grow/prune/rewire,
deficit-driven synapse regrowth, and the 500-step heartbeat prune. -/
def structuralCore (cfg : SimulationConfig) (cc : MetaControllerConfig) (ops : Ops)
    (o : StepOracle) (stratName : StrategyName) (adaptive : Hyperparams) (absError : ℚ)
    (st : EngineState) (ctl : CtlState) : EngineState × CtlState × Status :=
  let N := st.currentSize
  let tr := structTrend cfg absError st
  let st4 := structDensityCooldown absError tr.1
  let ex := structExhaustion cfg ops o.mit N st4 tr.2
  let ddl := structDdl cfg ops o stratName adaptive ex.1 ex.2
  let rg := structRegrow cfg o.regrow N ddl.1 ddl.2
  let hb := structHeartbeat cfg cc rg.1 ctl
  (hb.1, hb.2, rg.2)

/-- The status/structural dispatch of `step()`: CONVERGING/SOLVED below the
solved threshold (with the 100-tick grace period and patience reset on
locking), the unlock check for a locked network that degraded, the quiescent
SOLVED hold, and otherwise the full structural branch. -/
def statusPhase (cfg : SimulationConfig) (cc : MetaControllerConfig) (ops : Ops)
    (o : StepOracle) (stratName : StrategyName) (adaptive : Hyperparams) (absError : ℚ)
    (st : EngineState) (ctl : CtlState) : EngineState × CtlState × Status :=
  if st.recentMSE < cfg.solvedThreshold then
    let g := st.solvedGracePeriod + 1
    if 100 ≤ g then
      ({ st with solvedGracePeriod := g, isLocked := true, patienceCounter := 0 },
       ctl, Status.SOLVED)
    else ({ st with solvedGracePeriod := g }, ctl, Status.CONVERGING)
  else
    let st0 := { st with solvedGracePeriod := 0 }
    if st0.isLocked ∧ cfg.unlockThreshold < st0.recentMSE then
      (logEvent { st0 with isLocked := false } LogEvent.unlock, ctl, Status.UNLOCKED)
    else if st0.isLocked then (st0, ctl, Status.SOLVED)
    else structuralCore cfg cc ops o stratName adaptive absError st0 ctl

/-- The tick's readout prediction: the dot product of the updated activations
with the (pre-update) readout weights. -/
def stepPrediction (cfg : SimulationConfig) (ops : Ops) (o : StepOracle)
    (st : EngineState) : ℚ :=
  let stR := reservoirUpdate cfg ops o.input o.target st
  sumR stR.currentSize (fun i => stR.activations.getD i 0 * stR.readout.getD i 0)

/-- The tick's absolute error `|target − prediction|`. -/
def stepAbsError (cfg : SimulationConfig) (ops : Ops) (o : StepOracle)
    (st : EngineState) : ℚ :=
  |o.target - stepPrediction cfg ops o st|

/-- The explosion-guard condition `isNaN(absError) || absError > 50` of
`step()` (`isNaN` is the oracle flag, see `StepOracle`). -/
def explosionGuardFires (cfg : SimulationConfig) (ops : Ops) (o : StepOracle)
    (st : EngineState) : Prop :=
  o.errIsNaN = true ∨ 50 < stepAbsError cfg ops o st

instance (cfg : SimulationConfig) (ops : Ops) (o : StepOracle) (st : EngineState) :
    Decidable (explosionGuardFires cfg ops o st) := by
  unfold explosionGuardFires
  exact inferInstance

/-- `step()`: one full tick.  Reservoir update, readout/prediction, explosion
guard, honest-window update, LMS learning with the solved-threshold freeze,
feedback-alignment plasticity, feature extraction, strategy selection and
parameter application, periodic spectral normalization, REINFORCE reward,
structural adaptation, and metrics assembly. -/
def step (cfg : SimulationConfig) (cc : MetaControllerConfig) (ops : Ops)
    (o : StepOracle) (st : EngineState) (ctl : CtlState) :
    EngineState × CtlState × SimulationMetrics :=
  let stR := reservoirUpdate cfg ops o.input o.target st
  let prediction := stepPrediction cfg ops o st
  let error := o.target - prediction
  let absError := |error|
  if explosionGuardFires cfg ops o st then
    emergencyStabilize cfg ops o stR ctl absError
  else
    let stW := updateErrorWindow stR absError
    let currentLR :=
      if stW.recentMSE < cfg.solvedThreshold then 0 else stW.liveHyperparams.learningRate
    let stL := updateReadout stW currentLR error
    let stH :=
      if ¬stL.isLocked ∧ 1/10000 < currentLR then
        applySupervisedHebbian cfg stL error (currentLR * (1/10))
      else stL
    let features := computeFeatures ops stH absError
    let sres := selectStrategy cc ops o.sampleRand ctl features stH.recentMSE
    let ctl1 := sres.2
    let adaptive := sres.1.params
    let stratName := sres.1.strategyName
    let stagFlat := 200 ≤ stH.lossWindow.length
      ∧ -1/10000 < stH.regressionSlope ∧ stH.regressionSlope < 1/10000
    let growthMultiplier : ℚ := if stagFlat then 3 else 1
    let stG := if stagFlat then logEvent stH LogEvent.overrideStagnation else stH
    let isExploring := stG.stepCount < 500
    let stP := applyStrategyParams stG adaptive isExploring growthMultiplier
    let spectralFreq := if stR.currentSize < 256 then 1 else 10
    let stS :=
      if stP.stepCount % spectralFreq = 0 then
        applySpectralNormalization cfg ops o.specV o.specU 1 stP
      else stP
    let reward := jsClamp (-1) 1 ((stS.prevRecentMSE - stS.recentMSE) * 50)
    let ctl2 := rewardStrategy cc ctl1 reward
    let stLog :=
      if stS.stepCount % 50 = 0 then logEvent stS (LogEvent.strategyLog stratName) else stS
    let res := statusPhase cfg cc ops o stratName adaptive absError stLog ctl2
    let stF := { res.1 with stepCount := res.1.stepCount + 1 }
    let out := getMetrics stF res.2.1 prediction o.target absError res.2.2
    (out.1, res.2.1, out.2)

/-- Iterated `step()` over a list of per-tick oracles. -/
def runSteps (cfg : SimulationConfig) (cc : MetaControllerConfig) (ops : Ops)
    (os : List StepOracle) (st : EngineState) (ctl : CtlState) :
    EngineState × CtlState :=
  os.foldl (fun p o =>
    let r := step cfg cc ops o p.1 p.2
    (r.1, r.2.1)) (st, ctl)

/-- Random draws consumed by `initializeNetwork`. -/
structure InitRand where
  inputR : Nat → ℚ
  fbR : Nat → ℚ
  typeR : Nat → ℚ
  wireR : Nat → Nat → ℚ
  weightR : Nat → Nat → ℚ
  uR : Nat → ℚ
  vR : Nat → ℚ
  specV : Nat → Nat → ℚ
  specU : Nat → Nat → ℚ

/-- `initializeNetwork()`: the CRUISE-regime birth state.  Input weights are
uniform in `±inputScale`, feedback weights uniform in `±1`, neuron types
drawn 80/20 excitatory/inhibitory, the initial `initialNeurons²` block wired
at density 0.2 with weights uniform in `±spectral`, followed by a forced
10-iteration spectral normalization.  (`dataSeries` seeding comes from the
external task and is left empty.) -/
def initializeNetwork (cfg : SimulationConfig) (ops : Ops) (r : InitRand) : EngineState :=
  let p := REGIMES_CRUISE
  let maxN := cfg.maxNeurons
  let iN := cfg.initialNeurons
  let base : EngineState :=
    { activations := List.replicate maxN 0
      prevActivations := List.replicate maxN 0
      weights := (List.range (maxN * maxN)).map (fun idx =>
        if idx / maxN < iN ∧ idx % maxN < iN ∧ r.wireR (idx / maxN) (idx % maxN) < 2/10 then
          (r.weightR (idx / maxN) (idx % maxN) * 2 - 1) * p.spectral
        else 0)
      readout := List.replicate maxN 0
      inputWeights := (List.range maxN).map (fun i => (r.inputR i * 2 - 1) * p.inputScale)
      feedbackWeights := (List.range maxN).map (fun i => r.fbR i * 2 - 1)
      neuronTypes := (List.range maxN).map (fun i => if r.typeR i < 8/10 then (1 : ℤ) else -1)
      currentSize := iN
      totalRegrown := 0
      currentTargetDensity := 2/10
      patienceCounter := 0
      regressionSlope := -1/100
      isLocked := false
      lossWindow := []
      neuronEnergy := List.replicate maxN 1
      engramTrace := List.replicate (maxN * maxN) 0
      liveHyperparams := p
      spectralU := (List.range maxN).map (fun i => r.uR i - 1/2)
      spectralV := (List.range maxN).map (fun i => r.vR i - 1/2)
      currentSpectralRadius := 1
      dataSeries := []
      recentMSEWindow := []
      recentMSE := 1
      prevRecentMSE := 1
      stepCount := 0
      logQueue := []
      solvedGracePeriod := 0
      structuralCooldown := 0
      lastInput := 0 }
  applySpectralNormalization cfg ops r.specV r.specU 10 base

/-! ## List helpers for the proofs -/

theorem getD_set_ne (l : List α) (n i : Nat) (a d : α) (h : i ≠ n) :
    (l.set n a).getD i d = l.getD i d := by
  induction l generalizing n i with
  | nil => simp
  | cons x xs ih =>
    cases n with
    | zero =>
      cases i with
      | zero => exact absurd rfl h
      | succ j => simp
    | succ m =>
      cases i with
      | zero => simp
      | succ j => simpa using ih m j (fun hh => h (by omega))

theorem getD_replicate (n i : Nat) (a : α) : (List.replicate n a).getD i a = a := by
  induction n generalizing i with
  | zero => simp
  | succ m ih => cases i <;> simp [List.replicate, *]

/-! ## Frame lemmas: which state fields each operation leaves untouched -/

@[simp] theorem logEvent_currentSize (st : EngineState) (e : LogEvent) :
    (logEvent st e).currentSize = st.currentSize := rfl

@[simp] theorem logEvent_readout (st : EngineState) (e : LogEvent) :
    (logEvent st e).readout = st.readout := rfl

@[simp] theorem logEvent_recentMSE (st : EngineState) (e : LogEvent) :
    (logEvent st e).recentMSE = st.recentMSE := rfl

@[simp] theorem logEvent_patienceCounter (st : EngineState) (e : LogEvent) :
    (logEvent st e).patienceCounter = st.patienceCounter := rfl

@[simp] theorem logEvent_logQueue (st : EngineState) (e : LogEvent) :
    (logEvent st e).logQueue = st.logQueue ++ [e] := rfl

@[simp] theorem logEvent_stepCount (st : EngineState) (e : LogEvent) :
    (logEvent st e).stepCount = st.stepCount := rfl

@[simp] theorem logEvent_structuralCooldown (st : EngineState) (e : LogEvent) :
    (logEvent st e).structuralCooldown = st.structuralCooldown := rfl

@[simp] theorem logEvent_liveHyperparams (st : EngineState) (e : LogEvent) :
    (logEvent st e).liveHyperparams = st.liveHyperparams := rfl

@[simp] theorem logEvent_weights (st : EngineState) (e : LogEvent) :
    (logEvent st e).weights = st.weights := rfl

@[simp] theorem logEvent_isLocked (st : EngineState) (e : LogEvent) :
    (logEvent st e).isLocked = st.isLocked := rfl

@[simp] theorem logEvent_lossWindow (st : EngineState) (e : LogEvent) :
    (logEvent st e).lossWindow = st.lossWindow := rfl

@[simp] theorem logEvent_currentTargetDensity (st : EngineState) (e : LogEvent) :
    (logEvent st e).currentTargetDensity = st.currentTargetDensity := rfl

@[simp] theorem logEvent_recentMSEWindow (st : EngineState) (e : LogEvent) :
    (logEvent st e).recentMSEWindow = st.recentMSEWindow := rfl

@[simp] theorem logEvent_prevRecentMSE (st : EngineState) (e : LogEvent) :
    (logEvent st e).prevRecentMSE = st.prevRecentMSE := rfl

@[simp] theorem logEvent_solvedGracePeriod (st : EngineState) (e : LogEvent) :
    (logEvent st e).solvedGracePeriod = st.solvedGracePeriod := rfl

@[simp] theorem logEvent_totalRegrown (st : EngineState) (e : LogEvent) :
    (logEvent st e).totalRegrown = st.totalRegrown := rfl

@[simp] theorem logEvent_regressionSlope (st : EngineState) (e : LogEvent) :
    (logEvent st e).regressionSlope = st.regressionSlope := rfl

@[simp] theorem logEvent_activations (st : EngineState) (e : LogEvent) :
    (logEvent st e).activations = st.activations := rfl

@[simp] theorem logEvent_neuronTypes (st : EngineState) (e : LogEvent) :
    (logEvent st e).neuronTypes = st.neuronTypes := rfl

theorem normalizeSingleRow_frame (cfg : SimulationConfig) (st : EngineState)
    (rowIdx : Nat) (t : ℚ) :
    (normalizeSingleRow cfg st rowIdx t).currentSize = st.currentSize ∧
    (normalizeSingleRow cfg st rowIdx t).readout = st.readout ∧
    (normalizeSingleRow cfg st rowIdx t).recentMSE = st.recentMSE ∧
    (normalizeSingleRow cfg st rowIdx t).patienceCounter = st.patienceCounter ∧
    (normalizeSingleRow cfg st rowIdx t).logQueue = st.logQueue ∧
    (normalizeSingleRow cfg st rowIdx t).liveHyperparams = st.liveHyperparams ∧
    (normalizeSingleRow cfg st rowIdx t).stepCount = st.stepCount ∧
    (normalizeSingleRow cfg st rowIdx t).structuralCooldown = st.structuralCooldown ∧
    (normalizeSingleRow cfg st rowIdx t).totalRegrown = st.totalRegrown ∧
    (normalizeSingleRow cfg st rowIdx t).isLocked = st.isLocked ∧
    (normalizeSingleRow cfg st rowIdx t).recentMSEWindow = st.recentMSEWindow ∧
    (normalizeSingleRow cfg st rowIdx t).lossWindow = st.lossWindow ∧
    (normalizeSingleRow cfg st rowIdx t).solvedGracePeriod = st.solvedGracePeriod ∧
    (normalizeSingleRow cfg st rowIdx t).currentTargetDensity = st.currentTargetDensity ∧
    (normalizeSingleRow cfg st rowIdx t).prevRecentMSE = st.prevRecentMSE := by
  unfold normalizeSingleRow
  dsimp only
  split <;>
    exact ⟨rfl, rfl, rfl, rfl, rfl, rfl, rfl, rfl, rfl, rfl, rfl, rfl, rfl, rfl, rfl⟩

@[simp] theorem normalizeSingleRow_currentSize (cfg : SimulationConfig) (st : EngineState)
    (rowIdx : Nat) (t : ℚ) :
    (normalizeSingleRow cfg st rowIdx t).currentSize = st.currentSize :=
  (normalizeSingleRow_frame cfg st rowIdx t).1

@[simp] theorem normalizeSingleRow_readout (cfg : SimulationConfig) (st : EngineState)
    (rowIdx : Nat) (t : ℚ) :
    (normalizeSingleRow cfg st rowIdx t).readout = st.readout :=
  (normalizeSingleRow_frame cfg st rowIdx t).2.1

@[simp] theorem normalizeSingleRow_recentMSE (cfg : SimulationConfig) (st : EngineState)
    (rowIdx : Nat) (t : ℚ) :
    (normalizeSingleRow cfg st rowIdx t).recentMSE = st.recentMSE :=
  (normalizeSingleRow_frame cfg st rowIdx t).2.2.1

@[simp] theorem normalizeSingleRow_patienceCounter (cfg : SimulationConfig) (st : EngineState)
    (rowIdx : Nat) (t : ℚ) :
    (normalizeSingleRow cfg st rowIdx t).patienceCounter = st.patienceCounter :=
  (normalizeSingleRow_frame cfg st rowIdx t).2.2.2.1

@[simp] theorem normalizeSingleRow_logQueue (cfg : SimulationConfig) (st : EngineState)
    (rowIdx : Nat) (t : ℚ) :
    (normalizeSingleRow cfg st rowIdx t).logQueue = st.logQueue :=
  (normalizeSingleRow_frame cfg st rowIdx t).2.2.2.2.1

@[simp] theorem normalizeSingleRow_liveHyperparams (cfg : SimulationConfig) (st : EngineState)
    (rowIdx : Nat) (t : ℚ) :
    (normalizeSingleRow cfg st rowIdx t).liveHyperparams = st.liveHyperparams :=
  (normalizeSingleRow_frame cfg st rowIdx t).2.2.2.2.2.1

@[simp] theorem normalizeSingleRow_stepCount (cfg : SimulationConfig) (st : EngineState)
    (rowIdx : Nat) (t : ℚ) :
    (normalizeSingleRow cfg st rowIdx t).stepCount = st.stepCount :=
  (normalizeSingleRow_frame cfg st rowIdx t).2.2.2.2.2.2.1

@[simp] theorem normalizeSingleRow_structuralCooldown (cfg : SimulationConfig)
    (st : EngineState) (rowIdx : Nat) (t : ℚ) :
    (normalizeSingleRow cfg st rowIdx t).structuralCooldown = st.structuralCooldown :=
  (normalizeSingleRow_frame cfg st rowIdx t).2.2.2.2.2.2.2.1

theorem normFold_frame (cfg : SimulationConfig) (rows : List Nat) (st : EngineState) :
    (normFold cfg rows st).currentSize = st.currentSize ∧
    (normFold cfg rows st).readout = st.readout ∧
    (normFold cfg rows st).recentMSE = st.recentMSE ∧
    (normFold cfg rows st).patienceCounter = st.patienceCounter ∧
    (normFold cfg rows st).logQueue = st.logQueue ∧
    (normFold cfg rows st).stepCount = st.stepCount ∧
    (normFold cfg rows st).structuralCooldown = st.structuralCooldown ∧
    (normFold cfg rows st).liveHyperparams = st.liveHyperparams ∧
    (normFold cfg rows st).isLocked = st.isLocked ∧
    (normFold cfg rows st).recentMSEWindow = st.recentMSEWindow ∧
    (normFold cfg rows st).lossWindow = st.lossWindow ∧
    (normFold cfg rows st).solvedGracePeriod = st.solvedGracePeriod ∧
    (normFold cfg rows st).currentTargetDensity = st.currentTargetDensity ∧
    (normFold cfg rows st).prevRecentMSE = st.prevRecentMSE := by
  induction rows generalizing st with
  | nil => exact ⟨rfl, rfl, rfl, rfl, rfl, rfl, rfl, rfl, rfl, rfl, rfl, rfl, rfl, rfl⟩
  | cons r rs ih =>
    have h := ih (normalizeSingleRow cfg st r st.liveHyperparams.spectral)
    have hf := normalizeSingleRow_frame cfg st r st.liveHyperparams.spectral
    simp only [normFold, List.foldl] at h ⊢
    refine ⟨?_, ?_, ?_, ?_, ?_, ?_, ?_, ?_, ?_, ?_, ?_, ?_, ?_, ?_⟩ <;>
      simp_all

@[simp] theorem normFold_currentSize (cfg : SimulationConfig) (rows : List Nat)
    (st : EngineState) : (normFold cfg rows st).currentSize = st.currentSize :=
  (normFold_frame cfg rows st).1

@[simp] theorem normFold_readout (cfg : SimulationConfig) (rows : List Nat)
    (st : EngineState) : (normFold cfg rows st).readout = st.readout :=
  (normFold_frame cfg rows st).2.1

@[simp] theorem normFold_recentMSE (cfg : SimulationConfig) (rows : List Nat)
    (st : EngineState) : (normFold cfg rows st).recentMSE = st.recentMSE :=
  (normFold_frame cfg rows st).2.2.1

@[simp] theorem normFold_patienceCounter (cfg : SimulationConfig) (rows : List Nat)
    (st : EngineState) : (normFold cfg rows st).patienceCounter = st.patienceCounter :=
  (normFold_frame cfg rows st).2.2.2.1

@[simp] theorem normFold_logQueue (cfg : SimulationConfig) (rows : List Nat)
    (st : EngineState) : (normFold cfg rows st).logQueue = st.logQueue :=
  (normFold_frame cfg rows st).2.2.2.2.1

@[simp] theorem normFold_stepCount (cfg : SimulationConfig) (rows : List Nat)
    (st : EngineState) : (normFold cfg rows st).stepCount = st.stepCount :=
  (normFold_frame cfg rows st).2.2.2.2.2.1

@[simp] theorem normFold_structuralCooldown (cfg : SimulationConfig) (rows : List Nat)
    (st : EngineState) : (normFold cfg rows st).structuralCooldown = st.structuralCooldown :=
  (normFold_frame cfg rows st).2.2.2.2.2.2.1

@[simp] theorem normFold_liveHyperparams (cfg : SimulationConfig) (rows : List Nat)
    (st : EngineState) : (normFold cfg rows st).liveHyperparams = st.liveHyperparams :=
  (normFold_frame cfg rows st).2.2.2.2.2.2.2.1

@[simp] theorem normFold_isLocked (cfg : SimulationConfig) (rows : List Nat)
    (st : EngineState) : (normFold cfg rows st).isLocked = st.isLocked :=
  (normFold_frame cfg rows st).2.2.2.2.2.2.2.2.1

@[simp] theorem normFold_recentMSEWindow (cfg : SimulationConfig) (rows : List Nat)
    (st : EngineState) : (normFold cfg rows st).recentMSEWindow = st.recentMSEWindow :=
  (normFold_frame cfg rows st).2.2.2.2.2.2.2.2.2.1

@[simp] theorem normFold_lossWindow (cfg : SimulationConfig) (rows : List Nat)
    (st : EngineState) : (normFold cfg rows st).lossWindow = st.lossWindow :=
  (normFold_frame cfg rows st).2.2.2.2.2.2.2.2.2.2.1

@[simp] theorem normFold_solvedGracePeriod (cfg : SimulationConfig) (rows : List Nat)
    (st : EngineState) : (normFold cfg rows st).solvedGracePeriod = st.solvedGracePeriod :=
  (normFold_frame cfg rows st).2.2.2.2.2.2.2.2.2.2.2.1

@[simp] theorem normFold_currentTargetDensity (cfg : SimulationConfig) (rows : List Nat)
    (st : EngineState) :
    (normFold cfg rows st).currentTargetDensity = st.currentTargetDensity :=
  (normFold_frame cfg rows st).2.2.2.2.2.2.2.2.2.2.2.2.1

@[simp] theorem normFold_prevRecentMSE (cfg : SimulationConfig) (rows : List Nat)
    (st : EngineState) : (normFold cfg rows st).prevRecentMSE = st.prevRecentMSE :=
  (normFold_frame cfg rows st).2.2.2.2.2.2.2.2.2.2.2.2.2

theorem applySpectralNormalization_frame (cfg : SimulationConfig) (ops : Ops)
    (rndV rndU : Nat → Nat → ℚ) (iters : Nat) (st : EngineState) :
    (applySpectralNormalization cfg ops rndV rndU iters st).currentSize = st.currentSize ∧
    (applySpectralNormalization cfg ops rndV rndU iters st).readout = st.readout ∧
    (applySpectralNormalization cfg ops rndV rndU iters st).recentMSE = st.recentMSE ∧
    (applySpectralNormalization cfg ops rndV rndU iters st).patienceCounter
      = st.patienceCounter ∧
    (applySpectralNormalization cfg ops rndV rndU iters st).logQueue = st.logQueue ∧
    (applySpectralNormalization cfg ops rndV rndU iters st).liveHyperparams
      = st.liveHyperparams ∧
    (applySpectralNormalization cfg ops rndV rndU iters st).stepCount = st.stepCount ∧
    (applySpectralNormalization cfg ops rndV rndU iters st).structuralCooldown
      = st.structuralCooldown ∧
    (applySpectralNormalization cfg ops rndV rndU iters st).isLocked = st.isLocked ∧
    (applySpectralNormalization cfg ops rndV rndU iters st).lossWindow = st.lossWindow ∧
    (applySpectralNormalization cfg ops rndV rndU iters st).recentMSEWindow
      = st.recentMSEWindow ∧
    (applySpectralNormalization cfg ops rndV rndU iters st).solvedGracePeriod
      = st.solvedGracePeriod ∧
    (applySpectralNormalization cfg ops rndV rndU iters st).currentTargetDensity
      = st.currentTargetDensity ∧
    (applySpectralNormalization cfg ops rndV rndU iters st).prevRecentMSE
      = st.prevRecentMSE ∧
    (applySpectralNormalization cfg ops rndV rndU iters st).totalRegrown = st.totalRegrown := by
  unfold applySpectralNormalization
  dsimp only
  split <;>
    exact ⟨rfl, rfl, rfl, rfl, rfl, rfl, rfl, rfl, rfl, rfl, rfl, rfl, rfl, rfl, rfl⟩

@[simp] theorem applySpectralNormalization_currentSize (cfg : SimulationConfig) (ops : Ops)
    (rndV rndU : Nat → Nat → ℚ) (iters : Nat) (st : EngineState) :
    (applySpectralNormalization cfg ops rndV rndU iters st).currentSize = st.currentSize :=
  (applySpectralNormalization_frame cfg ops rndV rndU iters st).1

@[simp] theorem applySpectralNormalization_readout (cfg : SimulationConfig) (ops : Ops)
    (rndV rndU : Nat → Nat → ℚ) (iters : Nat) (st : EngineState) :
    (applySpectralNormalization cfg ops rndV rndU iters st).readout = st.readout :=
  (applySpectralNormalization_frame cfg ops rndV rndU iters st).2.1

@[simp] theorem applySpectralNormalization_recentMSE (cfg : SimulationConfig) (ops : Ops)
    (rndV rndU : Nat → Nat → ℚ) (iters : Nat) (st : EngineState) :
    (applySpectralNormalization cfg ops rndV rndU iters st).recentMSE = st.recentMSE :=
  (applySpectralNormalization_frame cfg ops rndV rndU iters st).2.2.1

@[simp] theorem applySpectralNormalization_patienceCounter (cfg : SimulationConfig) (ops : Ops)
    (rndV rndU : Nat → Nat → ℚ) (iters : Nat) (st : EngineState) :
    (applySpectralNormalization cfg ops rndV rndU iters st).patienceCounter
      = st.patienceCounter :=
  (applySpectralNormalization_frame cfg ops rndV rndU iters st).2.2.2.1

@[simp] theorem applySpectralNormalization_logQueue (cfg : SimulationConfig) (ops : Ops)
    (rndV rndU : Nat → Nat → ℚ) (iters : Nat) (st : EngineState) :
    (applySpectralNormalization cfg ops rndV rndU iters st).logQueue = st.logQueue :=
  (applySpectralNormalization_frame cfg ops rndV rndU iters st).2.2.2.2.1

@[simp] theorem applySpectralNormalization_liveHyperparams (cfg : SimulationConfig) (ops : Ops)
    (rndV rndU : Nat → Nat → ℚ) (iters : Nat) (st : EngineState) :
    (applySpectralNormalization cfg ops rndV rndU iters st).liveHyperparams
      = st.liveHyperparams :=
  (applySpectralNormalization_frame cfg ops rndV rndU iters st).2.2.2.2.2.1

@[simp] theorem applySpectralNormalization_stepCount (cfg : SimulationConfig) (ops : Ops)
    (rndV rndU : Nat → Nat → ℚ) (iters : Nat) (st : EngineState) :
    (applySpectralNormalization cfg ops rndV rndU iters st).stepCount = st.stepCount :=
  (applySpectralNormalization_frame cfg ops rndV rndU iters st).2.2.2.2.2.2.1

@[simp] theorem applySpectralNormalization_structuralCooldown (cfg : SimulationConfig)
    (ops : Ops) (rndV rndU : Nat → Nat → ℚ) (iters : Nat) (st : EngineState) :
    (applySpectralNormalization cfg ops rndV rndU iters st).structuralCooldown
      = st.structuralCooldown :=
  (applySpectralNormalization_frame cfg ops rndV rndU iters st).2.2.2.2.2.2.2.1

@[simp] theorem applySpectralNormalization_isLocked (cfg : SimulationConfig) (ops : Ops)
    (rndV rndU : Nat → Nat → ℚ) (iters : Nat) (st : EngineState) :
    (applySpectralNormalization cfg ops rndV rndU iters st).isLocked = st.isLocked :=
  (applySpectralNormalization_frame cfg ops rndV rndU iters st).2.2.2.2.2.2.2.2.1

@[simp] theorem applySpectralNormalization_lossWindow (cfg : SimulationConfig) (ops : Ops)
    (rndV rndU : Nat → Nat → ℚ) (iters : Nat) (st : EngineState) :
    (applySpectralNormalization cfg ops rndV rndU iters st).lossWindow = st.lossWindow :=
  (applySpectralNormalization_frame cfg ops rndV rndU iters st).2.2.2.2.2.2.2.2.2.1

@[simp] theorem applySpectralNormalization_recentMSEWindow (cfg : SimulationConfig)
    (ops : Ops) (rndV rndU : Nat → Nat → ℚ) (iters : Nat) (st : EngineState) :
    (applySpectralNormalization cfg ops rndV rndU iters st).recentMSEWindow
      = st.recentMSEWindow :=
  (applySpectralNormalization_frame cfg ops rndV rndU iters st).2.2.2.2.2.2.2.2.2.2.1

@[simp] theorem applySpectralNormalization_solvedGracePeriod (cfg : SimulationConfig)
    (ops : Ops) (rndV rndU : Nat → Nat → ℚ) (iters : Nat) (st : EngineState) :
    (applySpectralNormalization cfg ops rndV rndU iters st).solvedGracePeriod
      = st.solvedGracePeriod :=
  (applySpectralNormalization_frame cfg ops rndV rndU iters st).2.2.2.2.2.2.2.2.2.2.2.1

@[simp] theorem applySpectralNormalization_currentTargetDensity (cfg : SimulationConfig)
    (ops : Ops) (rndV rndU : Nat → Nat → ℚ) (iters : Nat) (st : EngineState) :
    (applySpectralNormalization cfg ops rndV rndU iters st).currentTargetDensity
      = st.currentTargetDensity :=
  (applySpectralNormalization_frame cfg ops rndV rndU iters st).2.2.2.2.2.2.2.2.2.2.2.2.1

@[simp] theorem applySpectralNormalization_prevRecentMSE (cfg : SimulationConfig)
    (ops : Ops) (rndV rndU : Nat → Nat → ℚ) (iters : Nat) (st : EngineState) :
    (applySpectralNormalization cfg ops rndV rndU iters st).prevRecentMSE
      = st.prevRecentMSE :=
  (applySpectralNormalization_frame cfg ops rndV rndU iters st).2.2.2.2.2.2.2.2.2.2.2.2.2.1

@[simp] theorem regrowSynapses_currentSize (cfg : SimulationConfig) (r : RegrowRand)
    (st : EngineState) (count : ℤ) :
    (regrowSynapses cfg r st count).currentSize = st.currentSize := by
  unfold regrowSynapses
  dsimp only
  split <;> simp

@[simp] theorem regrowSynapses_readout (cfg : SimulationConfig) (r : RegrowRand)
    (st : EngineState) (count : ℤ) :
    (regrowSynapses cfg r st count).readout = st.readout := by
  unfold regrowSynapses
  dsimp only
  split <;> simp

@[simp] theorem regrowSynapses_recentMSE (cfg : SimulationConfig) (r : RegrowRand)
    (st : EngineState) (count : ℤ) :
    (regrowSynapses cfg r st count).recentMSE = st.recentMSE := by
  unfold regrowSynapses
  dsimp only
  split <;> simp

@[simp] theorem regrowSynapses_patienceCounter (cfg : SimulationConfig) (r : RegrowRand)
    (st : EngineState) (count : ℤ) :
    (regrowSynapses cfg r st count).patienceCounter = st.patienceCounter := by
  unfold regrowSynapses
  dsimp only
  split <;> simp

@[simp] theorem regrowSynapses_logQueue (cfg : SimulationConfig) (r : RegrowRand)
    (st : EngineState) (count : ℤ) :
    (regrowSynapses cfg r st count).logQueue = st.logQueue := by
  unfold regrowSynapses
  dsimp only
  split <;> simp

@[simp] theorem regrowSynapses_stepCount (cfg : SimulationConfig) (r : RegrowRand)
    (st : EngineState) (count : ℤ) :
    (regrowSynapses cfg r st count).stepCount = st.stepCount := by
  unfold regrowSynapses
  dsimp only
  split <;> simp

@[simp] theorem regrowSynapses_structuralCooldown (cfg : SimulationConfig) (r : RegrowRand)
    (st : EngineState) (count : ℤ) :
    (regrowSynapses cfg r st count).structuralCooldown = st.structuralCooldown := by
  unfold regrowSynapses
  dsimp only
  split <;> simp

@[simp] theorem performSmartRewiring_currentSize (cfg : SimulationConfig) (r : RewireRand)
    (st : EngineState) (count : ℤ) :
    (performSmartRewiring cfg r st count).currentSize = st.currentSize := by
  unfold performSmartRewiring
  dsimp only
  repeat' split
  all_goals simp

@[simp] theorem performSmartRewiring_readout (cfg : SimulationConfig) (r : RewireRand)
    (st : EngineState) (count : ℤ) :
    (performSmartRewiring cfg r st count).readout = st.readout := by
  unfold performSmartRewiring
  dsimp only
  repeat' split
  all_goals simp

@[simp] theorem performSmartRewiring_recentMSE (cfg : SimulationConfig) (r : RewireRand)
    (st : EngineState) (count : ℤ) :
    (performSmartRewiring cfg r st count).recentMSE = st.recentMSE := by
  unfold performSmartRewiring
  dsimp only
  repeat' split
  all_goals simp

@[simp] theorem performSmartRewiring_patienceCounter (cfg : SimulationConfig) (r : RewireRand)
    (st : EngineState) (count : ℤ) :
    (performSmartRewiring cfg r st count).patienceCounter = st.patienceCounter := by
  unfold performSmartRewiring
  dsimp only
  repeat' split
  all_goals simp

@[simp] theorem performSmartRewiring_stepCount (cfg : SimulationConfig) (r : RewireRand)
    (st : EngineState) (count : ℤ) :
    (performSmartRewiring cfg r st count).stepCount = st.stepCount := by
  unfold performSmartRewiring
  dsimp only
  repeat' split
  all_goals simp

@[simp] theorem performSmartRewiring_structuralCooldown (cfg : SimulationConfig)
    (r : RewireRand) (st : EngineState) (count : ℤ) :
    (performSmartRewiring cfg r st count).structuralCooldown = st.structuralCooldown := by
  unfold performSmartRewiring
  dsimp only
  repeat' split
  all_goals simp

@[simp] theorem deltaBasedPrune_currentSize (cfg : SimulationConfig) (attn : List ℚ)
    (dr : Nat → Nat → ℚ) (st : EngineState) (beta : ℚ) :
    (deltaBasedPrune cfg attn dr st beta).currentSize = st.currentSize := by
  unfold deltaBasedPrune
  dsimp only
  split <;> simp

@[simp] theorem deltaBasedPrune_readout (cfg : SimulationConfig) (attn : List ℚ)
    (dr : Nat → Nat → ℚ) (st : EngineState) (beta : ℚ) :
    (deltaBasedPrune cfg attn dr st beta).readout = st.readout := by
  unfold deltaBasedPrune
  dsimp only
  split <;> simp

@[simp] theorem deltaBasedPrune_recentMSE (cfg : SimulationConfig) (attn : List ℚ)
    (dr : Nat → Nat → ℚ) (st : EngineState) (beta : ℚ) :
    (deltaBasedPrune cfg attn dr st beta).recentMSE = st.recentMSE := by
  unfold deltaBasedPrune
  dsimp only
  split <;> simp

@[simp] theorem deltaBasedPrune_patienceCounter (cfg : SimulationConfig) (attn : List ℚ)
    (dr : Nat → Nat → ℚ) (st : EngineState) (beta : ℚ) :
    (deltaBasedPrune cfg attn dr st beta).patienceCounter = st.patienceCounter := by
  unfold deltaBasedPrune
  dsimp only
  split <;> simp

@[simp] theorem deltaBasedPrune_stepCount (cfg : SimulationConfig) (attn : List ℚ)
    (dr : Nat → Nat → ℚ) (st : EngineState) (beta : ℚ) :
    (deltaBasedPrune cfg attn dr st beta).stepCount = st.stepCount := by
  unfold deltaBasedPrune
  dsimp only
  split <;> simp

@[simp] theorem deltaBasedPrune_structuralCooldown (cfg : SimulationConfig) (attn : List ℚ)
    (dr : Nat → Nat → ℚ) (st : EngineState) (beta : ℚ) :
    (deltaBasedPrune cfg attn dr st beta).structuralCooldown = st.structuralCooldown := by
  unfold deltaBasedPrune
  dsimp only
  split <;> simp

@[simp] theorem pruneSynapses_currentSize (cfg : SimulationConfig) (cc : MetaControllerConfig)
    (st : EngineState) (ctl : CtlState) :
    (pruneSynapses cfg cc st ctl).1.currentSize = st.currentSize := by
  unfold pruneSynapses
  dsimp only
  repeat' split
  all_goals simp

@[simp] theorem pruneSynapses_readout (cfg : SimulationConfig) (cc : MetaControllerConfig)
    (st : EngineState) (ctl : CtlState) :
    (pruneSynapses cfg cc st ctl).1.readout = st.readout := by
  unfold pruneSynapses
  dsimp only
  repeat' split
  all_goals simp

@[simp] theorem pruneSynapses_recentMSE (cfg : SimulationConfig) (cc : MetaControllerConfig)
    (st : EngineState) (ctl : CtlState) :
    (pruneSynapses cfg cc st ctl).1.recentMSE = st.recentMSE := by
  unfold pruneSynapses
  dsimp only
  repeat' split
  all_goals simp

@[simp] theorem pruneSynapses_patienceCounter (cfg : SimulationConfig)
    (cc : MetaControllerConfig) (st : EngineState) (ctl : CtlState) :
    (pruneSynapses cfg cc st ctl).1.patienceCounter = st.patienceCounter := by
  unfold pruneSynapses
  dsimp only
  repeat' split
  all_goals simp

@[simp] theorem pruneSynapses_stepCount (cfg : SimulationConfig) (cc : MetaControllerConfig)
    (st : EngineState) (ctl : CtlState) :
    (pruneSynapses cfg cc st ctl).1.stepCount = st.stepCount := by
  unfold pruneSynapses
  dsimp only
  repeat' split
  all_goals simp

/-- The prune guard: when the smoothed error exceeds the unlock threshold,
`pruneSynapses` is an identity on both the network and the controller. -/
theorem pruneSynapses_guard (cfg : SimulationConfig) (cc : MetaControllerConfig)
    (st : EngineState) (ctl : CtlState) (h : cfg.unlockThreshold < st.recentMSE) :
    pruneSynapses cfg cc st ctl = (st, ctl) := by
  unfold pruneSynapses
  rw [if_pos h]

@[simp] theorem reservoirUpdate_currentSize (cfg : SimulationConfig) (ops : Ops)
    (iv tv : ℚ) (st : EngineState) :
    (reservoirUpdate cfg ops iv tv st).currentSize = st.currentSize := rfl

@[simp] theorem reservoirUpdate_readout (cfg : SimulationConfig) (ops : Ops)
    (iv tv : ℚ) (st : EngineState) :
    (reservoirUpdate cfg ops iv tv st).readout = st.readout := rfl

@[simp] theorem reservoirUpdate_weights (cfg : SimulationConfig) (ops : Ops)
    (iv tv : ℚ) (st : EngineState) :
    (reservoirUpdate cfg ops iv tv st).weights = st.weights := rfl

@[simp] theorem reservoirUpdate_recentMSE (cfg : SimulationConfig) (ops : Ops)
    (iv tv : ℚ) (st : EngineState) :
    (reservoirUpdate cfg ops iv tv st).recentMSE = st.recentMSE := rfl

@[simp] theorem reservoirUpdate_recentMSEWindow (cfg : SimulationConfig) (ops : Ops)
    (iv tv : ℚ) (st : EngineState) :
    (reservoirUpdate cfg ops iv tv st).recentMSEWindow = st.recentMSEWindow := rfl

@[simp] theorem reservoirUpdate_patienceCounter (cfg : SimulationConfig) (ops : Ops)
    (iv tv : ℚ) (st : EngineState) :
    (reservoirUpdate cfg ops iv tv st).patienceCounter = st.patienceCounter := rfl

@[simp] theorem reservoirUpdate_logQueue (cfg : SimulationConfig) (ops : Ops)
    (iv tv : ℚ) (st : EngineState) :
    (reservoirUpdate cfg ops iv tv st).logQueue = st.logQueue := rfl

@[simp] theorem reservoirUpdate_liveHyperparams (cfg : SimulationConfig) (ops : Ops)
    (iv tv : ℚ) (st : EngineState) :
    (reservoirUpdate cfg ops iv tv st).liveHyperparams = st.liveHyperparams := rfl

@[simp] theorem reservoirUpdate_isLocked (cfg : SimulationConfig) (ops : Ops)
    (iv tv : ℚ) (st : EngineState) :
    (reservoirUpdate cfg ops iv tv st).isLocked = st.isLocked := rfl

@[simp] theorem reservoirUpdate_lossWindow (cfg : SimulationConfig) (ops : Ops)
    (iv tv : ℚ) (st : EngineState) :
    (reservoirUpdate cfg ops iv tv st).lossWindow = st.lossWindow := rfl

@[simp] theorem reservoirUpdate_regressionSlope (cfg : SimulationConfig) (ops : Ops)
    (iv tv : ℚ) (st : EngineState) :
    (reservoirUpdate cfg ops iv tv st).regressionSlope = st.regressionSlope := rfl

@[simp] theorem reservoirUpdate_stepCount (cfg : SimulationConfig) (ops : Ops)
    (iv tv : ℚ) (st : EngineState) :
    (reservoirUpdate cfg ops iv tv st).stepCount = st.stepCount := rfl

@[simp] theorem reservoirUpdate_structuralCooldown (cfg : SimulationConfig) (ops : Ops)
    (iv tv : ℚ) (st : EngineState) :
    (reservoirUpdate cfg ops iv tv st).structuralCooldown = st.structuralCooldown := rfl

@[simp] theorem reservoirUpdate_solvedGracePeriod (cfg : SimulationConfig) (ops : Ops)
    (iv tv : ℚ) (st : EngineState) :
    (reservoirUpdate cfg ops iv tv st).solvedGracePeriod = st.solvedGracePeriod := rfl

@[simp] theorem updateErrorWindow_currentSize (st : EngineState) (e : ℚ) :
    (updateErrorWindow st e).currentSize = st.currentSize := rfl

@[simp] theorem updateErrorWindow_readout (st : EngineState) (e : ℚ) :
    (updateErrorWindow st e).readout = st.readout := rfl

@[simp] theorem updateErrorWindow_weights (st : EngineState) (e : ℚ) :
    (updateErrorWindow st e).weights = st.weights := rfl

@[simp] theorem updateErrorWindow_patienceCounter (st : EngineState) (e : ℚ) :
    (updateErrorWindow st e).patienceCounter = st.patienceCounter := rfl

@[simp] theorem updateErrorWindow_logQueue (st : EngineState) (e : ℚ) :
    (updateErrorWindow st e).logQueue = st.logQueue := rfl

@[simp] theorem updateErrorWindow_liveHyperparams (st : EngineState) (e : ℚ) :
    (updateErrorWindow st e).liveHyperparams = st.liveHyperparams := rfl

@[simp] theorem updateErrorWindow_isLocked (st : EngineState) (e : ℚ) :
    (updateErrorWindow st e).isLocked = st.isLocked := rfl

@[simp] theorem updateErrorWindow_lossWindow (st : EngineState) (e : ℚ) :
    (updateErrorWindow st e).lossWindow = st.lossWindow := rfl

@[simp] theorem updateErrorWindow_stepCount (st : EngineState) (e : ℚ) :
    (updateErrorWindow st e).stepCount = st.stepCount := rfl

@[simp] theorem updateErrorWindow_structuralCooldown (st : EngineState) (e : ℚ) :
    (updateErrorWindow st e).structuralCooldown = st.structuralCooldown := rfl

@[simp] theorem updateErrorWindow_solvedGracePeriod (st : EngineState) (e : ℚ) :
    (updateErrorWindow st e).solvedGracePeriod = st.solvedGracePeriod := rfl

@[simp] theorem updateErrorWindow_activations (st : EngineState) (e : ℚ) :
    (updateErrorWindow st e).activations = st.activations := rfl

@[simp] theorem updateErrorWindow_regressionSlope (st : EngineState) (e : ℚ) :
    (updateErrorWindow st e).regressionSlope = st.regressionSlope := rfl

@[simp] theorem updateReadout_currentSize (st : EngineState) (lr e : ℚ) :
    (updateReadout st lr e).currentSize = st.currentSize := rfl

@[simp] theorem updateReadout_weights (st : EngineState) (lr e : ℚ) :
    (updateReadout st lr e).weights = st.weights := rfl

@[simp] theorem updateReadout_recentMSE (st : EngineState) (lr e : ℚ) :
    (updateReadout st lr e).recentMSE = st.recentMSE := rfl

@[simp] theorem updateReadout_patienceCounter (st : EngineState) (lr e : ℚ) :
    (updateReadout st lr e).patienceCounter = st.patienceCounter := rfl

@[simp] theorem updateReadout_logQueue (st : EngineState) (lr e : ℚ) :
    (updateReadout st lr e).logQueue = st.logQueue := rfl

@[simp] theorem updateReadout_liveHyperparams (st : EngineState) (lr e : ℚ) :
    (updateReadout st lr e).liveHyperparams = st.liveHyperparams := rfl

@[simp] theorem updateReadout_isLocked (st : EngineState) (lr e : ℚ) :
    (updateReadout st lr e).isLocked = st.isLocked := rfl

@[simp] theorem updateReadout_lossWindow (st : EngineState) (lr e : ℚ) :
    (updateReadout st lr e).lossWindow = st.lossWindow := rfl

@[simp] theorem updateReadout_stepCount (st : EngineState) (lr e : ℚ) :
    (updateReadout st lr e).stepCount = st.stepCount := rfl

@[simp] theorem updateReadout_structuralCooldown (st : EngineState) (lr e : ℚ) :
    (updateReadout st lr e).structuralCooldown = st.structuralCooldown := rfl

@[simp] theorem updateReadout_solvedGracePeriod (st : EngineState) (lr e : ℚ) :
    (updateReadout st lr e).solvedGracePeriod = st.solvedGracePeriod := rfl

@[simp] theorem updateReadout_recentMSEWindow (st : EngineState) (lr e : ℚ) :
    (updateReadout st lr e).recentMSEWindow = st.recentMSEWindow := rfl

@[simp] theorem updateReadout_activations (st : EngineState) (lr e : ℚ) :
    (updateReadout st lr e).activations = st.activations := rfl

@[simp] theorem updateReadout_regressionSlope (st : EngineState) (lr e : ℚ) :
    (updateReadout st lr e).regressionSlope = st.regressionSlope := rfl

@[simp] theorem updateReadout_prevRecentMSE (st : EngineState) (lr e : ℚ) :
    (updateReadout st lr e).prevRecentMSE = st.prevRecentMSE := rfl

@[simp] theorem applySupervisedHebbian_currentSize (cfg : SimulationConfig)
    (st : EngineState) (e lr : ℚ) :
    (applySupervisedHebbian cfg st e lr).currentSize = st.currentSize := rfl

@[simp] theorem applySupervisedHebbian_readout (cfg : SimulationConfig)
    (st : EngineState) (e lr : ℚ) :
    (applySupervisedHebbian cfg st e lr).readout = st.readout := rfl

@[simp] theorem applySupervisedHebbian_recentMSE (cfg : SimulationConfig)
    (st : EngineState) (e lr : ℚ) :
    (applySupervisedHebbian cfg st e lr).recentMSE = st.recentMSE := rfl

@[simp] theorem applySupervisedHebbian_patienceCounter (cfg : SimulationConfig)
    (st : EngineState) (e lr : ℚ) :
    (applySupervisedHebbian cfg st e lr).patienceCounter = st.patienceCounter := rfl

@[simp] theorem applySupervisedHebbian_logQueue (cfg : SimulationConfig)
    (st : EngineState) (e lr : ℚ) :
    (applySupervisedHebbian cfg st e lr).logQueue = st.logQueue := rfl

@[simp] theorem applySupervisedHebbian_liveHyperparams (cfg : SimulationConfig)
    (st : EngineState) (e lr : ℚ) :
    (applySupervisedHebbian cfg st e lr).liveHyperparams = st.liveHyperparams := rfl

@[simp] theorem applySupervisedHebbian_isLocked (cfg : SimulationConfig)
    (st : EngineState) (e lr : ℚ) :
    (applySupervisedHebbian cfg st e lr).isLocked = st.isLocked := rfl

@[simp] theorem applySupervisedHebbian_lossWindow (cfg : SimulationConfig)
    (st : EngineState) (e lr : ℚ) :
    (applySupervisedHebbian cfg st e lr).lossWindow = st.lossWindow := rfl

@[simp] theorem applySupervisedHebbian_stepCount (cfg : SimulationConfig)
    (st : EngineState) (e lr : ℚ) :
    (applySupervisedHebbian cfg st e lr).stepCount = st.stepCount := rfl

@[simp] theorem applySupervisedHebbian_structuralCooldown (cfg : SimulationConfig)
    (st : EngineState) (e lr : ℚ) :
    (applySupervisedHebbian cfg st e lr).structuralCooldown = st.structuralCooldown := rfl

@[simp] theorem applySupervisedHebbian_solvedGracePeriod (cfg : SimulationConfig)
    (st : EngineState) (e lr : ℚ) :
    (applySupervisedHebbian cfg st e lr).solvedGracePeriod = st.solvedGracePeriod := rfl

@[simp] theorem applySupervisedHebbian_recentMSEWindow (cfg : SimulationConfig)
    (st : EngineState) (e lr : ℚ) :
    (applySupervisedHebbian cfg st e lr).recentMSEWindow = st.recentMSEWindow := rfl

@[simp] theorem applySupervisedHebbian_regressionSlope (cfg : SimulationConfig)
    (st : EngineState) (e lr : ℚ) :
    (applySupervisedHebbian cfg st e lr).regressionSlope = st.regressionSlope := rfl

@[simp] theorem applySupervisedHebbian_prevRecentMSE (cfg : SimulationConfig)
    (st : EngineState) (e lr : ℚ) :
    (applySupervisedHebbian cfg st e lr).prevRecentMSE = st.prevRecentMSE := rfl

@[simp] theorem applyStrategyParams_currentSize (st : EngineState) (a : Hyperparams)
    (ie : Bool) (gm : ℚ) :
    (applyStrategyParams st a ie gm).currentSize = st.currentSize := rfl

@[simp] theorem applyStrategyParams_readout (st : EngineState) (a : Hyperparams)
    (ie : Bool) (gm : ℚ) :
    (applyStrategyParams st a ie gm).readout = st.readout := rfl

@[simp] theorem applyStrategyParams_weights (st : EngineState) (a : Hyperparams)
    (ie : Bool) (gm : ℚ) :
    (applyStrategyParams st a ie gm).weights = st.weights := rfl

@[simp] theorem applyStrategyParams_recentMSE (st : EngineState) (a : Hyperparams)
    (ie : Bool) (gm : ℚ) :
    (applyStrategyParams st a ie gm).recentMSE = st.recentMSE := rfl

@[simp] theorem applyStrategyParams_patienceCounter (st : EngineState) (a : Hyperparams)
    (ie : Bool) (gm : ℚ) :
    (applyStrategyParams st a ie gm).patienceCounter = st.patienceCounter := rfl

@[simp] theorem applyStrategyParams_logQueue (st : EngineState) (a : Hyperparams)
    (ie : Bool) (gm : ℚ) :
    (applyStrategyParams st a ie gm).logQueue = st.logQueue := rfl

@[simp] theorem applyStrategyParams_isLocked (st : EngineState) (a : Hyperparams)
    (ie : Bool) (gm : ℚ) :
    (applyStrategyParams st a ie gm).isLocked = st.isLocked := rfl

@[simp] theorem applyStrategyParams_lossWindow (st : EngineState) (a : Hyperparams)
    (ie : Bool) (gm : ℚ) :
    (applyStrategyParams st a ie gm).lossWindow = st.lossWindow := rfl

@[simp] theorem applyStrategyParams_stepCount (st : EngineState) (a : Hyperparams)
    (ie : Bool) (gm : ℚ) :
    (applyStrategyParams st a ie gm).stepCount = st.stepCount := rfl

@[simp] theorem applyStrategyParams_structuralCooldown (st : EngineState) (a : Hyperparams)
    (ie : Bool) (gm : ℚ) :
    (applyStrategyParams st a ie gm).structuralCooldown = st.structuralCooldown := rfl

@[simp] theorem applyStrategyParams_solvedGracePeriod (st : EngineState) (a : Hyperparams)
    (ie : Bool) (gm : ℚ) :
    (applyStrategyParams st a ie gm).solvedGracePeriod = st.solvedGracePeriod := rfl

@[simp] theorem applyStrategyParams_recentMSEWindow (st : EngineState) (a : Hyperparams)
    (ie : Bool) (gm : ℚ) :
    (applyStrategyParams st a ie gm).recentMSEWindow = st.recentMSEWindow := rfl

@[simp] theorem applyStrategyParams_activations (st : EngineState) (a : Hyperparams)
    (ie : Bool) (gm : ℚ) :
    (applyStrategyParams st a ie gm).activations = st.activations := rfl

@[simp] theorem applyStrategyParams_regressionSlope (st : EngineState) (a : Hyperparams)
    (ie : Bool) (gm : ℚ) :
    (applyStrategyParams st a ie gm).regressionSlope = st.regressionSlope := rfl

@[simp] theorem applyStrategyParams_prevRecentMSE (st : EngineState) (a : Hyperparams)
    (ie : Bool) (gm : ℚ) :
    (applyStrategyParams st a ie gm).prevRecentMSE = st.prevRecentMSE := rfl

@[simp] theorem applyStrategyParams_currentTargetDensity (st : EngineState)
    (a : Hyperparams) (ie : Bool) (gm : ℚ) :
    (applyStrategyParams st a ie gm).currentTargetDensity = st.currentTargetDensity := rfl

@[simp] theorem getMetrics_fst (st : EngineState) (ctl : CtlState) (p t l : ℚ)
    (s : Status) : (getMetrics st ctl p t l s).1 = { st with logQueue := [] } := rfl

@[simp] theorem getMetrics_adaptationStatus (st : EngineState) (ctl : CtlState)
    (p t l : ℚ) (s : Status) : (getMetrics st ctl p t l s).2.adaptationStatus = s := rfl

@[simp] theorem getMetrics_loss (st : EngineState) (ctl : CtlState) (p t l : ℚ)
    (s : Status) : (getMetrics st ctl p t l s).2.loss = l := rfl

@[simp] theorem getMetrics_prediction (st : EngineState) (ctl : CtlState) (p t l : ℚ)
    (s : Status) : (getMetrics st ctl p t l s).2.prediction = p := rfl

@[simp] theorem getMetrics_target (st : EngineState) (ctl : CtlState) (p t l : ℚ)
    (s : Status) : (getMetrics st ctl p t l s).2.target = t := rfl

@[simp] theorem getMetrics_logs (st : EngineState) (ctl : CtlState) (p t l : ℚ)
    (s : Status) : (getMetrics st ctl p t l s).2.logs = st.logQueue := rfl

@[simp] theorem getMetrics_avgLoss (st : EngineState) (ctl : CtlState) (p t l : ℚ)
    (s : Status) : (getMetrics st ctl p t l s).2.avgLoss = st.recentMSE := rfl

@[simp] theorem getMetrics_patience (st : EngineState) (ctl : CtlState) (p t l : ℚ)
    (s : Status) : (getMetrics st ctl p t l s).2.patience = st.patienceCounter := rfl

@[simp] theorem getMetrics_neuronCount (st : EngineState) (ctl : CtlState) (p t l : ℚ)
    (s : Status) : (getMetrics st ctl p t l s).2.neuronCount = st.currentSize := rfl

@[simp] theorem normalizeSingleRow_regressionSlope (cfg : SimulationConfig)
    (st : EngineState) (rowIdx : Nat) (t : ℚ) :
    (normalizeSingleRow cfg st rowIdx t).regressionSlope = st.regressionSlope := by
  unfold normalizeSingleRow
  dsimp only
  split <;> rfl

@[simp] theorem normFold_regressionSlope (cfg : SimulationConfig) (rows : List Nat)
    (st : EngineState) : (normFold cfg rows st).regressionSlope = st.regressionSlope := by
  induction rows generalizing st with
  | nil => rfl
  | cons r rs ih =>
    simp only [normFold, List.foldl] at ih ⊢
    rw [ih, normalizeSingleRow_regressionSlope]

@[simp] theorem applySpectralNormalization_regressionSlope (cfg : SimulationConfig)
    (ops : Ops) (rndV rndU : Nat → Nat → ℚ) (iters : Nat) (st : EngineState) :
    (applySpectralNormalization cfg ops rndV rndU iters st).regressionSlope
      = st.regressionSlope := by
  unfold applySpectralNormalization
  dsimp only
  split <;> rfl

/-- Capacity exhaustion: a mitosis request at or above `maxNeurons` fails and
leaves the state untouched. -/
theorem performMitosis_at_capacity (cfg : SimulationConfig) (ops : Ops) (r : MitosisRand)
    (st : EngineState) (h : cfg.maxNeurons ≤ st.currentSize) :
    performMitosis cfg ops r st = (false, st) := by
  unfold performMitosis
  rw [if_pos h]

/-- A mitosis request below capacity succeeds and appends exactly one neuron. -/
theorem performMitosis_success (cfg : SimulationConfig) (ops : Ops) (r : MitosisRand)
    (st : EngineState) (h : st.currentSize < cfg.maxNeurons) :
    (performMitosis cfg ops r st).1 = true ∧
    (performMitosis cfg ops r st).2.currentSize = st.currentSize + 1 := by
  unfold performMitosis
  rw [if_neg (by omega)]
  dsimp only
  constructor
  · rfl
  · simp

@[simp] theorem performMitosis_currentSize (cfg : SimulationConfig) (ops : Ops)
    (r : MitosisRand) (st : EngineState) :
    (performMitosis cfg ops r st).2.currentSize
      = if cfg.maxNeurons ≤ st.currentSize then st.currentSize else st.currentSize + 1 := by
  by_cases h : cfg.maxNeurons ≤ st.currentSize
  · rw [performMitosis_at_capacity cfg ops r st h, if_pos h]
  · rw [if_neg h]
    exact (performMitosis_success cfg ops r st (by omega)).2

theorem performMitosis_frame (cfg : SimulationConfig) (ops : Ops) (r : MitosisRand)
    (st : EngineState) :
    (performMitosis cfg ops r st).2.recentMSE = st.recentMSE ∧
    (performMitosis cfg ops r st).2.patienceCounter = st.patienceCounter ∧
    (performMitosis cfg ops r st).2.stepCount = st.stepCount ∧
    (performMitosis cfg ops r st).2.structuralCooldown = st.structuralCooldown ∧
    (performMitosis cfg ops r st).2.isLocked = st.isLocked ∧
    (performMitosis cfg ops r st).2.recentMSEWindow = st.recentMSEWindow ∧
    (performMitosis cfg ops r st).2.lossWindow = st.lossWindow ∧
    (performMitosis cfg ops r st).2.solvedGracePeriod = st.solvedGracePeriod ∧
    (performMitosis cfg ops r st).2.currentTargetDensity = st.currentTargetDensity ∧
    (performMitosis cfg ops r st).2.liveHyperparams = st.liveHyperparams ∧
    (performMitosis cfg ops r st).2.regressionSlope = st.regressionSlope := by
  unfold performMitosis
  dsimp only
  split
  · exact ⟨rfl, rfl, rfl, rfl, rfl, rfl, rfl, rfl, rfl, rfl, rfl⟩
  · refine ⟨?_, ?_, ?_, ?_, ?_, ?_, ?_, ?_, ?_, ?_, ?_⟩ <;> simp

@[simp] theorem performMitosis_recentMSE (cfg : SimulationConfig) (ops : Ops)
    (r : MitosisRand) (st : EngineState) :
    (performMitosis cfg ops r st).2.recentMSE = st.recentMSE :=
  (performMitosis_frame cfg ops r st).1

@[simp] theorem performMitosis_stepCount (cfg : SimulationConfig) (ops : Ops)
    (r : MitosisRand) (st : EngineState) :
    (performMitosis cfg ops r st).2.stepCount = st.stepCount :=
  (performMitosis_frame cfg ops r st).2.2.1

/-- Mitosis never changes a readout weight of an already-existing neuron
(its only readout write is `readout[newIdx] = 0` at the appended index). -/
theorem performMitosis_readout_getD (cfg : SimulationConfig) (ops : Ops) (r : MitosisRand)
    (st : EngineState) (i : Nat) (hi : i < st.currentSize) :
    (performMitosis cfg ops r st).2.readout.getD i 0 = st.readout.getD i 0 := by
  unfold performMitosis
  dsimp only
  split
  · rfl
  · simp only [applySpectralNormalization_readout, logEvent_readout, normFold_readout]
    exact getD_set_ne st.readout st.currentSize i 0 0 (by omega)

/-! ## Concrete fixtures used by witnesses and counterexamples -/
def opsZ : Ops := { tanh := fun _ => 0, exp := fun _ => 0, sqrt := fun _ => 0, log2 := fun _ => 1 }

def opsId : Ops := { tanh := fun x => x, exp := fun _ => 1, sqrt := fun _ => 0, log2 := fun _ => 1 }

def rg0 : RegrowRand := { iR := fun _ => 0, jR := fun _ => 0, wR := fun _ => 1/2 }

def mitR0 : MitosisRand :=
  { typeR := 0, signR := 0, inR := fun _ => 9, outR := fun _ => 9, wInR := fun _ => 0
    wOutR := fun _ => 0, specV := fun _ _ => 1, specU := fun _ _ => 1 }

def rw0 : RewireRand := { srcR := fun _ => 0, tgtR := fun _ => 0, wR := fun _ => 0, regrow := rg0 }

def cfg2 : SimulationConfig := { DEFAULT_CONFIG with maxNeurons := 2, initialNeurons := 2 }

def cc1 : MetaControllerConfig := { DEFAULT_META_CONFIG with hiddenSize := 1 }

def lstmW0 : LSTMWeightsQ :=
  { Wi := [], Wf := [], Wc := [], Wo := [], Ui := [], Uf := [], Uc := [], Uo := []
    bi := [], bf := [], bc := [], bo := [] }

def ctl0 : CtlState :=
  { shortTermState := { hidden := [0], cell := [0] }
    longTermState := { hidden := [0], cell := [0] }
    gateWeights := [], shortTermWeights := lstmW0, longTermWeights := lstmW0
    lastInput := none, lastShortOut := none, lastLongOut := none, lastGate := 1/2
    strategyWeights := [], lastSelectedStrategy := 0, lastStrategyChangeStep := 0
    strategyEligibility := [0,0,0,0,0], stepCounter := 0, rewardBaseline := 0 }

def hpC7 : Hyperparams :=
  { leak := 1/2, spectral := 1/2, inputScale := 1, learningRate := 0
    smoothingFactor := 1/100, lvGrowth := 0, lvDecay := 0, outputGain := 1 }

def stC7 : EngineState :=
  { activations := [0,0], prevActivations := [0,0], weights := [0,0,0,0]
    readout := [0,0], inputWeights := [0,0], feedbackWeights := [0,0]
    neuronTypes := [1,1], currentSize := 2, totalRegrown := 0
    currentTargetDensity := 2/10, patienceCounter := 256, regressionSlope := 0
    isLocked := false, lossWindow := [], neuronEnergy := [1,1]
    engramTrace := [0,0,0,0], liveHyperparams := hpC7
    spectralU := [0,0], spectralV := [0,0], currentSpectralRadius := 0
    dataSeries := [], recentMSEWindow := [], recentMSE := 3/100, prevRecentMSE := 3/100
    stepCount := 501, logQueue := [], solvedGracePeriod := 0, structuralCooldown := 1
    lastInput := 0 }

def ctl9 : CtlState := { ctl0 with stepCounter := 100, lastStrategyChangeStep := 100 }

def oC7 : StepOracle :=
  { input := 0, target := 3/100, errIsNaN := false, sampleRand := 0
    attn := fun _ => 0, dprune := fun _ _ => 1, mit := mitR0, mitD := mitR0
    rewire := rw0, regrow := rg0, specV := fun _ _ => 1, specU := fun _ _ => 1 }


def oBig : StepOracle := { oC7 with target := 100 }

def cfg21 : SimulationConfig := { DEFAULT_CONFIG with maxNeurons := 2, initialNeurons := 1 }

def ir8 : InitRand :=
  { inputR := fun _ => 0, fbR := fun _ => 0, typeR := fun _ => 0, wireR := fun _ _ => 0
    weightR := fun _ _ => 0, uR := fun _ => 1/2, vR := fun _ => 1/2
    specV := fun _ _ => 3/2, specU := fun _ _ => 3/2 }


def cfg1 : SimulationConfig := { DEFAULT_CONFIG with maxNeurons := 1, initialNeurons := 1 }

def stC5 : EngineState :=
  { stC7 with
    activations := [1], prevActivations := [0], weights := [1], readout := [0]
    inputWeights := [0], feedbackWeights := [0], neuronTypes := [1], currentSize := 1
    neuronEnergy := [1], engramTrace := [0], spectralU := [0], spectralV := [0] }


/-! ### The concrete reference tick: `step cfg2 cc1 opsZ oC7 stC7 ctl0`,
evaluated phase by phase.  The intermediate states are spelled out as record
literals so each phase lemma is a small concrete computation. -/

def stC7a : EngineState := { stC7 with dataSeries := [3/100] }

def stC7b : EngineState := { stC7 with dataSeries := [3/100], recentMSEWindow := [3/100] }

def hpC7b : Hyperparams :=
  { leak := 4/10, spectral := 8/10, inputScale := 9/10, learningRate := 0
    smoothingFactor := 6/100, lvGrowth := 3/1000, lvDecay := 1/1000, outputGain := 1 }

def stC7c : EngineState := { stC7b with liveHyperparams := hpC7b }

def stC7d : EngineState :=
  { stC7c with spectralU := [1/2, 1/2], spectralV := [1/2, 1/2], currentSpectralRadius := 0 }

def ctl1C7 : CtlState :=
  { ctl0 with
    stepCounter := 1, lastGate := 1
    lastInput := some [0,0,0,0,0,0,-1,0,0,0], lastShortOut := some [0]
    lastLongOut := some [0] }

def stT7 : EngineState := { stC7d with lossWindow := [3/100], patienceCounter := 257 }

def stDen7 : EngineState :=
  { stT7 with currentTargetDensity := 19989/100000, structuralCooldown := 0 }

def stDdl7 : EngineState := { stDen7 with structuralCooldown := 125 }

def stFin7 : EngineState := { stDdl7 with stepCount := 502 }

def mC7 : SimulationMetrics :=
  { loss := 3/100, avgLoss := 3/100, activeConnections := 0, targetConnections := 0
    regrown := 0, prediction := 0, target := 3/100, neuronCount := 2, patience := 257
    spectralRadius := 0, adaptationStatus := Status.REWIRING_DDL, step := 502
    dna := hpC7b, metaController := ctlGetState ctl1C7, logs := [] }

@[simp] theorem oC7_input : oC7.input = 0 := rfl

@[simp] theorem oC7_target : oC7.target = 3/100 := rfl

@[simp] theorem oC7_sampleRand : oC7.sampleRand = 0 := rfl

@[simp] theorem cfg2_solvedThreshold : cfg2.solvedThreshold = 1/100 := rfl

@[simp] theorem stC7a_currentSize : stC7a.currentSize = 2 := rfl

@[simp] theorem stC7b_recentMSE : stC7b.recentMSE = 3/100 := rfl

@[simp] theorem stC7b_isLocked : stC7b.isLocked = false := rfl

@[simp] theorem stC7b_lossWindow : stC7b.lossWindow = [] := rfl

@[simp] theorem stC7b_stepCount : stC7b.stepCount = 501 := rfl

@[simp] theorem stC7b_learningRate : stC7b.liveHyperparams.learningRate = 0 := rfl

@[simp] theorem stC7c_stepCount : stC7c.stepCount = 501 := rfl

@[simp] theorem stC7d_stepCount : stC7d.stepCount = 501 := rfl

@[simp] theorem stC7d_prevRecentMSE : stC7d.prevRecentMSE = 3/100 := rfl

@[simp] theorem stC7d_recentMSE : stC7d.recentMSE = 3/100 := rfl

@[simp] theorem stDdl7_stepCount : stDdl7.stepCount = 501 := rfl

@[simp] theorem stDdl7_logQueue : stDdl7.logQueue = [] := rfl

@[simp] theorem stDdl7_recentMSE : stDdl7.recentMSE = 3/100 := rfl

@[simp] theorem stDdl7_weights : stDdl7.weights = [0,0,0,0] := rfl

@[simp] theorem stDdl7_currentSize : stDdl7.currentSize = 2 := rfl

@[simp] theorem stDdl7_patienceCounter : stDdl7.patienceCounter = 257 := rfl

@[simp] theorem stDdl7_totalRegrown : stDdl7.totalRegrown = 0 := rfl

@[simp] theorem stDdl7_currentSpectralRadius : stDdl7.currentSpectralRadius = 0 := rfl

@[simp] theorem stDdl7_liveHyperparams : stDdl7.liveHyperparams = hpC7b := rfl

@[simp] theorem stDdl7_currentTargetDensity :
    stDdl7.currentTargetDensity = 19989/100000 := rfl

theorem evGuardNeg : ¬ explosionGuardFires cfg2 opsZ oC7 stC7 := by
  norm_num [explosionGuardFires, stepAbsError, stepPrediction, reservoirUpdate, mapI,
    mapIdxFrom, sumR, List.range_succ, jsClamp, cfg2, stC7, hpC7, opsZ, oC7,
    DEFAULT_CONFIG, abs_le]

theorem evReservoir : reservoirUpdate cfg2 opsZ 0 (3/100) stC7 = stC7a := by
  norm_num [reservoirUpdate, mapI, mapIdxFrom, sumR, List.range_succ, jsClamp, cfg2,
    stC7, stC7a, hpC7, opsZ, DEFAULT_CONFIG]

theorem evPrediction : stepPrediction cfg2 opsZ oC7 stC7 = 0 := by
  norm_num [stepPrediction, reservoirUpdate, mapI, mapIdxFrom, sumR, List.range_succ,
    jsClamp, cfg2, stC7, hpC7, opsZ, oC7, DEFAULT_CONFIG]

theorem evWindow : updateErrorWindow stC7a (3/100) = stC7b := by
  norm_num [updateErrorWindow, stC7a, stC7b, stC7]

theorem evReadout : updateReadout stC7b 0 (3/100) = stC7b := by
  norm_num [updateReadout, mapI, mapIdxFrom, jsClamp, stC7b, stC7]

set_option maxHeartbeats 1000000 in
theorem evFeatures : computeFeatures opsZ stC7b (3/100) = [0,0,0,0,0,0,-1,0,0,0] := by
  norm_num [computeFeatures, calculateNetworkEntropy, mapI, mapIdxFrom, sumR,
    List.range_succ, jsClamp, jsFloorN, jsFloor, Int.toNat, cfg2, stC7b, stC7, hpC7,
    opsZ, DEFAULT_CONFIG]

theorem evSelect : selectStrategy cc1 opsZ 0 ctl0 [0,0,0,0,0,0,-1,0,0,0] (3/100) =
    ({ strategyId := 1
       strategyName := StrategyName.EXPLOIT
       params := STRATEGIES StrategyName.EXPLOIT
       shortTermActivity := 0, longTermActivity := 0, gate := 1 }, ctl1C7) := by
  norm_num [selectStrategy, lstmStep, sigmoidQ, sumR, List.range_succ, jsClamp, cc1,
    ctl0, ctl1C7, lstmW0, opsZ, DEFAULT_META_CONFIG, STRATEGIES]

theorem evParams : applyStrategyParams stC7b (STRATEGIES StrategyName.EXPLOIT) false 1
    = stC7c := by
  norm_num [applyStrategyParams, jsClamp, STRATEGIES, stC7b, stC7c, stC7, hpC7, hpC7b]

theorem evSpec : applySpectralNormalization cfg2 opsZ oC7.specV oC7.specU 1 stC7c
    = stC7d := by
  norm_num [applySpectralNormalization, powerIterate, powerIterOnce, sigmaEstimate,
    sumR, mapI, mapIdxFrom, List.range_succ, cfg2, stC7c, stC7b, stC7d, stC7, hpC7,
    hpC7b, opsZ, oC7, DEFAULT_CONFIG]

theorem evReward : rewardStrategy cc1 ctl1C7 0 = ctl1C7 := by
  norm_num [rewardStrategy, jsClamp, rewardBaselineAlpha, cc1, ctl0, ctl1C7,
    DEFAULT_META_CONFIG]

theorem evTrend : structTrend cfg2 (3/100) stC7d = (stT7, Status.STAGNANT) := by
  norm_num [structTrend, cfg2, DEFAULT_CONFIG, stC7d, stC7c, stC7b, stC7, stT7, hpC7b,
    hpC7]

theorem evDensity : structDensityCooldown (3/100) stT7 = stDen7 := by
  norm_num [structDensityCooldown, jsClamp, stT7, stDen7, stC7d, stC7c, stC7b, stC7,
    hpC7b]

theorem evExhaustion : structExhaustion cfg2 opsZ oC7.mit 2 stDen7 Status.STAGNANT
    = (stDen7, Status.STAGNANT) := by
  unfold structExhaustion
  dsimp only
  rw [if_neg]
  intro h
  exact absurd h.2.2.1 (by norm_num [stDen7, stT7, stC7d, stC7c, stC7b, stC7])

theorem evDdl : structDdl cfg2 opsZ oC7 StrategyName.EXPLOIT
    (STRATEGIES StrategyName.EXPLOIT) stDen7 Status.STAGNANT
    = (stDdl7, Status.REWIRING_DDL) := by
  unfold structDdl
  dsimp only
  simp only [reduceCtorEq, or_self, if_false]
  norm_num [performSmartRewiring, regrowSynapses, normFold, logEvent,
    jsFloor, jsFloorN, jsClamp, sumR, mapI, mapIdxFrom, List.range_succ, STRATEGIES,
    stDen7, stT7, stC7d, stC7c, stC7b, stC7, stDdl7, hpC7b, hpC7, oC7, rw0, rg0, cfg2,
    DEFAULT_CONFIG, Int.toNat]

theorem evRegrow : structRegrow cfg2 oC7.regrow 2 stDdl7 Status.REWIRING_DDL
    = (stDdl7, Status.REWIRING_DDL) := by
  unfold structRegrow
  dsimp only
  rw [if_neg]
  intro h
  have h1 := h.1
  rw [show stDdl7.currentTargetDensity = 19989/100000 from rfl] at h1
  norm_num [jsFloor, stDdl7, stDen7, stT7, stC7d, stC7c, stC7b, stC7, List.countP,
    List.countP.go, List.take] at h1

theorem evHeartbeat : structHeartbeat cfg2 cc1 stDdl7 ctl1C7 = (stDdl7, ctl1C7) := by
  unfold structHeartbeat
  rw [if_neg]
  intro h
  have h1 := h.1
  rw [show stDdl7.stepCount = 501 from rfl] at h1
  norm_num at h1

theorem evCore : structuralCore cfg2 cc1 opsZ oC7 StrategyName.EXPLOIT
    (STRATEGIES StrategyName.EXPLOIT) (3/100) stC7d ctl1C7
    = (stDdl7, ctl1C7, Status.REWIRING_DDL) := by
  unfold structuralCore
  dsimp only
  rw [show stC7d.currentSize = 2 from rfl, evTrend]
  dsimp only
  rw [evDensity, evExhaustion]
  dsimp only
  rw [evDdl]
  dsimp only
  rw [evRegrow]
  dsimp only
  rw [evHeartbeat]

theorem evStatus : statusPhase cfg2 cc1 opsZ oC7 StrategyName.EXPLOIT
    (STRATEGIES StrategyName.EXPLOIT) (3/100) stC7d ctl1C7
    = (stDdl7, ctl1C7, Status.REWIRING_DDL) := by
  unfold statusPhase
  dsimp only
  rw [if_neg (show ¬(stC7d.recentMSE < cfg2.solvedThreshold) from by norm_num)]
  rw [show ({ stC7d with solvedGracePeriod := 0 } : EngineState) = stC7d from rfl]
  rw [if_neg ?hu]
  case hu =>
    intro h
    rw [show stC7d.isLocked = false from rfl] at h
    exact absurd h.1 (by norm_num)
  rw [if_neg (show ¬(stC7d.isLocked = true) from by
    rw [show stC7d.isLocked = false from rfl]; norm_num)]
  exact evCore

set_option maxHeartbeats 1000000 in
theorem evStep : step cfg2 cc1 opsZ oC7 stC7 ctl0 = (stFin7, ctl1C7, mC7) := by
  have habs : |(3:ℚ)/100| = 3/100 := abs_of_pos (by norm_num)
  have hg := evGuardNeg
  unfold step
  norm_num [hg, habs, evReservoir, evPrediction, evWindow, evReadout, evFeatures,
    evSelect, evParams, evSpec, evReward, evStatus, getMetrics, jsClamp, jsFloor,
    stFin7, mC7, List.countP, List.countP.go]

/-! ## Claims -/

/-- Claim C10: neither the global spectral normalization nor the single-row
normalization ever creates a synapse — a weight entry that is exactly zero
before either call is still exactly zero afterwards, because both operations
only multiply existing entries by a scalar factor. -/
theorem c10_normalization_never_creates_synapse (cfg : SimulationConfig) (ops : Ops)
    (rndV rndU : Nat → Nat → ℚ) (iters : Nat) (st : EngineState) (rowIdx : Nat) (t : ℚ)
    (idx : Nat) (h : st.weights.getD idx 0 = 0) :
    (applySpectralNormalization cfg ops rndV rndU iters st).weights.getD idx 0 = 0 ∧
    (normalizeSingleRow cfg st rowIdx t).weights.getD idx 0 = 0 := by
  constructor
  · unfold applySpectralNormalization
    dsimp only
    split
    · rw [getD_mapI, h]
      simp
    · exact h
  · unfold normalizeSingleRow
    dsimp only
    split
    · rw [getD_mapI, h]
      simp
    · exact h

/-- Witness for C10 at a concrete state: entry `(0,1)` of the fixture network
is zero and stays zero under both normalizations. -/
theorem c10_witness :
    stC7.weights.getD 1 0 = 0 ∧
    ((applySpectralNormalization cfg2 opsZ (fun _ _ => 1) (fun _ _ => 1) 1 stC7).weights.getD
        1 0 = 0 ∧
      (normalizeSingleRow cfg2 stC7 0 1).weights.getD 1 0 = 0) :=
  ⟨rfl, c10_normalization_never_creates_synapse cfg2 opsZ (fun _ _ => 1) (fun _ _ => 1) 1
    stC7 0 1 1 rfl⟩

/-- Claim C3: after the stability regulator runs, if the estimated dominant
singular value σ exceeds the live spectral target then every active
weight-matrix entry is scaled by exactly `targetSpectral/σ` and the stored
spectral-radius estimate is set to `targetSpectral`; otherwise the weight
matrix is left completely unchanged (and the estimate stores σ).  The live
target is positive in every regime/strategy preset, which the hypothesis
`ht` records; `hN` is the structural invariant `currentSize ≤ maxNeurons`
established by claim C2. -/
theorem c3_spectral_normalization_scaling (cfg : SimulationConfig) (ops : Ops)
    (rndV rndU : Nat → Nat → ℚ) (iters : Nat) (st : EngineState)
    (hN : st.currentSize ≤ cfg.maxNeurons) (ht : 0 < st.liveHyperparams.spectral) :
    (st.liveHyperparams.spectral
        < sigmaEstimate cfg.maxNeurons st.currentSize st.weights
            (powerIterate ops cfg.maxNeurons st.currentSize st.weights rndV rndU iters
              (st.spectralU, st.spectralV)).1
            (powerIterate ops cfg.maxNeurons st.currentSize st.weights rndV rndU iters
              (st.spectralU, st.spectralV)).2 →
      (∀ i j, i < st.currentSize → j < st.currentSize →
        (applySpectralNormalization cfg ops rndV rndU iters st).weights.getD
            (i * cfg.maxNeurons + j) 0
          = st.weights.getD (i * cfg.maxNeurons + j) 0
            * (st.liveHyperparams.spectral
              / sigmaEstimate cfg.maxNeurons st.currentSize st.weights
                  (powerIterate ops cfg.maxNeurons st.currentSize st.weights rndV rndU iters
                    (st.spectralU, st.spectralV)).1
                  (powerIterate ops cfg.maxNeurons st.currentSize st.weights rndV rndU iters
                    (st.spectralU, st.spectralV)).2)) ∧
      (applySpectralNormalization cfg ops rndV rndU iters st).currentSpectralRadius
        = st.liveHyperparams.spectral) ∧
    (sigmaEstimate cfg.maxNeurons st.currentSize st.weights
        (powerIterate ops cfg.maxNeurons st.currentSize st.weights rndV rndU iters
          (st.spectralU, st.spectralV)).1
        (powerIterate ops cfg.maxNeurons st.currentSize st.weights rndV rndU iters
          (st.spectralU, st.spectralV)).2 ≤ st.liveHyperparams.spectral →
      (applySpectralNormalization cfg ops rndV rndU iters st).weights = st.weights ∧
      (applySpectralNormalization cfg ops rndV rndU iters st).currentSpectralRadius
        = sigmaEstimate cfg.maxNeurons st.currentSize st.weights
            (powerIterate ops cfg.maxNeurons st.currentSize st.weights rndV rndU iters
              (st.spectralU, st.spectralV)).1
            (powerIterate ops cfg.maxNeurons st.currentSize st.weights rndV rndU iters
              (st.spectralU, st.spectralV)).2) := by
  unfold applySpectralNormalization
  dsimp only
  constructor
  · intro hlt
    rw [if_pos ⟨hlt, lt_trans ht hlt⟩]
    refine ⟨?_, rfl⟩
    intro i j hi hj
    have hj' : j < cfg.maxNeurons := lt_of_lt_of_le hj hN
    have hmpos : 0 < cfg.maxNeurons := Nat.pos_of_ne_zero (by omega)
    have hdiv : (i * cfg.maxNeurons + j) / cfg.maxNeurons = i := by
      rw [Nat.mul_comm, Nat.mul_add_div hmpos, Nat.div_eq_of_lt hj', Nat.add_zero]
    have hmod : (i * cfg.maxNeurons + j) % cfg.maxNeurons = j := by
      rw [Nat.mul_comm, Nat.mul_add_mod]
      exact Nat.mod_eq_of_lt hj'
    rw [getD_mapI]
    by_cases hlen : i * cfg.maxNeurons + j < st.weights.length
    · rw [if_pos hlen, if_pos ⟨by rw [hdiv]; exact hi, by rw [hmod]; exact hj⟩]
    · rw [if_neg hlen]
      have hdef : st.weights.getD (i * cfg.maxNeurons + j) 0 = 0 :=
        List.getD_eq_default _ _ (by omega)
      rw [hdef, zero_mul]
  · intro hle
    rw [if_neg (by exact fun hc => absurd hc.1 (not_lt.mpr hle))]
    exact ⟨rfl, rfl⟩

/-- Witness for C3 at the concrete fixture network. -/
theorem c3_witness :
    stC7.currentSize ≤ cfg2.maxNeurons ∧ 0 < stC7.liveHyperparams.spectral ∧
    ((stC7.liveHyperparams.spectral
        < sigmaEstimate cfg2.maxNeurons stC7.currentSize stC7.weights
            (powerIterate opsZ cfg2.maxNeurons stC7.currentSize stC7.weights
              (fun _ _ => 1) (fun _ _ => 1) 1 (stC7.spectralU, stC7.spectralV)).1
            (powerIterate opsZ cfg2.maxNeurons stC7.currentSize stC7.weights
              (fun _ _ => 1) (fun _ _ => 1) 1 (stC7.spectralU, stC7.spectralV)).2 →
      (∀ i j, i < stC7.currentSize → j < stC7.currentSize →
        (applySpectralNormalization cfg2 opsZ (fun _ _ => 1) (fun _ _ => 1) 1 stC7).weights.getD
            (i * cfg2.maxNeurons + j) 0
          = stC7.weights.getD (i * cfg2.maxNeurons + j) 0
            * (stC7.liveHyperparams.spectral
              / sigmaEstimate cfg2.maxNeurons stC7.currentSize stC7.weights
                  (powerIterate opsZ cfg2.maxNeurons stC7.currentSize stC7.weights
                    (fun _ _ => 1) (fun _ _ => 1) 1 (stC7.spectralU, stC7.spectralV)).1
                  (powerIterate opsZ cfg2.maxNeurons stC7.currentSize stC7.weights
                    (fun _ _ => 1) (fun _ _ => 1) 1 (stC7.spectralU, stC7.spectralV)).2)) ∧
      (applySpectralNormalization cfg2 opsZ (fun _ _ => 1) (fun _ _ => 1) 1
          stC7).currentSpectralRadius = stC7.liveHyperparams.spectral) ∧
    (sigmaEstimate cfg2.maxNeurons stC7.currentSize stC7.weights
        (powerIterate opsZ cfg2.maxNeurons stC7.currentSize stC7.weights
          (fun _ _ => 1) (fun _ _ => 1) 1 (stC7.spectralU, stC7.spectralV)).1
        (powerIterate opsZ cfg2.maxNeurons stC7.currentSize stC7.weights
          (fun _ _ => 1) (fun _ _ => 1) 1 (stC7.spectralU, stC7.spectralV)).2
        ≤ stC7.liveHyperparams.spectral →
      (applySpectralNormalization cfg2 opsZ (fun _ _ => 1) (fun _ _ => 1) 1 stC7).weights
        = stC7.weights ∧
      (applySpectralNormalization cfg2 opsZ (fun _ _ => 1) (fun _ _ => 1) 1
          stC7).currentSpectralRadius
        = sigmaEstimate cfg2.maxNeurons stC7.currentSize stC7.weights
            (powerIterate opsZ cfg2.maxNeurons stC7.currentSize stC7.weights
              (fun _ _ => 1) (fun _ _ => 1) 1 (stC7.spectralU, stC7.spectralV)).1
            (powerIterate opsZ cfg2.maxNeurons stC7.currentSize stC7.weights
              (fun _ _ => 1) (fun _ _ => 1) 1 (stC7.spectralU, stC7.spectralV)).2)) :=
  ⟨by decide, by norm_num [stC7, hpC7],
    c3_spectral_normalization_scaling cfg2 opsZ (fun _ _ => 1) (fun _ _ => 1) 1 stC7
      (by decide) (by norm_num [stC7, hpC7])⟩

/-- Claim C9: after warmup, a `selectStrategy` call with current loss above
the hard panic threshold (0.5) returns the STABILIZE strategy immediately
and resets the strategy-lock timer to the current step, bypassing the
minimum-hold lock regardless of `lastStrategyChangeStep`. -/
theorem c9_panic_override (cc : MetaControllerConfig) (ops : Ops) (sr : ℚ)
    (ctl : CtlState) (features : List ℚ) (currentLoss : ℚ)
    (hwarm : cc.warmupSteps ≤ ctl.stepCounter + 1) (hpanic : 1/2 < currentLoss) :
    (selectStrategy cc ops sr ctl features currentLoss).1.strategyName
      = StrategyName.STABILIZE ∧
    (selectStrategy cc ops sr ctl features currentLoss).1.strategyId = 2 ∧
    (selectStrategy cc ops sr ctl features currentLoss).1.params
      = STRATEGIES StrategyName.STABILIZE ∧
    (selectStrategy cc ops sr ctl features currentLoss).2.lastSelectedStrategy = 2 ∧
    (selectStrategy cc ops sr ctl features currentLoss).2.lastStrategyChangeStep
      = ctl.stepCounter + 1 := by
  unfold selectStrategy
  dsimp only
  rw [if_neg (by omega), if_pos hpanic]
  exact ⟨rfl, rfl, rfl, rfl, rfl⟩

/-- Witness for C9: a controller past warmup, locked into another strategy
just one step ago, still panic-switches to STABILIZE on loss 0.6. -/
theorem c9_witness :
    cc1.warmupSteps ≤ ctl9.stepCounter + 1 ∧
    (1 : ℚ)/2 < 6/10 ∧
    ((selectStrategy cc1 opsZ 0 ctl9 [] (6/10)).1.strategyName = StrategyName.STABILIZE ∧
      (selectStrategy cc1 opsZ 0 ctl9 [] (6/10)).1.strategyId = 2 ∧
      (selectStrategy cc1 opsZ 0 ctl9 [] (6/10)).1.params
        = STRATEGIES StrategyName.STABILIZE ∧
      (selectStrategy cc1 opsZ 0 ctl9 [] (6/10)).2.lastSelectedStrategy = 2 ∧
      (selectStrategy cc1 opsZ 0 ctl9 [] (6/10)).2.lastStrategyChangeStep
        = ctl9.stepCounter + 1) :=
  ⟨by decide, by norm_num,
    c9_panic_override cc1 opsZ 0 ctl9 [] (6/10) (by decide) (by norm_num)⟩

/-- The reservoir update formula as the spec's words state it for claim C5
(for comparison with the source-derived `reservoirUpdate`): weighted sum of
previous activations plus the scaled input, passed through `tanh` WITHOUT the
spectral premultiplier, leak-blended, then energy-modulated. -/
def claimedReservoirActivation (cfg : SimulationConfig) (ops : Ops) (input : ℚ)
    (st : EngineState) (i : Nat) : ℚ :=
  let s := sumR st.currentSize (fun j =>
      st.weights.getD (i * cfg.maxNeurons + j) 0 * st.activations.getD j 0)
    + st.inputWeights.getD i 0 * input * st.liveHyperparams.inputScale
  ((1 - st.liveHyperparams.leak) * st.activations.getD i 0
      + st.liveHyperparams.leak * ops.tanh s)
    * st.neuronEnergy.getD i 0

/-- Counterexample to C5 as stated: the source computes
`tanh(sum * spectral)`, not `tanh(sum)`.  At a concrete one-neuron network
with `tanh` instantiated to the identity (any injective tanh separates the
two), prev activation 1, weight 1, leak 1/2, spectral 1/2 and energy 1, the
code yields 3/4 while the claimed formula yields 1. -/
theorem c5_counterexample :
    (reservoirUpdate cfg1 opsId 0 0 stC5).activations.getD 0 0 = 3/4 ∧
    claimedReservoirActivation cfg1 opsId 0 stC5 0 = 1 ∧
    (reservoirUpdate cfg1 opsId 0 0 stC5).activations.getD 0 0
      ≠ claimedReservoirActivation cfg1 opsId 0 stC5 0 := by
  have h1 : (reservoirUpdate cfg1 opsId 0 0 stC5).activations.getD 0 0 = 3/4 := by
    norm_num [reservoirUpdate, mapI, mapIdxFrom, sumR, List.range_succ, jsClamp, stC5, cfg1,
      opsId, hpC7, stC7, DEFAULT_CONFIG]
  have h2 : claimedReservoirActivation cfg1 opsId 0 stC5 0 = 1 := by
    norm_num [claimedReservoirActivation, sumR, List.range_succ, stC5, cfg1, opsId, hpC7,
      stC7, DEFAULT_CONFIG]
  exact ⟨h1, h2, by rw [h1, h2]; norm_num⟩

/-- Claim C5 (amended): on each non-aborted tick, every active neuron gets
`a[i] = ((1-leak)·prev[i] + leak·tanh(spectral · sum)) · neuronEnergy[i]`,
where `sum = Σ_j weights[i][j]·prev[j] + inputWeights[i]·input·inputScale`,
`prev` is the activation vector at tick entry, and `neuronEnergy[i]` the
pre-tick energy (the amendment adds the spectral premultiplier inside `tanh`
that the claim omitted). -/
theorem c5_amended_reservoir_update (cfg : SimulationConfig) (ops : Ops)
    (input target : ℚ) (st : EngineState) (i : Nat) (hi : i < st.currentSize)
    (hlen : i < st.activations.length) :
    (reservoirUpdate cfg ops input target st).activations.getD i 0
      = ((1 - st.liveHyperparams.leak) * st.activations.getD i 0
          + st.liveHyperparams.leak * ops.tanh
              ((sumR st.currentSize (fun j =>
                  st.weights.getD (i * cfg.maxNeurons + j) 0 * st.activations.getD j 0)
                + st.inputWeights.getD i 0 * input * st.liveHyperparams.inputScale)
                * st.liveHyperparams.spectral))
        * st.neuronEnergy.getD i 0 := by
  unfold reservoirUpdate
  dsimp only
  rw [getD_mapI, if_pos hlen, if_pos hi]

/-- Witness for the amended C5 at the concrete one-neuron fixture. -/
theorem c5_amended_witness :
    0 < stC5.currentSize ∧ 0 < stC5.activations.length ∧
    (reservoirUpdate cfg1 opsId 0 0 stC5).activations.getD 0 0
      = ((1 - stC5.liveHyperparams.leak) * stC5.activations.getD 0 0
          + stC5.liveHyperparams.leak * opsId.tanh
              ((sumR stC5.currentSize (fun j =>
                  stC5.weights.getD (0 * cfg1.maxNeurons + j) 0 * stC5.activations.getD j 0)
                + stC5.inputWeights.getD 0 0 * 0 * stC5.liveHyperparams.inputScale)
                * stC5.liveHyperparams.spectral))
        * stC5.neuronEnergy.getD 0 0 :=
  ⟨by decide, by decide, c5_amended_reservoir_update cfg1 opsId 0 0 stC5 0 (by decide)
    (by decide)⟩

@[simp] theorem pushPenaltyError_logQueue (st : EngineState) (p : ℚ) :
    (pushPenaltyError st p).logQueue = st.logQueue := rfl

@[simp] theorem pushPenaltyError_currentSize (st : EngineState) (p : ℚ) :
    (pushPenaltyError st p).currentSize = st.currentSize := rfl

@[simp] theorem pushPenaltyError_weights (st : EngineState) (p : ℚ) :
    (pushPenaltyError st p).weights = st.weights := rfl

@[simp] theorem pushPenaltyError_readout (st : EngineState) (p : ℚ) :
    (pushPenaltyError st p).readout = st.readout := rfl

theorem list_sum_le_mul (l : List ℚ) (c : ℚ) (h : ∀ x ∈ l, x ≤ c) :
    l.sum ≤ c * (l.length : ℚ) := by
  induction l with
  | nil => simp
  | cons a as ih =>
    have ha := h a (by simp)
    have hih := ih (fun x hx => h x (by simp [hx]))
    simp only [List.sum_cons, List.length_cons]
    push_cast
    linarith

theorem list_mean_le (l : List ℚ) (c : ℚ) (hc : 0 ≤ c) (h : ∀ x ∈ l, x ≤ c) :
    l.sum / (l.length : ℚ) ≤ c := by
  rcases l with _ | ⟨a, as⟩
  · simpa using hc
  · have hlen : (0 : ℚ) < ((a :: as).length : ℚ) := by
      simp only [List.length_cons]
      push_cast
      positivity
    rw [div_le_iff₀ hlen]
    have := list_sum_le_mul (a :: as) c h
    linarith [this]

/-- Claim C1: whenever the explosion guard fires (`isNaN(absError)` or
`absError > 50`), the tick is aborted early: `step()` returns a metrics
record with status STABILIZING and the degenerate finite values
`(loss, prediction, target) = (1, 0, 0)`; all activations and previous
activations are zeroed; the emergency-stabilization event is emitted; the
controller state is untouched; the average loss stays bounded by the penalty
cap 10 whenever the prior window obeyed that cap (so the exploding error
never reaches the persistent average); and the weights are those produced by
the forced 20-iteration stability-regulator run.  No exception is possible
(`step` is a total function) and the rational model carries no NaN. -/
theorem c1_explosion_guard_aborts_tick (cfg : SimulationConfig)
    (cc : MetaControllerConfig) (ops : Ops) (o : StepOracle) (st : EngineState)
    (ctl : CtlState) (hg : explosionGuardFires cfg ops o st) :
    (step cfg cc ops o st ctl).2.2.adaptationStatus = Status.STABILIZING ∧
    (step cfg cc ops o st ctl).2.2.loss = 1 ∧
    (step cfg cc ops o st ctl).2.2.prediction = 0 ∧
    (step cfg cc ops o st ctl).2.2.target = 0 ∧
    (∀ i, (step cfg cc ops o st ctl).1.activations.getD i 0 = 0) ∧
    (∀ i, (step cfg cc ops o st ctl).1.prevActivations.getD i 0 = 0) ∧
    (step cfg cc ops o st ctl).2.1 = ctl ∧
    LogEvent.emergencyStabilization ∈ (step cfg cc ops o st ctl).2.2.logs ∧
    ((∀ x ∈ st.recentMSEWindow, x ≤ 10) → (step cfg cc ops o st ctl).2.2.avgLoss ≤ 10) ∧
    (step cfg cc ops o st ctl).1.weights
      = (applySpectralNormalization cfg ops o.specV o.specU 20
          (pushPenaltyError
            (logEvent (reservoirUpdate cfg ops o.input o.target st)
              LogEvent.emergencyStabilization)
            (if o.errIsNaN then 10 else min (stepAbsError cfg ops o st) 10))).weights := by
  have hstep : step cfg cc ops o st ctl
      = emergencyStabilize cfg ops o (reservoirUpdate cfg ops o.input o.target st) ctl
          (stepAbsError cfg ops o st) := by
    unfold step
    dsimp only
    rw [if_pos hg]
    rfl
  rw [hstep]
  unfold emergencyStabilize
  dsimp only
  refine ⟨by simp, by simp, by simp, by simp, ?_, ?_, rfl, ?_, ?_, by simp⟩
  · intro i
    simp [getD_replicate]
  · intro i
    simp [getD_replicate]
  · simp
  · intro hbound
    simp only [getMetrics_avgLoss]
    have hq : (applySpectralNormalization cfg ops o.specV o.specU 20
        (pushPenaltyError
          (logEvent (reservoirUpdate cfg ops o.input o.target st)
            LogEvent.emergencyStabilization)
          (if o.errIsNaN then 10 else min (stepAbsError cfg ops o st) 10))).recentMSE
        = (pushPenaltyError
            (logEvent (reservoirUpdate cfg ops o.input o.target st)
              LogEvent.emergencyStabilization)
            (if o.errIsNaN then 10 else min (stepAbsError cfg ops o st) 10)).recentMSE := by
      simp
    rw [hq]
    unfold pushPenaltyError
    dsimp only
    apply list_mean_le _ _ (by norm_num)
    intro x hx
    have hx1 : x ∈ (logEvent (reservoirUpdate cfg ops o.input o.target st)
        LogEvent.emergencyStabilization).recentMSEWindow
        ++ [if o.errIsNaN then 10 else min (stepAbsError cfg ops o st) 10] := by
      by_cases hc : 20 < ((logEvent (reservoirUpdate cfg ops o.input o.target st)
          LogEvent.emergencyStabilization).recentMSEWindow
          ++ [if o.errIsNaN then 10 else min (stepAbsError cfg ops o st) 10]).length
      · rw [if_pos hc] at hx
        exact List.drop_subset _ _ hx
      · rw [if_neg hc] at hx
        exact hx
    rcases List.mem_append.1 hx1 with hmem | hmem
    · exact hbound x (by simpa using hmem)
    · have hxeq : x = if o.errIsNaN then 10 else min (stepAbsError cfg ops o st) 10 := by
        simpa using hmem
      rw [hxeq]
      by_cases hnan : o.errIsNaN
      · simp [hnan]
      · simp only [hnan, if_false, Bool.false_eq_true]
        exact min_le_right _ _

/-- Witness for C1: a tick whose target 100 produces absolute error 100 > 50
on the concrete fixture network; the guard fires and the tick aborts with
status STABILIZING. -/
theorem c1_witness :
    explosionGuardFires cfg2 opsZ oBig stC7 ∧
    (step cfg2 cc1 opsZ oBig stC7 ctl0).2.2.adaptationStatus = Status.STABILIZING := by
  have hg : explosionGuardFires cfg2 opsZ oBig stC7 := by
    right
    norm_num [stepAbsError, stepPrediction, reservoirUpdate, mapI, mapIdxFrom, sumR,
      List.range_succ, jsClamp, cfg2, stC7, hpC7, opsZ, oC7, oBig, DEFAULT_CONFIG]
  exact ⟨hg, (c1_explosion_guard_aborts_tick cfg2 cc1 opsZ oBig stC7 ctl0 hg).1⟩

/-- Mitosis that reports failure did not modify the state. -/
theorem performMitosis_fst_false (cfg : SimulationConfig) (ops : Ops) (r : MitosisRand)
    (st : EngineState) (h : (performMitosis cfg ops r st).1 = false) :
    (performMitosis cfg ops r st).2 = st := by
  by_cases hc : cfg.maxNeurons ≤ st.currentSize
  · rw [performMitosis_at_capacity cfg ops r st hc]
  · exact absurd ((performMitosis_success cfg ops r st (by omega)).1)
      (by rw [h]; exact Bool.false_ne_true)

/-- Pointwise form of the LMS readout update. -/
theorem updateReadout_getD (st : EngineState) (lr e : ℚ) (i : Nat)
    (hiN : i < st.currentSize) (hilen : i < st.readout.length) :
    (updateReadout st lr e).readout.getD i 0
      = st.readout.getD i 0
        + jsClamp (-1/10) (1/10) (lr * e * st.activations.getD i 0) := by
  unfold updateReadout
  dsimp only
  rw [getD_mapI, if_pos hilen, if_pos hiN]

/-- The trend/patience block leaves the readout weights untouched. -/
@[simp] theorem structTrend_readout (cfg : SimulationConfig) (e : ℚ) (st : EngineState) :
    (structTrend cfg e st).1.readout = st.readout := by
  unfold structTrend
  dsimp only
  repeat' split
  all_goals rfl

/-- The trend/patience block leaves the neuron count untouched. -/
@[simp] theorem structTrend_currentSize (cfg : SimulationConfig) (e : ℚ) (st : EngineState) :
    (structTrend cfg e st).1.currentSize = st.currentSize := by
  unfold structTrend
  dsimp only
  repeat' split
  all_goals rfl

/-- The density/cooldown block leaves the readout weights untouched. -/
@[simp] theorem structDensityCooldown_readout (e : ℚ) (st : EngineState) :
    (structDensityCooldown e st).readout = st.readout := rfl

/-- The density/cooldown block leaves the neuron count untouched. -/
@[simp] theorem structDensityCooldown_currentSize (e : ℚ) (st : EngineState) :
    (structDensityCooldown e st).currentSize = st.currentSize := rfl

/-- Mitosis never shrinks the network. -/
theorem performMitosis_currentSize_le (cfg : SimulationConfig) (ops : Ops)
    (r : MitosisRand) (st : EngineState) :
    st.currentSize ≤ (performMitosis cfg ops r st).2.currentSize := by
  rw [performMitosis_currentSize]
  split <;> omega

/-- The exhaustion block never shrinks the network. -/
theorem structExhaustion_currentSize_le (cfg : SimulationConfig) (ops : Ops)
    (r : MitosisRand) (N : ℕ) (st : EngineState) (status : Status) :
    st.currentSize ≤ (structExhaustion cfg ops r N st status).1.currentSize := by
  unfold structExhaustion
  dsimp only
  split
  · split
    · simp only [logEvent_currentSize]
      exact performMitosis_currentSize_le cfg ops r st
    · next hm =>
      rw [performMitosis_fst_false cfg ops r st (by simpa using hm)]
  · exact le_refl _

/-- The exhaustion block never changes an existing neuron's readout weight. -/
theorem structExhaustion_readout_getD (cfg : SimulationConfig) (ops : Ops)
    (r : MitosisRand) (N : ℕ) (st : EngineState) (status : Status) (i : Nat)
    (h : i < st.currentSize) :
    (structExhaustion cfg ops r N st status).1.readout.getD i 0 = st.readout.getD i 0 := by
  unfold structExhaustion
  dsimp only
  split
  · split
    · simp only [logEvent_readout]
      exact performMitosis_readout_getD cfg ops r st i h
    · next hm =>
      rw [performMitosis_fst_false cfg ops r st (by simpa using hm)]
  · rfl

/-- The DDL block never changes an existing neuron's readout weight. -/
theorem structDdl_readout_getD (cfg : SimulationConfig) (ops : Ops) (o : StepOracle)
    (sn : StrategyName) (a : Hyperparams) (st : EngineState) (status : Status) (i : Nat)
    (h : i < st.currentSize) :
    (structDdl cfg ops o sn a st status).1.readout.getD i 0 = st.readout.getD i 0 := by
  unfold structDdl
  dsimp only
  repeat' split
  all_goals
    simp only [logEvent_readout, deltaBasedPrune_readout, performSmartRewiring_readout]
  all_goals first
    | rfl
    | exact performMitosis_readout_getD cfg ops o.mitD st i h
    | (rename_i hm
       rw [performMitosis_fst_false cfg ops o.mitD st (by simpa using hm)])

/-- The regrow block leaves the readout weights untouched. -/
@[simp] theorem structRegrow_readout (cfg : SimulationConfig) (r : RegrowRand) (N : ℕ)
    (st : EngineState) (status : Status) :
    (structRegrow cfg r N st status).1.readout = st.readout := by
  unfold structRegrow
  dsimp only
  split
  · simp [regrowSynapses_readout]
  · rfl

/-- The heartbeat block leaves the readout weights untouched. -/
@[simp] theorem structHeartbeat_readout (cfg : SimulationConfig)
    (cc : MetaControllerConfig) (st : EngineState) (ctl : CtlState) :
    (structHeartbeat cfg cc st ctl).1.readout = st.readout := by
  unfold structHeartbeat
  split
  · simp [pruneSynapses_readout]
  · rfl

/-- The structural branch never changes an existing neuron's readout weight. -/
theorem structuralCore_readout_getD (cfg : SimulationConfig) (cc : MetaControllerConfig)
    (ops : Ops) (o : StepOracle) (sn : StrategyName) (a : Hyperparams) (e : ℚ)
    (st : EngineState) (ctl : CtlState) (i : Nat) (hi : i < st.currentSize) :
    (structuralCore cfg cc ops o sn a e st ctl).1.readout.getD i 0
      = st.readout.getD i 0 := by
  unfold structuralCore
  dsimp only
  rw [structHeartbeat_readout, structRegrow_readout]
  have h2 : i < (structExhaustion cfg ops o.mit st.currentSize
      (structDensityCooldown e (structTrend cfg e st).1)
      (structTrend cfg e st).2).1.currentSize := by
    refine lt_of_lt_of_le ?_ (structExhaustion_currentSize_le cfg ops o.mit
      st.currentSize (structDensityCooldown e (structTrend cfg e st).1)
      (structTrend cfg e st).2)
    simpa using hi
  rw [structDdl_readout_getD cfg ops o sn a _ _ i h2,
      structExhaustion_readout_getD cfg ops o.mit st.currentSize _ _ i (by simpa using hi),
      structDensityCooldown_readout, structTrend_readout]

/-- The status/structural dispatch never changes an existing neuron's readout
weight. -/
theorem statusPhase_readout_getD (cfg : SimulationConfig) (cc : MetaControllerConfig)
    (ops : Ops) (o : StepOracle) (sn : StrategyName) (a : Hyperparams) (e : ℚ)
    (st : EngineState) (ctl : CtlState) (i : Nat) (hi : i < st.currentSize) :
    (statusPhase cfg cc ops o sn a e st ctl).1.readout.getD i 0
      = st.readout.getD i 0 := by
  unfold statusPhase
  dsimp only
  split
  · split <;> rfl
  · split
    · simp
    · split
      · rfl
      · exact structuralCore_readout_getD cfg cc ops o sn a e
          { st with solvedGracePeriod := 0 } ctl i hi

/-- C6: on each non-aborted tick every live readout weight moves by exactly
the clamped LMS delta `clamp(lr * error * activations[i], -0.1, 0.1)`, where
`error = target - prediction`, `prediction` is the activations/readout dot
product, and the effective learning rate is forced to 0 whenever the
short-window average error is below `solvedThreshold`, freezing the readout
on such ticks. -/
theorem c6_readout_lms_update (cfg : SimulationConfig) (cc : MetaControllerConfig)
    (ops : Ops) (o : StepOracle) (st : EngineState) (ctl : CtlState) (i : Nat)
    (hg : ¬ explosionGuardFires cfg ops o st)
    (hiN : i < st.currentSize) (hil : i < st.readout.length) :
    (step cfg cc ops o st ctl).1.readout.getD i 0
      = st.readout.getD i 0
        + jsClamp (-1/10) (1/10)
            ((if (updateErrorWindow (reservoirUpdate cfg ops o.input o.target st)
                    |o.target - stepPrediction cfg ops o st|).recentMSE
                  < cfg.solvedThreshold then 0
              else st.liveHyperparams.learningRate)
             * (o.target - stepPrediction cfg ops o st)
             * (reservoirUpdate cfg ops o.input o.target st).activations.getD i 0)
    ∧ ((updateErrorWindow (reservoirUpdate cfg ops o.input o.target st)
          |o.target - stepPrediction cfg ops o st|).recentMSE < cfg.solvedThreshold
        → (step cfg cc ops o st ctl).1.readout.getD i 0 = st.readout.getD i 0) := by
  have hmain : (step cfg cc ops o st ctl).1.readout.getD i 0
      = st.readout.getD i 0
        + jsClamp (-1/10) (1/10)
            ((if (updateErrorWindow (reservoirUpdate cfg ops o.input o.target st)
                    |o.target - stepPrediction cfg ops o st|).recentMSE
                  < cfg.solvedThreshold then 0
              else st.liveHyperparams.learningRate)
             * (o.target - stepPrediction cfg ops o st)
             * (reservoirUpdate cfg ops o.input o.target st).activations.getD i 0) := by
    unfold step
    dsimp only
    rw [if_neg hg]
    simp only [getMetrics_fst]
    simp only [statusPhase_readout_getD, updateReadout_getD,
      apply_ite EngineState.currentSize, apply_ite EngineState.readout,
      logEvent_currentSize, logEvent_readout,
      applySpectralNormalization_currentSize, applySpectralNormalization_readout,
      applyStrategyParams_currentSize, applyStrategyParams_readout,
      applySupervisedHebbian_currentSize, applySupervisedHebbian_readout,
      updateReadout_currentSize, updateErrorWindow_currentSize,
      updateErrorWindow_readout, updateErrorWindow_activations,
      updateErrorWindow_liveHyperparams, reservoirUpdate_currentSize,
      reservoirUpdate_readout, reservoirUpdate_liveHyperparams, ite_self,
      hiN, hil]
  refine ⟨hmain, fun hf => ?_⟩
  rw [hmain, if_pos hf]
  norm_num [jsClamp]

/-- Witness for C6: the concrete tick on the two-neuron fixture does not
trip the explosion guard, and its readout weight 0 obeys the clamped LMS
update formula. -/
theorem c6_witness :
    ¬ explosionGuardFires cfg2 opsZ oC7 stC7 ∧
    0 < stC7.currentSize ∧ 0 < stC7.readout.length ∧
    (step cfg2 cc1 opsZ oC7 stC7 ctl0).1.readout.getD 0 0
      = stC7.readout.getD 0 0
        + jsClamp (-1/10) (1/10)
            ((if (updateErrorWindow (reservoirUpdate cfg2 opsZ oC7.input oC7.target stC7)
                    |oC7.target - stepPrediction cfg2 opsZ oC7 stC7|).recentMSE
                  < cfg2.solvedThreshold then 0
              else stC7.liveHyperparams.learningRate)
             * (oC7.target - stepPrediction cfg2 opsZ oC7 stC7)
             * (reservoirUpdate cfg2 opsZ oC7.input oC7.target stC7).activations.getD 0 0) := by
  have hg : ¬ explosionGuardFires cfg2 opsZ oC7 stC7 := by
    norm_num [explosionGuardFires, stepAbsError, stepPrediction, reservoirUpdate, mapI,
      mapIdxFrom, sumR, List.range_succ, jsClamp, cfg2, stC7, hpC7, opsZ, oC7,
      DEFAULT_CONFIG, abs_le]
  have h1 : 0 < stC7.currentSize := by norm_num [stC7]
  have h2 : 0 < stC7.readout.length := by norm_num [stC7]
  exact ⟨hg, h1, h2, (c6_readout_lms_update cfg2 cc1 opsZ oC7 stC7 ctl0 0 hg h1 h2).1⟩

/-- The emergency-stabilization branch leaves the neuron count untouched. -/
@[simp] theorem emergencyStabilize_currentSize (cfg : SimulationConfig) (ops : Ops)
    (o : StepOracle) (st : EngineState) (ctl : CtlState) (e : ℚ) :
    (emergencyStabilize cfg ops o st ctl e).1.currentSize = st.currentSize := by
  unfold emergencyStabilize
  dsimp only
  simp

/-- Mitosis keeps the neuron count within `maxNeurons`. -/
theorem performMitosis_currentSize_bound (cfg : SimulationConfig) (ops : Ops)
    (r : MitosisRand) (st : EngineState) (h : st.currentSize ≤ cfg.maxNeurons) :
    (performMitosis cfg ops r st).2.currentSize ≤ cfg.maxNeurons := by
  rw [performMitosis_currentSize]
  split <;> omega

/-- The exhaustion block keeps the neuron count within `maxNeurons`. -/
theorem structExhaustion_currentSize_bound (cfg : SimulationConfig) (ops : Ops)
    (r : MitosisRand) (N : ℕ) (st : EngineState) (status : Status)
    (h : st.currentSize ≤ cfg.maxNeurons) :
    (structExhaustion cfg ops r N st status).1.currentSize ≤ cfg.maxNeurons := by
  unfold structExhaustion
  dsimp only
  split
  · split
    · simp only [logEvent_currentSize]
      exact performMitosis_currentSize_bound cfg ops r st h
    · next hm =>
      rw [performMitosis_fst_false cfg ops r st (by simpa using hm)]
      exact h
  · exact h

/-- The DDL block never shrinks the network. -/
theorem structDdl_currentSize_le (cfg : SimulationConfig) (ops : Ops) (o : StepOracle)
    (sn : StrategyName) (a : Hyperparams) (st : EngineState) (status : Status) :
    st.currentSize ≤ (structDdl cfg ops o sn a st status).1.currentSize := by
  unfold structDdl
  dsimp only
  repeat' split
  all_goals
    simp only [logEvent_currentSize, deltaBasedPrune_currentSize,
      performSmartRewiring_currentSize]
  all_goals first
    | exact le_refl _
    | exact performMitosis_currentSize_le cfg ops o.mitD st
    | (rename_i hm
       rw [performMitosis_fst_false cfg ops o.mitD st (by simpa using hm)])

/-- The DDL block keeps the neuron count within `maxNeurons`. -/
theorem structDdl_currentSize_bound (cfg : SimulationConfig) (ops : Ops) (o : StepOracle)
    (sn : StrategyName) (a : Hyperparams) (st : EngineState) (status : Status)
    (h : st.currentSize ≤ cfg.maxNeurons) :
    (structDdl cfg ops o sn a st status).1.currentSize ≤ cfg.maxNeurons := by
  unfold structDdl
  dsimp only
  repeat' split
  all_goals
    simp only [logEvent_currentSize, deltaBasedPrune_currentSize,
      performSmartRewiring_currentSize]
  all_goals first
    | exact h
    | exact performMitosis_currentSize_bound cfg ops o.mitD st h
    | (rename_i hm
       rw [performMitosis_fst_false cfg ops o.mitD st (by simpa using hm)]
       exact h)

/-- The regrow block leaves the neuron count untouched. -/
@[simp] theorem structRegrow_currentSize (cfg : SimulationConfig) (r : RegrowRand)
    (N : ℕ) (st : EngineState) (status : Status) :
    (structRegrow cfg r N st status).1.currentSize = st.currentSize := by
  unfold structRegrow
  dsimp only
  split
  · simp [regrowSynapses_currentSize]
  · rfl

/-- The heartbeat block leaves the neuron count untouched. -/
@[simp] theorem structHeartbeat_currentSize (cfg : SimulationConfig)
    (cc : MetaControllerConfig) (st : EngineState) (ctl : CtlState) :
    (structHeartbeat cfg cc st ctl).1.currentSize = st.currentSize := by
  unfold structHeartbeat
  split
  · simp [pruneSynapses_currentSize]
  · rfl

/-- The structural branch never shrinks the network. -/
theorem structuralCore_currentSize_le (cfg : SimulationConfig)
    (cc : MetaControllerConfig) (ops : Ops) (o : StepOracle) (sn : StrategyName)
    (a : Hyperparams) (e : ℚ) (st : EngineState) (ctl : CtlState) :
    st.currentSize ≤ (structuralCore cfg cc ops o sn a e st ctl).1.currentSize := by
  unfold structuralCore
  dsimp only
  rw [structHeartbeat_currentSize, structRegrow_currentSize]
  refine le_trans ?_ (structDdl_currentSize_le cfg ops o sn a _ _)
  refine le_trans ?_ (structExhaustion_currentSize_le cfg ops o.mit st.currentSize
    (structDensityCooldown e (structTrend cfg e st).1) (structTrend cfg e st).2)
  simp

/-- The structural branch keeps the neuron count within `maxNeurons`. -/
theorem structuralCore_currentSize_bound (cfg : SimulationConfig)
    (cc : MetaControllerConfig) (ops : Ops) (o : StepOracle) (sn : StrategyName)
    (a : Hyperparams) (e : ℚ) (st : EngineState) (ctl : CtlState)
    (h : st.currentSize ≤ cfg.maxNeurons) :
    (structuralCore cfg cc ops o sn a e st ctl).1.currentSize ≤ cfg.maxNeurons := by
  unfold structuralCore
  dsimp only
  rw [structHeartbeat_currentSize, structRegrow_currentSize]
  refine structDdl_currentSize_bound cfg ops o sn a _ _ ?_
  refine structExhaustion_currentSize_bound cfg ops o.mit st.currentSize
    (structDensityCooldown e (structTrend cfg e st).1) (structTrend cfg e st).2 ?_
  simpa using h

/-- The status/structural dispatch never shrinks the network. -/
theorem statusPhase_currentSize_le (cfg : SimulationConfig) (cc : MetaControllerConfig)
    (ops : Ops) (o : StepOracle) (sn : StrategyName) (a : Hyperparams) (e : ℚ)
    (st : EngineState) (ctl : CtlState) :
    st.currentSize ≤ (statusPhase cfg cc ops o sn a e st ctl).1.currentSize := by
  unfold statusPhase
  dsimp only
  split
  · split <;> exact le_refl _
  · split
    · simp
    · split
      · exact le_refl _
      · exact structuralCore_currentSize_le cfg cc ops o sn a e
          { st with solvedGracePeriod := 0 } ctl

/-- The status/structural dispatch keeps the neuron count within `maxNeurons`. -/
theorem statusPhase_currentSize_bound (cfg : SimulationConfig)
    (cc : MetaControllerConfig) (ops : Ops) (o : StepOracle) (sn : StrategyName)
    (a : Hyperparams) (e : ℚ) (st : EngineState) (ctl : CtlState)
    (h : st.currentSize ≤ cfg.maxNeurons) :
    (statusPhase cfg cc ops o sn a e st ctl).1.currentSize ≤ cfg.maxNeurons := by
  unfold statusPhase
  dsimp only
  split
  · split <;> exact h
  · split
    · simpa using h
    · split
      · exact h
      · exact structuralCore_currentSize_bound cfg cc ops o sn a e
          { st with solvedGracePeriod := 0 } ctl h

/-- One tick never shrinks the network. -/
theorem step_currentSize_le (cfg : SimulationConfig) (cc : MetaControllerConfig)
    (ops : Ops) (o : StepOracle) (st : EngineState) (ctl : CtlState) :
    st.currentSize ≤ (step cfg cc ops o st ctl).1.currentSize := by
  unfold step
  dsimp only
  split
  · simp
  · simp only [getMetrics_fst]
    refine le_trans (le_of_eq ?_) (statusPhase_currentSize_le cfg cc ops o _ _ _ _ _)
    simp [apply_ite EngineState.currentSize]

/-- One tick keeps the neuron count within `maxNeurons`. -/
theorem step_currentSize_bound (cfg : SimulationConfig) (cc : MetaControllerConfig)
    (ops : Ops) (o : StepOracle) (st : EngineState) (ctl : CtlState)
    (h : st.currentSize ≤ cfg.maxNeurons) :
    (step cfg cc ops o st ctl).1.currentSize ≤ cfg.maxNeurons := by
  unfold step
  dsimp only
  split
  · simpa using h
  · simp only [getMetrics_fst]
    refine statusPhase_currentSize_bound cfg cc ops o _ _ _ _ _ ?_
    simpa [apply_ite EngineState.currentSize] using h

/-- `runSteps` over `o :: os` first ticks with `o`, then folds the rest. -/
theorem runSteps_cons (cfg : SimulationConfig) (cc : MetaControllerConfig) (ops : Ops)
    (o : StepOracle) (os : List StepOracle) (st : EngineState) (ctl : CtlState) :
    runSteps cfg cc ops (o :: os) st ctl
      = runSteps cfg cc ops os (step cfg cc ops o st ctl).1
          (step cfg cc ops o st ctl).2.1 := rfl

/-- Any run of ticks never shrinks the network and keeps it within
`maxNeurons`. -/
theorem runSteps_currentSize_le_bound (cfg : SimulationConfig)
    (cc : MetaControllerConfig) (ops : Ops) (os : List StepOracle) (st : EngineState)
    (ctl : CtlState) :
    st.currentSize ≤ (runSteps cfg cc ops os st ctl).1.currentSize ∧
    (st.currentSize ≤ cfg.maxNeurons
      → (runSteps cfg cc ops os st ctl).1.currentSize ≤ cfg.maxNeurons) := by
  induction os generalizing st ctl with
  | nil => exact ⟨le_refl _, fun h => h⟩
  | cons o os ih =>
    rw [runSteps_cons]
    constructor
    · exact le_trans (step_currentSize_le cfg cc ops o st ctl)
        (ih (step cfg cc ops o st ctl).1 (step cfg cc ops o st ctl).2.1).1
    · intro h
      exact (ih (step cfg cc ops o st ctl).1 (step cfg cc ops o st ctl).2.1).2
        (step_currentSize_bound cfg cc ops o st ctl h)

/-- The freshly constructed network has `initialNeurons` live neurons. -/
@[simp] theorem initializeNetwork_currentSize (cfg : SimulationConfig) (ops : Ops)
    (r : InitRand) :
    (initializeNetwork cfg ops r).currentSize = cfg.initialNeurons := by
  unfold initializeNetwork
  dsimp only
  simp

/-- C2: starting from a network constructed with
`initialNeurons ≤ maxNeurons`, `currentSize` is non-decreasing across every
sequence of ticks (any prefix has no more neurons than the full run) and
never exceeds `maxNeurons`; and a mitosis request at full capacity returns
`false` and leaves the state unchanged. -/
theorem c2_size_monotone_bounded (cfg : SimulationConfig) (cc : MetaControllerConfig)
    (ops : Ops) (ir : InitRand) (os1 os2 : List StepOracle) (ctl : CtlState)
    (h : cfg.initialNeurons ≤ cfg.maxNeurons) :
    (runSteps cfg cc ops os1 (initializeNetwork cfg ops ir) ctl).1.currentSize
      ≤ (runSteps cfg cc ops (os1 ++ os2) (initializeNetwork cfg ops ir) ctl).1.currentSize
    ∧ (runSteps cfg cc ops (os1 ++ os2)
        (initializeNetwork cfg ops ir) ctl).1.currentSize ≤ cfg.maxNeurons
    ∧ ∀ (r : MitosisRand) (st : EngineState), st.currentSize = cfg.maxNeurons
        → performMitosis cfg ops r st = (false, st) := by
  have happ : runSteps cfg cc ops (os1 ++ os2) (initializeNetwork cfg ops ir) ctl
      = runSteps cfg cc ops os2
          (runSteps cfg cc ops os1 (initializeNetwork cfg ops ir) ctl).1
          (runSteps cfg cc ops os1 (initializeNetwork cfg ops ir) ctl).2 := by
    unfold runSteps
    rw [List.foldl_append]
  refine ⟨?_, ?_, ?_⟩
  · rw [happ]
    exact (runSteps_currentSize_le_bound cfg cc ops os2 _ _).1
  · rw [happ]
    refine (runSteps_currentSize_le_bound cfg cc ops os2 _ _).2 ?_
    refine (runSteps_currentSize_le_bound cfg cc ops os1 _ _).2 ?_
    rw [initializeNetwork_currentSize]
    exact h
  · intro r st hst
    exact performMitosis_at_capacity cfg ops r st (le_of_eq hst.symm)

/-- Witness for C2 on the concrete two-neuron configuration with one tick:
the size after the empty prefix is at most the size after the tick, the size
stays within `maxNeurons`, and mitosis at capacity is the identity. -/
theorem c2_witness :
    cfg2.initialNeurons ≤ cfg2.maxNeurons ∧
    ((runSteps cfg2 cc1 opsZ [] (initializeNetwork cfg2 opsZ ir8) ctl0).1.currentSize
       ≤ (runSteps cfg2 cc1 opsZ ([] ++ [oC7])
           (initializeNetwork cfg2 opsZ ir8) ctl0).1.currentSize
     ∧ (runSteps cfg2 cc1 opsZ ([] ++ [oC7])
         (initializeNetwork cfg2 opsZ ir8) ctl0).1.currentSize ≤ cfg2.maxNeurons
     ∧ ∀ (r : MitosisRand) (st : EngineState), st.currentSize = cfg2.maxNeurons
         → performMitosis cfg2 opsZ r st = (false, st)) := by
  have h : cfg2.initialNeurons ≤ cfg2.maxNeurons := by
    norm_num [cfg2, DEFAULT_CONFIG]
  exact ⟨h, c2_size_monotone_bounded cfg2 cc1 opsZ ir8 [] [oC7] ctl0 h⟩

set_option maxHeartbeats 1000000 in
/-- C8 (refuted): the engine never enforces Dale's Law.  Already the freshly
initialized network carries a nonzero outgoing weight whose sign differs from
its source neuron's type: on the concrete draws `ir8`, neuron 0 is excitatory
(`neuronTypes[0] = 1`) yet `weights[0*maxN+0] = -0.7`, so
`sign(weights[0][0]) ≠ neuronTypes[0]`. -/
theorem c8_dales_law_violated_at_init :
    (initializeNetwork cfg21 opsZ ir8).weights.getD 0 0 = -(7/10) ∧
    (initializeNetwork cfg21 opsZ ir8).neuronTypes.getD 0 0 = 1 ∧
    jsSign ((initializeNetwork cfg21 opsZ ir8).weights.getD 0 0)
      ≠ ((initializeNetwork cfg21 opsZ ir8).neuronTypes.getD 0 0 : ℚ) := by
  have hw : (initializeNetwork cfg21 opsZ ir8).weights.getD 0 0 = -(7/10) := by
    norm_num [initializeNetwork, applySpectralNormalization, powerIterate, powerIterOnce,
      sigmaEstimate, sumR, mapI, mapIdxFrom, List.range_succ, cfg21, ir8, opsZ,
      REGIMES_CRUISE, DEFAULT_CONFIG]
  have ht : (initializeNetwork cfg21 opsZ ir8).neuronTypes.getD 0 0 = 1 := by
    norm_num [initializeNetwork, applySpectralNormalization, powerIterate, powerIterOnce,
      sigmaEstimate, sumR, mapI, mapIdxFrom, List.range_succ, cfg21, ir8, opsZ,
      REGIMES_CRUISE, DEFAULT_CONFIG]
  refine ⟨hw, ht, ?_⟩
  rw [hw, ht]
  norm_num [jsSign]

/-- Counterexample to C7: a stagnant, unlocked, high-error tick on which the
patience counter crosses the configured `patienceLimit` (256 → 257) with no
mitosis: the neuron count stays 2 and the counter does not reset. -/
theorem c7_counterexample :
    stC7.isLocked = false ∧
    cfg2.unlockThreshold < stC7.recentMSE ∧
    stC7.patienceCounter = cfg2.patienceLimit ∧
    (step cfg2 cc1 opsZ oC7 stC7 ctl0).1.patienceCounter = cfg2.patienceLimit + 1 ∧
    (step cfg2 cc1 opsZ oC7 stC7 ctl0).1.currentSize = stC7.currentSize := by
  refine ⟨rfl, by norm_num [cfg2, stC7, DEFAULT_CONFIG], rfl, ?_, ?_⟩
  · rw [evStep]
    rfl
  · rw [evStep]
    rfl

/-- Each trend tick either reports LEARNING and decrements the patience
counter (floored at 0) or reports STAGNANT and increments it. -/
theorem structTrend_cases (cfg : SimulationConfig) (e : ℚ) (st : EngineState) :
    (structTrend cfg e st).2 = Status.LEARNING
      ∧ (structTrend cfg e st).1.patienceCounter = st.patienceCounter - 1
    ∨ (structTrend cfg e st).2 = Status.STAGNANT
      ∧ (structTrend cfg e st).1.patienceCounter = st.patienceCounter + 1 := by
  unfold structTrend
  dsimp only
  repeat' split
  all_goals first
    | (left; exact ⟨rfl, rfl⟩)
    | (right; exact ⟨rfl, rfl⟩)

/-- C7 (amended): the patience counter increments on every stagnant trend
tick without any bound tied to `patienceLimit` (which `step()` never reads),
and forced growth follows the combinatorial-exhaustion rule instead: when
the network is tiny (`N < 16`), failing badly (`recentMSE > 0.05`), off
cooldown, and either the counter exceeds `max(20, 30·N²·density)` or more
than 500 steps have elapsed, mitosis fires (capacity permitting), raising
the neuron count by exactly 1 and resetting the patience counter to 0. -/
theorem c7_amended_patience_and_growth (cfg : SimulationConfig) (e : ℚ)
    (ops : Ops) (r : MitosisRand) (N : ℕ) (st st2 : EngineState) (status : Status)
    (hc : N < 16 ∧ (max 20 ((N : ℚ) * (N : ℚ) * st2.currentTargetDensity * 30)
              < (st2.patienceCounter : ℚ) ∨ 500 < st2.stepCount)
          ∧ 5/100 < st2.recentMSE ∧ st2.structuralCooldown = 0)
    (hcap : st2.currentSize < cfg.maxNeurons) :
    ((structTrend cfg e st).2 = Status.STAGNANT
        → (structTrend cfg e st).1.patienceCounter = st.patienceCounter + 1) ∧
    (structExhaustion cfg ops r N st2 status).1.currentSize = st2.currentSize + 1 ∧
    (structExhaustion cfg ops r N st2 status).1.patienceCounter = 0 := by
  refine ⟨?_, ?_, ?_⟩
  · intro hs
    rcases structTrend_cases cfg e st with ⟨h1, _⟩ | ⟨_, h2⟩
    · rw [h1] at hs
      cases hs
    · exact h2
  · unfold structExhaustion
    dsimp only
    rw [if_pos hc, if_pos (performMitosis_success cfg ops r st2 hcap).1]
    simp only [logEvent_currentSize]
    exact (performMitosis_success cfg ops r st2 hcap).2
  · unfold structExhaustion
    dsimp only
    rw [if_pos hc, if_pos (performMitosis_success cfg ops r st2 hcap).1]
    simp only [logEvent_patienceCounter]

def stX7 : EngineState :=
  { stC7 with currentSize := 1, structuralCooldown := 0, recentMSE := 6/100 }

/-- Witness for the amended C7 at a concrete tiny failing network: the
exhaustion condition holds, there is spare capacity, and one exhaustion pass
grows the network from 1 to 2 neurons while resetting the counter. -/
theorem c7_amended_witness :
    ((1 : ℕ) < 16 ∧ (max 20 ((1 : ℚ) * (1 : ℚ) * stX7.currentTargetDensity * 30)
          < (stX7.patienceCounter : ℚ) ∨ 500 < stX7.stepCount)
      ∧ 5/100 < stX7.recentMSE ∧ stX7.structuralCooldown = 0) ∧
    stX7.currentSize < cfg2.maxNeurons ∧
    (structExhaustion cfg2 opsZ mitR0 1 stX7 Status.STAGNANT).1.currentSize
      = stX7.currentSize + 1 ∧
    (structExhaustion cfg2 opsZ mitR0 1 stX7 Status.STAGNANT).1.patienceCounter = 0 := by
  have hc : (1 : ℕ) < 16 ∧ (max 20 ((1 : ℚ) * (1 : ℚ) * stX7.currentTargetDensity * 30)
          < (stX7.patienceCounter : ℚ) ∨ 500 < stX7.stepCount)
      ∧ 5/100 < stX7.recentMSE ∧ stX7.structuralCooldown = 0 := by
    refine ⟨by norm_num, Or.inr (by norm_num [stX7, stC7]), by norm_num [stX7, stC7], rfl⟩
  have hcap : stX7.currentSize < cfg2.maxNeurons := by
    norm_num [stX7, stC7, cfg2, DEFAULT_CONFIG]
  exact ⟨hc, hcap,
    (c7_amended_patience_and_growth cfg2 (3/100) opsZ mitR0 1 stC7 stX7
      Status.STAGNANT hc hcap).2.1,
    (c7_amended_patience_and_growth cfg2 (3/100) opsZ mitR0 1 stC7 stX7
      Status.STAGNANT hc hcap).2.2⟩

/-- The log events that witness a synapse-pruning action: the heartbeat
prune report, the DDL prune report, and the DDL prune action marker. -/
def pruneEvent : LogEvent → Prop
  | LogEvent.pruneRemoved _ => True
  | LogEvent.ddlPruneRemoved _ => True
  | LogEvent.ddlPruneAction => True
  | _ => False

/-- `q'` extends `q` only by non-prune events. -/
def noPruneGrowth (q q' : List LogEvent) : Prop :=
  ∀ x ∈ q', x ∈ q ∨ ¬ pruneEvent x

theorem noPruneGrowth_refl (q : List LogEvent) : noPruneGrowth q q :=
  fun _ hx => Or.inl hx

theorem noPruneGrowth_trans {q1 q2 q3 : List LogEvent} (h12 : noPruneGrowth q1 q2)
    (h23 : noPruneGrowth q2 q3) : noPruneGrowth q1 q3 := by
  intro x hx
  rcases h23 x hx with h | h
  · exact h12 x h
  · exact Or.inr h

theorem noPruneGrowth_append {q : List LogEvent} {e : LogEvent} (h : ¬ pruneEvent e) :
    noPruneGrowth q (q ++ [e]) := by
  intro x hx
  rcases List.mem_append.1 hx with h1 | h2
  · exact Or.inl h1
  · right
    have hx' : x = e := by simpa using h2
    rw [hx']
    exact h

theorem not_pruneEvent_mitosis (i : Nat) : ¬ pruneEvent (LogEvent.mitosis i) :=
  fun h => h

theorem not_pruneEvent_rewired (n : Nat) : ¬ pruneEvent (LogEvent.rewired n) :=
  fun h => h

theorem not_pruneEvent_exhaustionGrow : ¬ pruneEvent LogEvent.exhaustionGrow :=
  fun h => h

theorem not_pruneEvent_ddlGrow : ¬ pruneEvent LogEvent.ddlGrow :=
  fun h => h

theorem not_pruneEvent_unlock : ¬ pruneEvent LogEvent.unlock :=
  fun h => h

theorem not_pruneEvent_override : ¬ pruneEvent LogEvent.overrideStagnation :=
  fun h => h

theorem not_pruneEvent_strategyLog (n : StrategyName) :
    ¬ pruneEvent (LogEvent.strategyLog n) :=
  fun h => h

theorem not_pruneEvent_emergency : ¬ pruneEvent LogEvent.emergencyStabilization :=
  fun h => h

/-- The one-step queue growth of a guarded `logEvent` call. -/
theorem noPruneGrowth_ite_logEvent (c : Prop) [Decidable c] (X : EngineState)
    (e : LogEvent) (h : ¬ pruneEvent e) :
    noPruneGrowth X.logQueue (if c then logEvent X e else X).logQueue := by
  split
  · simp only [logEvent_logQueue]
    exact noPruneGrowth_append h
  · exact noPruneGrowth_refl _

/-- Mitosis logs only mitosis events. -/
theorem performMitosis_noPrune (cfg : SimulationConfig) (ops : Ops) (r : MitosisRand)
    (st : EngineState) :
    noPruneGrowth st.logQueue (performMitosis cfg ops r st).2.logQueue := by
  unfold performMitosis
  dsimp only
  split
  · exact noPruneGrowth_refl _
  · simp only [applySpectralNormalization_logQueue, logEvent_logQueue, normFold_logQueue]
    intro x hx
    rcases List.mem_append.1 hx with hx1 | hx2
    · rcases List.mem_append.1 hx1 with h | h
      · exact Or.inl h
      · right
        have hx' : x = LogEvent.mitosis st.currentSize := by simpa using h
        rw [hx']
        exact not_pruneEvent_mitosis _
    · right
      have hx' : x = LogEvent.mitosis st.currentSize := by simpa using hx2
      rw [hx']
      exact not_pruneEvent_mitosis _

/-- Membership in a conditional list comes from one of the branches. -/
theorem mem_ite_list (c : Prop) [Decidable c] {A B : List LogEvent} {x : LogEvent}
    (h : x ∈ (if c then A else B)) : x ∈ A ∨ x ∈ B := by
  split at h
  · exact Or.inl h
  · exact Or.inr h

/-- Smart rewiring logs only rewire events. -/
theorem performSmartRewiring_noPrune (cfg : SimulationConfig) (r : RewireRand)
    (st : EngineState) (count : ℤ) :
    noPruneGrowth st.logQueue (performSmartRewiring cfg r st count).logQueue := by
  intro x hx
  unfold performSmartRewiring at hx
  dsimp only at hx
  simp only [apply_ite EngineState.logQueue, normFold_logQueue, logEvent_logQueue,
    regrowSynapses_logQueue, ite_self] at hx
  rcases mem_ite_list _ hx with h | h
  · rcases List.mem_append.1 h with h1 | h2
    · exact Or.inl h1
    · right
      have hx' := List.mem_singleton.mp h2
      subst hx'
      exact not_pruneEvent_rewired _
  · exact Or.inl h

@[simp] theorem structTrend_logQueue (cfg : SimulationConfig) (e : ℚ)
    (st : EngineState) : (structTrend cfg e st).1.logQueue = st.logQueue := by
  unfold structTrend
  dsimp only
  repeat' split
  all_goals rfl

@[simp] theorem structTrend_recentMSE (cfg : SimulationConfig) (e : ℚ)
    (st : EngineState) : (structTrend cfg e st).1.recentMSE = st.recentMSE := by
  unfold structTrend
  dsimp only
  repeat' split
  all_goals rfl

@[simp] theorem structDensityCooldown_logQueue (e : ℚ) (st : EngineState) :
    (structDensityCooldown e st).logQueue = st.logQueue := rfl

@[simp] theorem structDensityCooldown_recentMSE (e : ℚ) (st : EngineState) :
    (structDensityCooldown e st).recentMSE = st.recentMSE := rfl

@[simp] theorem structExhaustion_recentMSE (cfg : SimulationConfig) (ops : Ops)
    (r : MitosisRand) (N : ℕ) (st : EngineState) (status : Status) :
    (structExhaustion cfg ops r N st status).1.recentMSE = st.recentMSE := by
  unfold structExhaustion
  dsimp only
  split
  · split
    · simp only [logEvent_recentMSE]
      exact performMitosis_recentMSE cfg ops r st
    · next hm =>
      rw [performMitosis_fst_false cfg ops r st (by simpa using hm)]
  · rfl

@[simp] theorem structDdl_recentMSE (cfg : SimulationConfig) (ops : Ops)
    (o : StepOracle) (sn : StrategyName) (a : Hyperparams) (st : EngineState)
    (status : Status) :
    (structDdl cfg ops o sn a st status).1.recentMSE = st.recentMSE := by
  unfold structDdl
  dsimp only
  repeat' split
  all_goals
    simp [logEvent_recentMSE, performMitosis_recentMSE, deltaBasedPrune_recentMSE,
      performSmartRewiring_recentMSE]

@[simp] theorem structRegrow_recentMSE (cfg : SimulationConfig) (r : RegrowRand)
    (N : ℕ) (st : EngineState) (status : Status) :
    (structRegrow cfg r N st status).1.recentMSE = st.recentMSE := by
  unfold structRegrow
  dsimp only
  split
  · simp [regrowSynapses_recentMSE]
  · rfl

@[simp] theorem structRegrow_logQueue (cfg : SimulationConfig) (r : RegrowRand)
    (N : ℕ) (st : EngineState) (status : Status) :
    (structRegrow cfg r N st status).1.logQueue = st.logQueue := by
  unfold structRegrow
  dsimp only
  split
  · simp [regrowSynapses_logQueue]
  · rfl

/-- The exhaustion block logs only growth events. -/
theorem structExhaustion_noPrune (cfg : SimulationConfig) (ops : Ops) (r : MitosisRand)
    (N : ℕ) (st : EngineState) (status : Status) :
    noPruneGrowth st.logQueue (structExhaustion cfg ops r N st status).1.logQueue := by
  unfold structExhaustion
  dsimp only
  split
  · split
    · simp only [logEvent_logQueue]
      exact noPruneGrowth_trans (performMitosis_noPrune cfg ops r st)
        (noPruneGrowth_append not_pruneEvent_exhaustionGrow)
    · next hm =>
      rw [performMitosis_fst_false cfg ops r st (by simpa using hm)]
      exact noPruneGrowth_refl _
  · exact noPruneGrowth_refl _

/-- The DDL block never reaches its prune action when the applied parameters
are the selected strategy's own preset: the prune bias requires STABILIZE,
whose plasticity magnitude β = 0.05 fails the β > 0.3 gate. -/
theorem structDdl_noPrune (cfg : SimulationConfig) (ops : Ops) (o : StepOracle)
    (sn : StrategyName) (a : Hyperparams) (st : EngineState) (status : Status)
    (ha : a = STRATEGIES sn) :
    noPruneGrowth st.logQueue (structDdl cfg ops o sn a st status).1.logQueue := by
  subst ha
  unfold structDdl
  dsimp only
  cases sn
  case EXPLORE =>
    rw [if_pos (show EXPLORE = EXPLORE ∨ EXPLORE = RESET from Or.inl rfl),
        if_pos (show (3:ℚ)/10 < 8/10 from by norm_num)]
    split
    · split
      · simp only [logEvent_logQueue]
        exact noPruneGrowth_trans (performMitosis_noPrune cfg ops o.mitD st)
          (noPruneGrowth_append not_pruneEvent_ddlGrow)
      · next hm =>
        rw [performMitosis_fst_false cfg ops o.mitD st (by simpa using hm)]
        exact noPruneGrowth_refl _
    · exact noPruneGrowth_refl _
  case RESET =>
    rw [if_pos (show RESET = EXPLORE ∨ RESET = RESET from Or.inr rfl),
        if_pos (show (3:ℚ)/10 < 8/10 from by norm_num)]
    split
    · split
      · simp only [logEvent_logQueue]
        exact noPruneGrowth_trans (performMitosis_noPrune cfg ops o.mitD st)
          (noPruneGrowth_append not_pruneEvent_ddlGrow)
      · next hm =>
        rw [performMitosis_fst_false cfg ops o.mitD st (by simpa using hm)]
        exact noPruneGrowth_refl _
    · exact noPruneGrowth_refl _
  case EXPLOIT =>
    rw [if_neg (show ¬(EXPLOIT = EXPLORE ∨ EXPLOIT = RESET) from by decide),
        if_neg (show ¬(EXPLOIT = STABILIZE) from by decide),
        if_neg (show ¬((3:ℚ)/10 < 0) from by norm_num),
        if_neg (show ¬((0:ℚ) < -3/10) from by norm_num)]
    split
    · exact performSmartRewiring_noPrune cfg o.rewire st _
    · exact noPruneGrowth_refl _
  case STABILIZE =>
    have hs : ¬((3:ℚ)/10 < ((STRATEGIES STABILIZE).lvGrowth
        + (STRATEGIES STABILIZE).lvDecay) * 10 ∧ st.structuralCooldown = 0) := by
      intro h
      exact absurd h.1 (by norm_num [STRATEGIES])
    rw [if_neg hs]
    exact noPruneGrowth_refl _
  case CONSOLIDATE =>
    have hs : ¬((3:ℚ)/10 < ((STRATEGIES CONSOLIDATE).lvGrowth
        + (STRATEGIES CONSOLIDATE).lvDecay) * 10 ∧ st.structuralCooldown = 0) := by
      intro h
      exact absurd h.1 (by norm_num [STRATEGIES])
    rw [if_neg hs]
    exact noPruneGrowth_refl _

/-- Whatever branch `selectStrategy` returns through, the applied parameter
record is exactly the preset of the returned strategy name. -/
theorem selectStrategy_params (cc : MetaControllerConfig) (ops : Ops) (r : ℚ)
    (ctl : CtlState) (fs : List ℚ) (l : ℚ) :
    (selectStrategy cc ops r ctl fs l).1.params
      = STRATEGIES (selectStrategy cc ops r ctl fs l).1.strategyName := by
  unfold selectStrategy
  dsimp only
  repeat' split
  all_goals rfl

/-- The structural branch prunes nothing when the smoothed error is above the
unlock threshold: the heartbeat prune hits its DO-NO-HARM guard and the DDL
prune action is unreachable under the strategy presets. -/
theorem structuralCore_noPrune (cfg : SimulationConfig) (cc : MetaControllerConfig)
    (ops : Ops) (o : StepOracle) (sn : StrategyName) (a : Hyperparams) (e : ℚ)
    (st : EngineState) (ctl : CtlState) (ha : a = STRATEGIES sn)
    (hmse : cfg.unlockThreshold < st.recentMSE) :
    noPruneGrowth st.logQueue (structuralCore cfg cc ops o sn a e st ctl).1.logQueue := by
  have hhb : ∀ (X : EngineState) (c : CtlState), cfg.unlockThreshold < X.recentMSE →
      (structHeartbeat cfg cc X c).1.logQueue = X.logQueue := by
    intro X c hX
    unfold structHeartbeat
    split
    · rw [pruneSynapses_guard cfg cc X c hX]
    · rfl
  unfold structuralCore
  dsimp only
  rw [hhb _ _ ?hm]
  case hm =>
    simp only [structRegrow_recentMSE, structDdl_recentMSE, structExhaustion_recentMSE,
      structDensityCooldown_recentMSE, structTrend_recentMSE]
    exact hmse
  rw [structRegrow_logQueue]
  refine noPruneGrowth_trans ?hex (structDdl_noPrune cfg ops o sn a _ _ ha)
  have h := structExhaustion_noPrune cfg ops o.mit st.currentSize
    (structDensityCooldown e (structTrend cfg e st).1) (structTrend cfg e st).2
  rwa [structDensityCooldown_logQueue, structTrend_logQueue] at h

/-- The status/structural dispatch prunes nothing under high smoothed error. -/
theorem statusPhase_noPrune (cfg : SimulationConfig) (cc : MetaControllerConfig)
    (ops : Ops) (o : StepOracle) (sn : StrategyName) (a : Hyperparams) (e : ℚ)
    (st : EngineState) (ctl : CtlState) (ha : a = STRATEGIES sn)
    (hmse : cfg.unlockThreshold < st.recentMSE) :
    noPruneGrowth st.logQueue (statusPhase cfg cc ops o sn a e st ctl).1.logQueue := by
  unfold statusPhase
  dsimp only
  split
  · split
    · exact noPruneGrowth_refl _
    · exact noPruneGrowth_refl _
  · split
    · simp only [logEvent_logQueue]
      exact noPruneGrowth_append not_pruneEvent_unlock
    · split
      · exact noPruneGrowth_refl _
      · exact structuralCore_noPrune cfg cc ops o sn a e
          { st with solvedGracePeriod := 0 } ctl ha hmse

/-- C4: on a tick whose honest short-window smoothed error exceeds
`unlockThreshold`, no pruning path fires: every log event the tick emits is a
non-prune event (growth, rewire, strategy or emergency logs only), and the
heartbeat `pruneSynapses` is the identity on any state whose smoothed error
exceeds the threshold ("DO NO HARM" guard). -/
theorem c4_no_prune_when_error_high (cfg : SimulationConfig) (cc : MetaControllerConfig)
    (ops : Ops) (o : StepOracle) (st : EngineState) (ctl : CtlState)
    (hq : st.logQueue = [])
    (hhigh : cfg.unlockThreshold
      < (updateErrorWindow (reservoirUpdate cfg ops o.input o.target st)
          |o.target - stepPrediction cfg ops o st|).recentMSE) :
    (∀ x ∈ (step cfg cc ops o st ctl).2.2.logs, ¬ pruneEvent x) ∧
    ∀ (st2 : EngineState) (ctl2 : CtlState), cfg.unlockThreshold < st2.recentMSE
      → pruneSynapses cfg cc st2 ctl2 = (st2, ctl2) := by
  constructor
  · by_cases hg : explosionGuardFires cfg ops o st
    · unfold step
      dsimp only
      rw [if_pos hg]
      intro x hx
      unfold emergencyStabilize at hx
      dsimp only at hx
      simp only [getMetrics_logs, applySpectralNormalization_logQueue,
        pushPenaltyError_logQueue, logEvent_logQueue, reservoirUpdate_logQueue, hq,
        List.nil_append, List.mem_singleton] at hx
      subst hx
      exact not_pruneEvent_emergency
    · unfold step
      dsimp only
      rw [if_neg hg]
      intro x hx
      simp only [getMetrics_logs] at hx
      rcases statusPhase_noPrune _ _ _ _ _ _ _ _ _
          (selectStrategy_params _ _ _ _ _ _)
          (by
            simp only [apply_ite EngineState.recentMSE, logEvent_recentMSE,
              applySpectralNormalization_recentMSE, applyStrategyParams_recentMSE,
              applySupervisedHebbian_recentMSE, updateReadout_recentMSE, ite_self]
            exact hhigh)
          x hx with hin | hnp
      · simp only [apply_ite EngineState.logQueue, logEvent_logQueue,
          applySpectralNormalization_logQueue, applyStrategyParams_logQueue,
          applySupervisedHebbian_logQueue, updateReadout_logQueue,
          updateErrorWindow_logQueue, reservoirUpdate_logQueue, ite_self, hq,
          List.nil_append] at hin
        rcases mem_ite_list _ hin with h1 | h1
        · rcases List.mem_append.1 h1 with h2 | h2
          · rcases mem_ite_list _ h2 with h3 | h3
            · have hx' := List.mem_singleton.mp h3
              subst hx'
              exact not_pruneEvent_override
            · exact absurd h3 (List.not_mem_nil x)
          · have hx' := List.mem_singleton.mp h2
            subst hx'
            exact not_pruneEvent_strategyLog _
        · rcases mem_ite_list _ h1 with h3 | h3
          · have hx' := List.mem_singleton.mp h3
            subst hx'
            exact not_pruneEvent_override
          · exact absurd h3 (List.not_mem_nil x)
      · exact hnp
  · intro st2 ctl2 h
    exact pruneSynapses_guard cfg cc st2 ctl2 h

/-- Witness for C4 on the reference tick: its smoothed error 0.03 exceeds
`unlockThreshold` 0.02, its metrics carry no prune event, and the guarded
heartbeat prune is an identity under high error. -/
theorem c4_witness :
    stC7.logQueue = [] ∧
    cfg2.unlockThreshold
      < (updateErrorWindow (reservoirUpdate cfg2 opsZ oC7.input oC7.target stC7)
          |oC7.target - stepPrediction cfg2 opsZ oC7 stC7|).recentMSE ∧
    (∀ x ∈ (step cfg2 cc1 opsZ oC7 stC7 ctl0).2.2.logs, ¬ pruneEvent x) ∧
    ∀ (st2 : EngineState) (ctl2 : CtlState), cfg2.unlockThreshold < st2.recentMSE
      → pruneSynapses cfg2 cc1 st2 ctl2 = (st2, ctl2) := by
  have hq : stC7.logQueue = [] := rfl
  have hhigh : cfg2.unlockThreshold
      < (updateErrorWindow (reservoirUpdate cfg2 opsZ oC7.input oC7.target stC7)
          |oC7.target - stepPrediction cfg2 opsZ oC7 stC7|).recentMSE := by
    rw [show |oC7.target - stepPrediction cfg2 opsZ oC7 stC7| = 3/100 from by
      rw [evPrediction, oC7_target]
      norm_num]
    rw [show reservoirUpdate cfg2 opsZ oC7.input oC7.target stC7 = stC7a from by
      rw [oC7_input, oC7_target]
      exact evReservoir]
    rw [evWindow]
    norm_num [cfg2, DEFAULT_CONFIG]
  exact ⟨hq, hhigh, (c4_no_prune_when_error_high cfg2 cc1 opsZ oC7 stC7 ctl0 hq hhigh).1,
    (c4_no_prune_when_error_high cfg2 cc1 opsZ oC7 stC7 ctl0 hq hhigh).2⟩

end EvolverNN
